import Mathlib

/-!
# PB-ADV provisioning bearer (`subsys/bluetooth/mesh/pb_adv.c`)

A shallow embedding of the advertising provisioning bearer: the single static
`pb_link` object becomes an explicit `PbLink` value that every function takes
and returns, and every call that leaves the file (the advertising transport,
the bearer callbacks, the completion callback of a send) is recorded as an
`Effect`, in program order.

Machine integers are natural numbers: `uint8_t` values are reduced `% 256`
where the C code stores or transmits them, `uint16_t` values `% 65536`, and
`uint32_t` values `% 2 ^ 32`.  Shifts are the mathematical ones.
-/

namespace PbAdv

/-! ## Constants and macros -/

@[simp] def START_PAYLOAD_MAX : Nat := 20
@[simp] def CONT_PAYLOAD_MAX : Nat := 23

@[simp] def LINK_OPEN : Nat := 0x00
@[simp] def LINK_ACK : Nat := 0x01
@[simp] def LINK_CLOSE : Nat := 0x02

@[simp] def XACT_ID_MAX : Nat := 0x7f
@[simp] def XACT_ID_NVAL : Nat := 0xff
@[simp] def SEG_NVAL : Nat := 0xff

/-- Milliseconds: `30 * MSEC_PER_SEC`. -/
@[simp] def TRANSACTION_TIMEOUT : Int := 30000

@[simp] def RETRANSMITS_RELIABLE : Nat := 0
@[simp] def RETRANSMITS_ACK : Nat := 2
@[simp] def RETRANSMITS_LINK_CLOSE : Nat := 2

/-- Size given to `NET_BUF_SIMPLE_DEFINE_STATIC(rx_buf, 65)`. -/
@[simp] def RX_BUF_SIZE : Nat := 65

/-- The value of `ARRAY_SIZE(pb_link.tx.buf)`. -/
@[simp] def TX_BUF_COUNT : Nat := 3

/-- Modelled from the spec: the provisioning error codes of `prov.h`, which is
not among the sources; "malformed PDU" is `PROV_ERR_NVAL_FMT`. -/
@[simp] def PROV_ERR_NVAL_FMT : Nat := 0x02

/-- Modelled from the spec: the provisioning error codes of `prov.h`, which is
not among the sources; a message on an invalidated link is `PROV_ERR_UNEXP_PDU`. -/
@[simp] def PROV_ERR_UNEXP_PDU : Nat := 0x03

/-- Modelled from the spec: `enum prov_bearer_link_status` is declared outside
the sources; a close confirmed by the transport reports success. -/
@[simp] def PROV_BEARER_LINK_STATUS_SUCCESS : Nat := 0

/-- Modelled from the spec: `enum prov_bearer_link_status` is declared outside
the sources; the "timeout" status of a protocol inactivity timeout. -/
@[simp] def PROV_BEARER_LINK_STATUS_TIMEOUT : Nat := 1

/-- Modelled from the spec: `enum prov_bearer_link_status` is declared outside
the sources; the failure status of an abandoned transaction. -/
@[simp] def PROV_BEARER_LINK_STATUS_FAIL : Nat := 2

/-- The errno value `E2BIG`; the file returns it negated. -/
@[simp] def E2BIG : Int := 7

/-- The errno value `ENOMEM`; the file returns it negated. -/
@[simp] def ENOMEM : Int := 12

/-- The errno value `EBUSY`; the file returns it negated. -/
@[simp] def EBUSY : Int := 16

/-- The errno value `ENOBUFS`; the file returns it negated. -/
@[simp] def ENOBUFS : Int := 105

def GPCF (gpc : Nat) : Nat := gpc &&& 0x03
def GPC_START (last_seg : Nat) : Nat := (last_seg <<< 2) ||| 0x00
@[simp] def GPC_ACK : Nat := 0x01
def GPC_CONT (seg_id : Nat) : Nat := (seg_id <<< 2) ||| 0x02
def GPC_CTL (op : Nat) : Nat := (op <<< 2) ||| 0x03
def START_LAST_SEG (gpc : Nat) : Nat := gpc >>> 2
def CONT_SEG_INDEX (gpc : Nat) : Nat := gpc >>> 2
def BEARER_CTL (gpc : Nat) : Nat := gpc >>> 2
def BIT (n : Nat) : Nat := 1 <<< n

/-! ## Data model -/

/-- The bits of `pb_link.flags`. -/
structure Flags where
  ADV_LINK_ACTIVE : Bool
  ADV_LINK_ACK_RECVD : Bool
  ADV_LINK_CLOSING : Bool
  ADV_LINK_INVALID : Bool
  ADV_ACK_PENDING : Bool
  ADV_PROVISIONER : Bool
deriving DecidableEq, Repr

/-- The result of `atomic_clear(pb_link.flags)`. -/
def Flags.clear : Flags := ⟨false, false, false, false, false, false⟩

/-- The reassembly buffer `rx_buf`: its 65 bytes of storage and its `len`
field.  The `data` pointer of the C object always points at the start of the
storage (it is only ever reset), so it is not represented. -/
structure NetBufSimple where
  data : List Nat
  len : Nat
deriving DecidableEq, Repr

/-- An advertising buffer obtained from `adv_buf_create`: the retransmit count
it was created with, the bytes added so far, and `BT_MESH_ADV(buf)->busy`. -/
structure AdvBuf where
  xmit : Nat
  data : List Nat
  busy : Bool
deriving DecidableEq, Repr

/-- The fields of `pb_link.rx`. -/
structure Rx where
  id : Nat
  seg : Nat
  last_seg : Nat
  fcs : Nat
  buf : NetBufSimple
deriving DecidableEq, Repr

/-- The three slots `pb_link.tx.buf[0..2]`; `none` is a NULL pointer. -/
structure TxBuf where
  b0 : Option AdvBuf
  b1 : Option AdvBuf
  b2 : Option AdvBuf
deriving DecidableEq, Repr

/-- Slot `i` of `pb_link.tx.buf`. -/
def TxBuf.get (b : TxBuf) : Nat → Option AdvBuf
  | 0 => b.b0
  | 1 => b.b1
  | 2 => b.b2
  | _ => none

/-- The assignment `pb_link.tx.buf[i] = v`. -/
def TxBuf.set (b : TxBuf) (i : Nat) (v : Option AdvBuf) : TxBuf :=
  match i with
  | 0 => { b with b0 := v }
  | 1 => { b with b1 := v }
  | 2 => { b with b2 := v }
  | _ => b

/-- All three slots NULL. -/
def TxBuf.empty : TxBuf := ⟨none, none, none⟩

/-- The fields of `pb_link.tx`; `retransmit` records whether the retransmit
work item is scheduled, `cb` is `none` for a NULL completion callback. -/
structure Tx where
  start : Int
  id : Nat
  pending_ack : Nat
  buf : TxBuf
  cb : Option Nat
  cb_data : Nat
  retransmit : Bool
deriving DecidableEq, Repr

/-- The object `pb_link`; `cb` is `none` for a NULL callback table and
`prot_timer` records whether the protocol timeout work item is scheduled. -/
structure PbLink where
  id : Nat
  flags : Flags
  cb : Option Nat
  cb_data : Nat
  rx : Rx
  tx : Tx
  prot_timer : Bool
deriving DecidableEq, Repr

/-- The header fields `struct prov_rx` pulled off an inbound frame. -/
structure ProvRx where
  link_id : Nat
  xact_id : Nat
  gpc : Nat
deriving DecidableEq, Repr

/-- Which `struct bt_mesh_send_cb` a buffer is handed to the transport with:
`NULL`, the static `cb` of `gen_prov_ack_send` (`.start = ack_complete`), or
`buf_sent_cb` (`.start = buf_start`, `.end = buf_sent`). -/
inductive SendCb where
  | null
  | ack_complete
  | buf_sent_cb
deriving DecidableEq, Repr

/-- Calls that leave the file, in program order. -/
inductive Effect where
  /-- The call `bt_mesh_adv_send(buf, cb, NULL)`. -/
  | adv_send (buf : AdvBuf) (cb : SendCb)
  /-- The call `pb_link.cb->recv(..., pb_link.rx.buf)` with the first `len` bytes of the buffer. -/
  | recv (data : List Nat)
  /-- The call `pb_link.cb->error(..., err)`. -/
  | error (err : Nat)
  /-- The call `pb_link.cb->link_opened(...)`. -/
  | link_opened
  /-- The call `cb->link_closed(..., reason)`. -/
  | link_closed (reason : Nat)
  /-- The call `pb_link.tx.cb(err, pb_link.tx.cb_data)`. -/
  | send_complete (cb : Nat) (cb_data : Nat) (err : Int)
  /-- A `memcpy` of `len` bytes to offset `off` of the reassembly buffer. -/
  | memcpy (off : Int) (len : Nat)
  /-- The call `bt_test_mesh_prov_invalid_bearer(op)`. -/
  | test_invalid_bearer (op : Nat)
  /-- The call `bt_mesh_scan_enable()`. -/
  | scan_enable
  /-- The call `bt_mesh_beacon_enable()`. -/
  | beacon_enable
deriving DecidableEq, Repr

/-- What the file takes from its surroundings: the FCS primitives of the crypto
module, the local device UUID (`bt_mesh_prov_get()->uuid`) and the build
option `CONFIG_BT_TESTING`. -/
structure Env where
  bt_mesh_fcs_calc : List Nat → Nat
  bt_mesh_fcs_check : List Nat → Nat → Bool
  uuid : List Nat
  CONFIG_BT_TESTING : Bool

/-! ## Buffer primitives (`net/buf.h`) -/

/-- Big-endian encoding written by `net_buf_add_be32`. -/
def be32 (v : Nat) : List Nat :=
  [v / 2 ^ 24 % 256, v / 2 ^ 16 % 256, v / 2 ^ 8 % 256, v % 256]

/-- Big-endian encoding written by `net_buf_add_be16`. -/
def be16 (v : Nat) : List Nat :=
  [v / 2 ^ 8 % 256, v % 256]

def net_buf_add_be32 (b : AdvBuf) (v : Nat) : AdvBuf := { b with data := b.data ++ be32 v }
def net_buf_add_be16 (b : AdvBuf) (v : Nat) : AdvBuf := { b with data := b.data ++ be16 v }
def net_buf_add_u8 (b : AdvBuf) (v : Nat) : AdvBuf := { b with data := b.data ++ [v % 256] }
def net_buf_add_mem (b : AdvBuf) (mem : List Nat) : AdvBuf := { b with data := b.data ++ mem }

/-- The value `net_buf_simple_pull_u8` returns, and the rest of the buffer. -/
def net_buf_simple_pull_u8 (buf : List Nat) : Nat × List Nat :=
  (buf.getD 0 0 % 256, buf.drop 1)

/-- The value `net_buf_simple_pull_be16` returns, and the rest of the buffer. -/
def net_buf_simple_pull_be16 (buf : List Nat) : Nat × List Nat :=
  (buf.getD 0 0 % 256 * 256 + buf.getD 1 0 % 256, buf.drop 2)

/-- The value `net_buf_simple_pull_be32` returns, and the rest of the buffer. -/
def net_buf_simple_pull_be32 (buf : List Nat) : Nat × List Nat :=
  (buf.getD 0 0 % 256 * 2 ^ 24 + buf.getD 1 0 % 256 * 2 ^ 16 + buf.getD 2 0 % 256 * 2 ^ 8
    + buf.getD 3 0 % 256, buf.drop 4)

/-- The effect of `net_buf_simple_reset`: the length becomes 0, the storage stays. -/
def net_buf_simple_reset (b : NetBufSimple) : NetBufSimple := { b with len := 0 }

/-- The bytes `data[0 .. len)` of a buffer, which is what a consumer of the
`net_buf_simple` reads. -/
def NetBufSimple.bytes (b : NetBufSimple) : List Nat := b.data.take b.len

/-- A `memcpy` of `src` to offset `off` of the storage `dst`.  Only the bytes
that fall inside the storage are represented; every copy is also recorded as
an `Effect.memcpy` with its offset and length. -/
def memcpy (dst : List Nat) (off : Int) (src : List Nat) : List Nat :=
  (List.range dst.length).map fun (i : Nat) =>
    if off ≤ (i : Int) ∧ (i : Int) < off + (src.length : Int)
    then src.getD ((i : Int) - off).toNat 0
    else dst.getD i 0

/-- The C expression `x & ~(1 << n)`. -/
def clear_bit (x n : Nat) : Nat := x ^^^ (x &&& (1 <<< n))

def find_msb_set_from (x : Nat) : Nat → Nat
  | 0 => 0
  | n + 1 => if x.testBit n then n + 1 else find_msb_set_from x n

/-- Modelled from the spec: `find_msb_set` is a kernel helper outside the
sources; it is the one-based position of the most significant set bit of a
32-bit word, and 0 for the word 0 (the "most-significant-bit trick"). -/
def find_msb_set (x : Nat) : Nat := find_msb_set_from (x % 2 ^ 32) 32

/-- The buffer `adv_buf_create(retransmits)` returns: empty, not busy.  The
allocation itself can fail; callers take the number `nbufs` of buffers the pool
can still hand out during the current operation, and the `k`-th allocation of
the operation (counting from 0) succeeds exactly when `k < nbufs`. -/
def adv_buf_create (retransmits : Nat) : AdvBuf := ⟨retransmits, [], false⟩

/-! ## The functions of `pb_adv.c` -/

def last_seg (len : Nat) : Nat :=
  let len := len % 256
  if len ≤ START_PAYLOAD_MAX then 0
  else
    let len := len - START_PAYLOAD_MAX
    (1 + len / CONT_PAYLOAD_MAX) % 256

/-- The loop of `free_segments` from index `i` with `left` iterations to go. -/
def free_segments_loop : Nat → Nat → TxBuf → TxBuf
  | 0, _, b => b
  | left + 1, i, b =>
    match b.get i with
    | none => b
    | some _ => free_segments_loop left (i + 1) (b.set i none)

def free_segments (st : PbLink) : PbLink :=
  { st with tx.buf := free_segments_loop TX_BUF_COUNT 0 st.tx.buf }

def next_transaction_id (id : Nat) : Nat :=
  ((id + 1) &&& XACT_ID_MAX) ||| (id &&& (XACT_ID_MAX + 1))

def prov_clear_tx (st : PbLink) : PbLink :=
  free_segments { st with tx.retransmit := false }

def reset_adv_link (st : PbLink) : PbLink :=
  let st := prov_clear_tx st
  let st := { st with prot_timer := false }
  let st :=
    if st.flags.ADV_PROVISIONER then
      -- memset(&pb_link, 0, offsetof(struct pb_adv, tx.retransmit))
      { st with
        id := 0, flags := Flags.clear, cb := none, cb_data := 0,
        rx := { id := XACT_ID_NVAL, seg := 0, last_seg := 0, fcs := 0, buf := st.rx.buf },
        tx := { start := 0, id := 0, pending_ack := 0, buf := TxBuf.empty, cb := none,
                cb_data := 0, retransmit := st.tx.retransmit } }
    else
      { st with id := 0, flags := Flags.clear, rx.id := XACT_ID_MAX, tx.id := XACT_ID_NVAL }
  { st with tx.pending_ack := XACT_ID_NVAL, rx.buf := net_buf_simple_reset st.rx.buf }

/-- The function `close_link`: the callback table is read, the link is reset,
and `link_closed` is called through the table.  `Effect.link_closed` records
that call; with `st.cb = none` the C code dereferences NULL at that call, which
the model does not represent. -/
def close_link (st : PbLink) (reason : Nat) : PbLink × List Effect :=
  (reset_adv_link st, [Effect.link_closed reason])

def buf_sent (st : PbLink) : PbLink × List Effect :=
  if st.flags.ADV_LINK_CLOSING then
    close_link { st with flags.ADV_LINK_CLOSING := false } PROV_BEARER_LINK_STATUS_SUCCESS
  else (st, [])

def buf_start (st : PbLink) (err : Int) : PbLink × List Effect :=
  if err ≠ 0 then buf_sent st else (st, [])

def ack_complete (st : PbLink) : PbLink :=
  { st with flags.ADV_ACK_PENDING := false }

def ack_pending (st : PbLink) : Bool := st.flags.ADV_ACK_PENDING

def prov_failed (st : PbLink) (err : Nat) : PbLink × List Effect :=
  ({ st with flags.ADV_LINK_INVALID := true }, [Effect.error err])

def gen_prov_ack_send (nbufs : Nat) (st : PbLink) (xact_id : Nat) : PbLink × List Effect :=
  let pending := st.flags.ADV_ACK_PENDING
  let st := { st with flags.ADV_ACK_PENDING := true }
  if pending ∧ st.tx.pending_ack = xact_id then (st, [])
  else if nbufs = 0 then ({ st with flags.ADV_ACK_PENDING := false }, [])
  else
    let buf := adv_buf_create RETRANSMITS_ACK
    let complete := if pending then SendCb.null else SendCb.ack_complete
    let st := if pending then st else { st with tx.pending_ack := xact_id }
    let buf := net_buf_add_be32 buf st.id
    let buf := net_buf_add_u8 buf xact_id
    let buf := net_buf_add_u8 buf GPC_ACK
    (st, [Effect.adv_send buf complete])

def prov_msg_recv (env : Env) (nbufs : Nat) (st : PbLink) : PbLink × List Effect :=
  let st := { st with prot_timer := true }
  if ¬ env.bt_mesh_fcs_check st.rx.buf.bytes st.rx.fcs then (st, [])
  else
    let (st, e1) := gen_prov_ack_send nbufs st st.rx.id
    if st.flags.ADV_LINK_INVALID then
      let (st, e2) := prov_failed st PROV_ERR_UNEXP_PDU
      (st, e1 ++ e2)
    else (st, e1 ++ [Effect.recv st.rx.buf.bytes])

/-- The loop of `send_reliable` from index `i` with `left` iterations to go:
the frames handed to the transport. -/
def send_reliable_loop : Nat → Nat → TxBuf → List Effect
  | 0, _, _ => []
  | left + 1, i, b =>
    match b.get i with
    | none => []
    | some buf =>
      if buf.busy then send_reliable_loop left (i + 1) b
      else Effect.adv_send buf SendCb.null :: send_reliable_loop left (i + 1) b

def send_reliable (st : PbLink) : PbLink × List Effect :=
  ({ st with tx.retransmit := true }, send_reliable_loop TX_BUF_COUNT 0 st.tx.buf)

/-- The buffer `ctl_buf_create` builds; `none` when `adv_buf_create` fails
(`nbufs = 0`). -/
def ctl_buf_create (nbufs : Nat) (st : PbLink) (op : Nat) (data : List Nat) (data_len : Nat)
    (retransmits : Nat) : Option AdvBuf :=
  if nbufs = 0 then none
  else
    let buf := adv_buf_create retransmits
    let buf := net_buf_add_be32 buf st.id
    let buf := net_buf_add_u8 buf 0x00
    let buf := net_buf_add_u8 buf (GPC_CTL op)
    some (net_buf_add_mem buf (data.take data_len))

def bearer_ctl_send (now : Int) (st : PbLink) (buf : Option AdvBuf) :
    Int × PbLink × List Effect :=
  match buf with
  | none => (-ENOMEM, st, [])
  | some buf =>
    let st := prov_clear_tx st
    let st := { st with prot_timer := true }
    let st := { st with tx.start := now }
    let st := { st with tx.buf := st.tx.buf.set 0 (some buf) }
    let (st, e) := send_reliable st
    (0, st, e)

def bearer_ctl_send_unacked (st : PbLink) (buf : Option AdvBuf) : Int × PbLink × List Effect :=
  match buf with
  | none => (-ENOMEM, st, [])
  | some buf =>
    let st := prov_clear_tx st
    let st := { st with prot_timer := true }
    (0, st, [Effect.adv_send buf SendCb.buf_sent_cb])

def prov_link_close (nbufs : Nat) (st : PbLink) (status : Nat) : PbLink × List Effect :=
  if st.flags.ADV_LINK_CLOSING then (st, [])
  else
    let st := { st with flags.ADV_LINK_CLOSING := true }
    let (_, st, e) := bearer_ctl_send_unacked st
      (ctl_buf_create nbufs st LINK_CLOSE [status % 256] 1 RETRANSMITS_LINK_CLOSE)
    (st, e)

def protocol_timeout (nbufs : Nat) (st : PbLink) : PbLink × List Effect :=
  if ¬ st.flags.ADV_LINK_ACTIVE then (st, [])
  else
    let st := { st with rx.seg := 0 }
    prov_link_close nbufs st PROV_BEARER_LINK_STATUS_TIMEOUT

/-- The value of `expect_len` in `gen_prov_cont`: unsigned arithmetic narrowed
to `uint8_t`. -/
def expect_len (st : PbLink) : Nat :=
  (((st.rx.buf.len : Int) - 20 - ((st.rx.last_seg : Int) - 1) * 23) % 256).toNat

/-- The offset `XACT_SEG_DATA(seg)` points at, from the start of the storage. -/
def XACT_SEG_DATA (seg : Nat) : Int := 20 + ((seg : Int) - 1) * 23

/-- The statement `XACT_SEG_RECV(seg)`. -/
def XACT_SEG_RECV (st : PbLink) (seg : Nat) : PbLink :=
  { st with rx.seg := clear_bit st.rx.seg seg % 256 }

/-- Lines 375 to 404 of `gen_prov_cont`, after the transaction id has been
matched. -/
def gen_prov_cont_body (env : Env) (nbufs : Nat) (st : PbLink) (seg : Nat) (buf : List Nat) :
    PbLink × List Effect :=
  if seg > st.rx.last_seg then prov_failed st PROV_ERR_NVAL_FMT
  else if st.rx.seg &&& BIT seg = 0 then (st, [])
  else
    let st := { st with rx.buf.data := memcpy st.rx.buf.data (XACT_SEG_DATA seg) buf }
    let e0 := [Effect.memcpy (XACT_SEG_DATA seg) buf.length]
    let st := XACT_SEG_RECV st seg
    if seg = st.rx.last_seg ∧ st.rx.seg &&& BIT 0 = 0 ∧ expect_len st ≠ buf.length then
      let (st, e) := prov_failed st PROV_ERR_NVAL_FMT
      (st, e0 ++ e)
    else if st.rx.seg = 0 then
      let (st, e) := prov_msg_recv env nbufs st
      (st, e0 ++ e)
    else (st, e0)

def gen_prov_cont (env : Env) (nbufs : Nat) (st : PbLink) (rx : ProvRx) (buf : List Nat) :
    PbLink × List Effect :=
  let seg := CONT_SEG_INDEX rx.gpc
  if st.rx.seg = 0 ∧ st.rx.id = rx.xact_id then
    if ¬ ack_pending st then gen_prov_ack_send nbufs st rx.xact_id else (st, [])
  else if st.rx.seg = 0 ∧ next_transaction_id st.rx.id = rx.xact_id then
    let st := { st with rx.id := rx.xact_id }
    let st := { st with rx.buf := net_buf_simple_reset st.rx.buf }
    let st := { st with rx.seg := SEG_NVAL }
    let st := { st with rx.last_seg := SEG_NVAL }
    let st := prov_clear_tx st
    gen_prov_cont_body env nbufs st seg buf
  else if rx.xact_id ≠ st.rx.id then (st, [])
  else gen_prov_cont_body env nbufs st seg buf

def gen_prov_ack (st : PbLink) (rx : ProvRx) : PbLink × List Effect :=
  if st.tx.buf.get 0 = none then (st, [])
  else if rx.xact_id = st.tx.id then
    let st := if ¬ st.flags.ADV_LINK_CLOSING then prov_clear_tx st else st
    match st.tx.cb with
    | some cb => (st, [Effect.send_complete cb st.tx.cb_data 0])
    | none => (st, [])
  else (st, [])

/-- Lines 451 to 501 of `gen_prov_start`, after the transaction id has been
accepted.  The mask `(1 << (last_seg + 1)) - 1` is computed without
wrap-around: the C shift of an `int` is defined for `last_seg + 1 ≤ 30` only,
and for a larger last segment index the mask of the model keeps all eight bits
of `seg`. -/
def gen_prov_start_body (env : Env) (nbufs : Nat) (st : PbLink) (rx : ProvRx) (buf : List Nat) :
    PbLink × List Effect :=
  let seg := SEG_NVAL
  let st := { st with rx.buf := net_buf_simple_reset st.rx.buf }
  let (len, buf) := net_buf_simple_pull_be16 buf
  let st := { st with rx.buf.len := len }
  let st := { st with rx.id := rx.xact_id }
  let (fcs, buf) := net_buf_simple_pull_u8 buf
  let st := { st with rx.fcs := fcs }
  if st.rx.buf.len < 1 then prov_failed st PROV_ERR_NVAL_FMT
  else if st.rx.buf.len > RX_BUF_SIZE then prov_failed st PROV_ERR_NVAL_FMT
  else if START_LAST_SEG rx.gpc > 0 ∧ st.rx.buf.len ≤ 20 then prov_failed st PROV_ERR_NVAL_FMT
  else
    let st := prov_clear_tx st
    let st := { st with rx.last_seg := START_LAST_SEG rx.gpc }
    let msb_set := find_msb_set ((st.rx.seg ^^^ 0xff) &&& SEG_NVAL)
    if msb_set ≠ 0 ∧ st.rx.seg &&& BIT 0 ≠ 0 ∧ msb_set - 1 > st.rx.last_seg then
      prov_failed st PROV_ERR_NVAL_FMT
    else
      let seg := if st.rx.seg ≠ 0 then st.rx.seg else seg
      let st := { st with rx.seg := (seg &&& ((1 <<< (START_LAST_SEG rx.gpc + 1)) - 1)) % 256 }
      let st := { st with rx.buf.data := memcpy st.rx.buf.data 0 buf }
      let e0 := [Effect.memcpy 0 buf.length]
      let st := XACT_SEG_RECV st 0
      if st.rx.seg = 0 then
        let (st, e) := prov_msg_recv env nbufs st
        (st, e0 ++ e)
      else (st, e0)

def gen_prov_start (env : Env) (nbufs : Nat) (st : PbLink) (rx : ProvRx) (buf : List Nat) :
    PbLink × List Effect :=
  if rx.xact_id = st.rx.id then
    if st.rx.seg = 0 then
      if ¬ ack_pending st then gen_prov_ack_send nbufs st rx.xact_id else (st, [])
    else if st.rx.seg &&& BIT 0 = 0 then (st, [])
    else gen_prov_start_body env nbufs st rx buf
  else if rx.xact_id ≠ next_transaction_id st.rx.id then (st, [])
  else gen_prov_start_body env nbufs st rx buf

def link_open (env : Env) (nbufs : Nat) (st : PbLink) (rx : ProvRx) (buf : List Nat) :
    PbLink × List Effect :=
  if buf.length < 16 then (st, [])
  else if st.flags.ADV_LINK_ACTIVE then
    if st.id ≠ rx.link_id then (st, [])
    else
      let (_, st, e) := bearer_ctl_send_unacked st
        (ctl_buf_create nbufs st LINK_ACK [] 0 RETRANSMITS_ACK)
      (st, e)
  else if buf.take 16 ≠ env.uuid.take 16 then (st, [])
  else
    let st := { st with id := rx.link_id }
    let st := { st with flags.ADV_LINK_ACTIVE := true }
    let st := { st with rx.buf := net_buf_simple_reset st.rx.buf }
    let (err, st, e) := bearer_ctl_send_unacked st
      (ctl_buf_create nbufs st LINK_ACK [] 0 RETRANSMITS_ACK)
    if err ≠ 0 then (reset_adv_link st, e)
    else (st, e ++ [Effect.link_opened])

def link_ack (st : PbLink) : PbLink × List Effect :=
  if st.flags.ADV_PROVISIONER then
    if st.flags.ADV_LINK_ACK_RECVD then (st, [])
    else
      let st := { st with flags.ADV_LINK_ACK_RECVD := true }
      let st := prov_clear_tx st
      (st, [Effect.link_opened])
  else (st, [])

def link_close (st : PbLink) (buf : List Nat) : PbLink × List Effect :=
  if buf.length ≠ 1 then (st, [])
  else close_link st (net_buf_simple_pull_u8 buf).1

def gen_prov_ctl (env : Env) (nbufs : Nat) (st : PbLink) (rx : ProvRx) (buf : List Nat) :
    PbLink × List Effect :=
  if BEARER_CTL rx.gpc = LINK_OPEN then link_open env nbufs st rx buf
  else if BEARER_CTL rx.gpc = LINK_ACK then
    if ¬ st.flags.ADV_LINK_ACTIVE then (st, []) else link_ack st
  else if BEARER_CTL rx.gpc = LINK_CLOSE then
    if ¬ st.flags.ADV_LINK_ACTIVE then (st, []) else link_close st buf
  else if env.CONFIG_BT_TESTING then (st, [Effect.test_invalid_bearer (BEARER_CTL rx.gpc)])
  else (st, [])

/-- The column `require_link` of the table `gen_prov`. -/
def gen_prov_require_link (gpcf : Nat) : Bool :=
  match gpcf with
  | 0 => true
  | 1 => true
  | 2 => true
  | _ => false

/-- The column `min_len` of the table `gen_prov`. -/
def gen_prov_min_len (gpcf : Nat) : Nat :=
  match gpcf with
  | 0 => 3
  | _ => 0

/-- The column `func` of the table `gen_prov`, applied. -/
def gen_prov_func (env : Env) (nbufs : Nat) (st : PbLink) (rx : ProvRx) (buf : List Nat) :
    PbLink × List Effect :=
  match GPCF rx.gpc with
  | 0 => gen_prov_start env nbufs st rx buf
  | 1 => gen_prov_ack st rx
  | 2 => gen_prov_cont env nbufs st rx buf
  | _ => gen_prov_ctl env nbufs st rx buf

def gen_prov_recv (env : Env) (nbufs : Nat) (st : PbLink) (rx : ProvRx) (buf : List Nat) :
    PbLink × List Effect :=
  if buf.length < gen_prov_min_len (GPCF rx.gpc) then (st, [])
  else if ¬ st.flags.ADV_LINK_ACTIVE ∧ gen_prov_require_link (GPCF rx.gpc) then (st, [])
  else gen_prov_func env nbufs st rx buf

def prov_retransmit (nbufs : Nat) (now : Int) (st : PbLink) : PbLink × List Effect :=
  if ¬ st.flags.ADV_LINK_ACTIVE then (st, [])
  else if now - st.tx.start > TRANSACTION_TIMEOUT then
    prov_link_close nbufs st PROV_BEARER_LINK_STATUS_FAIL
  else send_reliable st

/-- The `for` loop of `prov_send_adv`.  The first argument is
`ARRAY_SIZE(pb_link.tx.buf) - seg_id`, so the case `0` is the iteration in
which the guard `seg_id >= ARRAY_SIZE(pb_link.tx.buf)` holds.  `msg` is what is
left of the message after the pulls so far. -/
def prov_send_adv_loop (nbufs : Nat) : Nat → PbLink → List Nat → Int × PbLink × List Effect
  | 0, st, msg =>
    if msg.length > 0 then (-E2BIG, free_segments st, [])
    else
      let (st, e) := send_reliable st
      (0, st, e)
  | left + 1, st, msg =>
    let seg_id := TX_BUF_COUNT - (left + 1)
    if msg.length > 0 then
      if seg_id ≥ TX_BUF_COUNT then (-E2BIG, free_segments st, [])
      else if ¬ seg_id < nbufs then (-ENOBUFS, free_segments st, [])
      else
        let buf := adv_buf_create RETRANSMITS_RELIABLE
        let seg_len := min msg.length CONT_PAYLOAD_MAX
        let buf := net_buf_add_be32 buf st.id
        let buf := net_buf_add_u8 buf st.tx.id
        let buf := net_buf_add_u8 buf (GPC_CONT seg_id)
        let buf := net_buf_add_mem buf (msg.take seg_len)
        let st := { st with tx.buf := st.tx.buf.set seg_id (some buf) }
        prov_send_adv_loop nbufs left st (msg.drop seg_len)
    else
      let (st, e) := send_reliable st
      (0, st, e)

/-- The function `prov_send_adv`; `cb` is `none` for a NULL completion
callback, `now` is the value of `k_uptime_get()`.  A slot of `tx.buf` holds the
buffer with everything that is added to it before the function returns. -/
def prov_send_adv (env : Env) (nbufs : Nat) (now : Int) (st : PbLink) (msg : List Nat)
    (cb : Option Nat) (cb_data : Nat) : Int × PbLink × List Effect :=
  let st := prov_clear_tx st
  let st := { st with prot_timer := true }
  if nbufs = 0 then (-ENOBUFS, st, [])
  else
    let start := adv_buf_create RETRANSMITS_RELIABLE
    let st := { st with tx.id := next_transaction_id st.tx.id }
    let start := net_buf_add_be32 start st.id
    let start := net_buf_add_u8 start st.tx.id
    let start := net_buf_add_u8 start (GPC_START (last_seg msg.length))
    let start := net_buf_add_be16 start msg.length
    let start := net_buf_add_u8 start (env.bt_mesh_fcs_calc msg)
    let st := { st with tx.cb := cb }
    let st := { st with tx.cb_data := cb_data }
    let st := { st with tx.start := now }
    let seg_len := min msg.length START_PAYLOAD_MAX
    let start := net_buf_add_mem start (msg.take seg_len)
    let st := { st with tx.buf := st.tx.buf.set 0 (some start) }
    prov_send_adv_loop nbufs (TX_BUF_COUNT - 1) st (msg.drop seg_len)

def bt_mesh_pb_adv_recv (env : Env) (nbufs : Nat) (st : PbLink) (buf : List Nat) :
    PbLink × List Effect :=
  if st.cb = none then (st, [])
  else if buf.length < 6 then (st, [])
  else
    let (link_id, buf) := net_buf_simple_pull_be32 buf
    let (xact_id, buf) := net_buf_simple_pull_u8 buf
    let (gpc, buf) := net_buf_simple_pull_u8 buf
    let rx : ProvRx := ⟨link_id, xact_id, gpc⟩
    if st.flags.ADV_LINK_ACTIVE ∧ st.id ≠ rx.link_id then (st, [])
    else gen_prov_recv env nbufs st rx buf

/-- The function `prov_link_open`; `adv_err` is what `bt_mesh_adv_enable()`
returns, `rand` what `bt_rand` writes to `pb_link.id`. -/
def prov_link_open (nbufs : Nat) (now : Int) (adv_err : Int) (rand : Nat) (st : PbLink)
    (uuid : List Nat) (cb : Option Nat) (cb_data : Nat) : Int × PbLink × List Effect :=
  if adv_err ≠ 0 then (adv_err, st, [])
  else if st.flags.ADV_LINK_ACTIVE then (-EBUSY, st, [])
  else
    let st := { st with flags.ADV_LINK_ACTIVE := true }
    let st := { st with flags.ADV_PROVISIONER := true }
    let st := { st with id := rand % 2 ^ 32 }
    let st := { st with tx.id := XACT_ID_MAX }
    let st := { st with rx.id := XACT_ID_NVAL }
    let st := { st with cb := cb }
    let st := { st with cb_data := cb_data }
    let st := { st with rx.buf := net_buf_simple_reset st.rx.buf }
    bearer_ctl_send now st (ctl_buf_create nbufs st LINK_OPEN uuid 16 RETRANSMITS_RELIABLE)

def prov_link_accept (adv_err : Int) (st : PbLink) (cb : Option Nat) (cb_data : Nat) :
    Int × PbLink × List Effect :=
  if adv_err ≠ 0 then (adv_err, st, [])
  else if st.flags.ADV_LINK_ACTIVE then (-EBUSY, st, [])
  else
    let st := { st with rx.id := XACT_ID_MAX }
    let st := { st with tx.id := XACT_ID_NVAL }
    let st := { st with cb := cb }
    let st := { st with cb_data := cb_data }
    (0, st, [Effect.scan_enable, Effect.beacon_enable])

def pb_adv_reset (st : PbLink) : PbLink := reset_adv_link st

/-- The object `pb_link` as the static initialiser leaves it: everything zero,
`rx.buf` pointing at the empty, zero-filled `rx_buf`. -/
def pb_link_init : PbLink :=
  { id := 0, flags := Flags.clear, cb := none, cb_data := 0,
    rx := { id := 0, seg := 0, last_seg := 0, fcs := 0,
            buf := { data := List.replicate RX_BUF_SIZE 0, len := 0 } },
    tx := { start := 0, id := 0, pending_ack := 0, buf := TxBuf.empty, cb := none,
            cb_data := 0, retransmit := false },
    prot_timer := false }

/-! ## Events -/

/-- The entry points through which the rest of the system reaches the file:
inbound frames, the transport's send callbacks, the two work items, and the
bearer interface `pb_adv`.  Where an entry point can allocate advertising
buffers, `nbufs` is the number the pool can hand out during the call. -/
inductive Event where
  | recv (nbufs : Nat) (buf : List Nat)
  | ack_complete
  | buf_sent
  | buf_start (err : Int)
  | protocol_timeout (nbufs : Nat)
  | prov_retransmit (nbufs : Nat) (now : Int)
  | send (nbufs : Nat) (now : Int) (msg : List Nat) (cb : Option Nat) (cb_data : Nat)
  | link_open (nbufs : Nat) (now : Int) (adv_err : Int) (rand : Nat) (uuid : List Nat)
      (cb : Option Nat) (cb_data : Nat)
  | link_accept (adv_err : Int) (cb : Option Nat) (cb_data : Nat)
  | link_close (nbufs : Nat) (status : Nat)
  | clear_tx
  | reset
deriving DecidableEq, Repr

/-- One event: the new link state and the calls made. -/
def step (env : Env) (st : PbLink) : Event → PbLink × List Effect
  | .recv nbufs buf => bt_mesh_pb_adv_recv env nbufs st buf
  | .ack_complete => (ack_complete st, [])
  | .buf_sent => buf_sent st
  | .buf_start err => buf_start st err
  | .protocol_timeout nbufs => protocol_timeout nbufs st
  | .prov_retransmit nbufs now => prov_retransmit nbufs now st
  | .send nbufs now msg cb cb_data => (prov_send_adv env nbufs now st msg cb cb_data).2
  | .link_open nbufs now adv_err rand uuid cb cb_data =>
    (prov_link_open nbufs now adv_err rand st uuid cb cb_data).2
  | .link_accept adv_err cb cb_data => (prov_link_accept adv_err st cb cb_data).2
  | .link_close nbufs status => prov_link_close nbufs st status
  | .clear_tx => (prov_clear_tx st, [])
  | .reset => (pb_adv_reset st, [])

/-- A sequence of events, processed in order; the calls made are concatenated. -/
def run (env : Env) : PbLink → List Event → PbLink × List Effect
  | st, [] => (st, [])
  | st, ev :: evs =>
    let (st1, e1) := step env st ev
    let (st2, e2) := run env st1 evs
    (st2, e1 ++ e2)

/-! ## Auxiliary definitions for the statements -/

/-- A stand-in for the FCS primitives: the byte sum, checked by recomputation. -/
def sample_env : Env :=
  { bt_mesh_fcs_calc := fun d => d.sum % 256,
    bt_mesh_fcs_check := fun d fcs => d.sum % 256 == fcs,
    uuid := List.replicate 16 0xaa,
    CONFIG_BT_TESTING := false }

/-- A device-role link that has accepted link `0x01020304` and has exchanged no
transaction yet. -/
def sample_link : PbLink :=
  { pb_link_init with
    id := 0x01020304,
    flags := { Flags.clear with ADV_LINK_ACTIVE := true },
    cb := some 1,
    rx := { pb_link_init.rx with id := XACT_ID_MAX },
    tx := { pb_link_init.tx with id := XACT_ID_NVAL, pending_ack := XACT_ID_NVAL } }

/-- Number of occupied slots of `tx.buf`. -/
def TxBuf.count (b : TxBuf) : Nat :=
  (if b.b0 = none then 0 else 1) + (if b.b1 = none then 0 else 1) + (if b.b2 = none then 0 else 1)

/-- The occupied slots of `tx.buf` form an initial segment of the array. -/
def TxBuf.contiguous (b : TxBuf) : Prop :=
  (b.b0 = none → b.b1 = none) ∧ (b.b1 = none → b.b2 = none)

instance (b : TxBuf) : Decidable b.contiguous := by
  unfold TxBuf.contiguous; infer_instance

/-- The Continuation buffer the loop of `prov_send_adv` builds for segment
`seg_id` from the rest `msg` of the message. -/
def cont_buf (st : PbLink) (seg_id : Nat) (msg : List Nat) : AdvBuf :=
  ⟨0, be32 st.id ++ [st.tx.id % 256, GPC_CONT seg_id % 256] ++ msg.take 23, false⟩

/-- The Start buffer `prov_send_adv` builds. -/
def start_buf (env : Env) (st : PbLink) (msg : List Nat) : AdvBuf :=
  ⟨0, be32 st.id ++ [next_transaction_id st.tx.id % 256, GPC_START (last_seg msg.length) % 256]
      ++ be16 msg.length ++ [env.bt_mesh_fcs_calc msg % 256] ++ msg.take 20, false⟩

/-- The link state in which `prov_send_adv` enters its loop. -/
def send_start_state (env : Env) (now : Int) (st : PbLink) (msg : List Nat) (cb : Option Nat)
    (cb_data : Nat) : PbLink :=
  let st1 := prov_clear_tx st
  { st1 with
    prot_timer := true,
    tx := { st1.tx with id := next_transaction_id st.tx.id, cb := cb, cb_data := cb_data,
                        start := now, buf := st1.tx.buf.set 0 (some (start_buf env st msg)) } }

/-- The bytes `[a, b)` of a message. -/
def slice (msg : List Nat) (a b : Nat) : List Nat := (msg.take b).drop a

/-- The message bytes carried by the frames in `tx.buf`: everything after the
9-byte header of the Start frame and after the 6-byte header of each
Continuation frame, in index order. -/
def TxBuf.payload (b : TxBuf) : List Nat :=
  ((b.b0.map fun f => f.data.drop 9).getD []) ++ ((b.b1.map fun f => f.data.drop 6).getD []) ++
    ((b.b2.map fun f => f.data.drop 6).getD [])

/-- A link on which the one-byte message `[5]` of transaction 0 has just been
reassembled: `rx.seg = 0`, declared length 1, expected FCS 5. -/
def sample_reassembled : PbLink :=
  { sample_link with
    rx := { id := 0x00, seg := 0, last_seg := 0, fcs := 5,
            buf := { data := 5 :: List.replicate 64 0, len := 1 } } }


/-- A Transaction Ack frame handed to the transport: a buffer whose GPCF
(bits 1:0 of byte 5) is 01. -/
def is_ack : Effect → Bool
  | .adv_send buf _ => GPCF (buf.data.getD 5 0) == 1
  | _ => false

/-- Number of Transaction Ack frames among the calls made. -/
def acks (effs : List Effect) : Nat := effs.countP is_ack

/-- A call `prov_msg_recv` makes only after the FCS check has passed, that is,
once the transaction is accepted: delivery to `recv`, or the
`PROV_ERR_UNEXP_PDU` error on an invalidated link. -/
def is_accept : Effect → Bool
  | .recv _ => true
  | .error err => err == PROV_ERR_UNEXP_PDU
  | _ => false

/-- Byte 4 of a frame: the transaction id. -/
def frame_xact_id (f : List Nat) : Nat := f.getD 4 0 % 256

/-- Byte 5 of a frame: the Generic Provisioning Control field. -/
def frame_gpc (f : List Nat) : Nat := f.getD 5 0 % 256

/-- A Start or Continuation frame of transaction `t`. -/
def is_segment_of (t : Nat) (f : List Nat) : Prop :=
  frame_xact_id f = t ∧ (GPCF (frame_gpc f) = 0 ∨ GPCF (frame_gpc f) = 2)

instance (t : Nat) (f : List Nat) : Decidable (is_segment_of t f) := by
  unfold is_segment_of; infer_instance

/-- An ack for transaction `t` is recorded as being sent. -/
def ack_pending_for (t : Nat) (st : PbLink) : Prop :=
  st.flags.ADV_ACK_PENDING = true ∧ st.tx.pending_ack = t

/-- Transaction `t` is complete and its ack is being sent. -/
def acked (t : Nat) (st : PbLink) : Prop :=
  st.rx.seg = 0 ∧ st.rx.id = t ∧ st.flags.ADV_ACK_PENDING = true

/-- What one Start or Continuation frame of transaction `t` does: either it
sends exactly one Ack and leaves the transaction complete with the ack
pending, or it sends none; in the second case, unless an ack for `t` was
already pending, the transaction was not accepted by this frame and no ack
for `t` is pending afterwards. -/
def segment_outcome (t : Nat) (st : PbLink) (r : PbLink × List Effect) : Prop :=
  (acks r.2 = 1 ∧ acked t r.1) ∨
  (acks r.2 = 0 ∧ (¬ ack_pending_for t st →
    (∀ e ∈ r.2, is_accept e = false) ∧ ¬ ack_pending_for t r.1))

/-- An inbound Start or Continuation frame of transaction `t`, received while
an advertising buffer is available. -/
def is_segment_event (t : Nat) : Event → Prop
  | .recv nbufs f => 0 < nbufs ∧ is_segment_of t f
  | _ => False

/-- The Start frame of the one-byte message `[5]` as transaction `0x00` on the
link of `sample_link`: declared length 1, FCS 5. -/
def sample_start_frame : List Nat := [0x01, 0x02, 0x03, 0x04, 0x00, 0x00, 0x00, 0x01, 5, 5]

/-- The provisioner at the other end of `sample_link`: same link id, link
acknowledged, no transaction sent yet (`tx.id = XACT_ID_MAX`). -/
def sample_peer : PbLink :=
  { pb_link_init with
    id := 0x01020304,
    flags := { Flags.clear with ADV_LINK_ACTIVE := true, ADV_LINK_ACK_RECVD := true,
                                ADV_PROVISIONER := true },
    cb := some 2,
    rx := { pb_link_init.rx with id := XACT_ID_NVAL },
    tx := { pb_link_init.tx with id := XACT_ID_MAX, pending_ack := XACT_ID_NVAL } }

/-- The frames handed to the transport, in order. -/
def sent_frames : List Effect → List (List Nat)
  | [] => []
  | .adv_send buf _ :: es => buf.data :: sent_frames es
  | _ :: es => sent_frames es

/-- The frames `prov_send_adv` hands to the transport for `msg` on link `tx`,
delivered in order to `bt_mesh_pb_adv_recv` on link `rx`, one buffer being
available for each. -/
def send_then_receive (env : Env) (tx rx : PbLink) (msg : List Nat) : PbLink × List Effect :=
  run env rx ((sent_frames (prov_send_adv env 3 0 tx msg none 0).2.2).map (Event.recv 1))

/-- The link states the file can be in: the static initial state and
everything events lead to from it. -/
inductive Reachable (env : Env) : PbLink → Prop where
  | init : Reachable env pb_link_init
  | step (st : PbLink) (ev : Event) : Reachable env st → Reachable env (step env st ev).1

/-- The link state after `gen_prov_start` has taken in a well-formed Start
frame that arrived with `rx.seg = 0`: transaction id `xid`, last segment `n`,
declared length `len`, expected FCS `fcs`, Start data `d0`. -/
def rx_started (st : PbLink) (xid n len fcs : Nat) (d0 : List Nat) : PbLink :=
  { prov_clear_tx st with
    rx := { id := xid,
            seg := clear_bit ((SEG_NVAL &&& ((1 <<< (n + 1)) - 1)) % 256) 0 % 256,
            last_seg := n, fcs := fcs,
            buf := { data := memcpy st.rx.buf.data 0 d0, len := len } } }

/-- The link state after `gen_prov_cont` has copied segment `seg`. -/
def rx_continued (st : PbLink) (seg : Nat) (d : List Nat) : PbLink :=
  { st with
    rx := { st.rx with
            seg := clear_bit st.rx.seg seg % 256,
            buf := { st.rx.buf with data := memcpy st.rx.buf.data (XACT_SEG_DATA seg) d } } }

/-- The calls of a successful delivery of `msg` as transaction `tid` on link
`id`: copies into the reassembly buffer, then exactly one Transaction Ack for
`tid`, then `recv` with the message. -/
def delivers (effs : List Effect) (id tid : Nat) (msg : List Nat) : Prop :=
  ∃ cb copies,
    effs = copies ++
      [Effect.adv_send ⟨RETRANSMITS_ACK, be32 id ++ [tid, GPC_ACK], false⟩ cb, Effect.recv msg] ∧
    ∀ e ∈ copies, ∃ off len, e = Effect.memcpy off len

/-- The Link Close frame `prov_link_close` builds on link `id` for `status`. -/
def close_frame (id status : Nat) : AdvBuf :=
  ⟨RETRANSMITS_LINK_CLOSE, be32 id ++ [0x00, GPC_CTL LINK_CLOSE, status % 256], false⟩

/-- The Link Ack frame `link_open` builds on link `id`. -/
def link_ack_frame (id : Nat) : AdvBuf :=
  ⟨RETRANSMITS_ACK, be32 id ++ [0x00, GPC_CTL LINK_ACK], false⟩

/-- A call of the completion callback of a send. -/
def is_send_complete : Effect → Bool
  | .send_complete _ _ _ => true
  | _ => false

/-- The link of `sample_link` with the three-byte message `[1, 2, 3]` in
flight, sent at time 0 with completion callback 7 and callback data 9. -/
def sample_sending : PbLink :=
  (prov_send_adv sample_env 3 0 sample_link [1, 2, 3] (some 7) 9).2.1

/-- The Start frame of a 50-byte message (last segment 2) as transaction
`0x00` on the link of `sample_link`. -/
def sample_start_of_three : List Nat :=
  [0x01, 0x02, 0x03, 0x04, 0x00, 0x08, 0x00, 50, 0x77] ++ List.range 20

/-- A Link Close frame with reason 0 on the link of `sample_link`. -/
def sample_close_frame : List Nat := [0x01, 0x02, 0x03, 0x04, 0x00, 0x0b, 0x00]

/-- The device link after `prov_link_accept` on the initial object, with
callbacks 1 registered: idle, waiting for a Link Open. -/
def sample_accepting : PbLink := (prov_link_accept 0 pb_link_init (some 1) 0).2.1

/-- A call of the `link_opened` callback. -/
def is_link_opened : Effect → Bool
  | .link_opened => true
  | _ => false

/-- The provisioner link after `prov_link_open` on the initial object with a
buffer available: active, the Link Open frame pending in `tx.buf`, no Link Ack
seen yet. -/
def sample_opening : PbLink :=
  (prov_link_open 1 0 0 0x11223344 pb_link_init (List.replicate 16 0xaa) (some 1) 0).2.1

/-- A call of the `recv` callback. -/
def is_recv : Effect → Bool
  | .recv _ => true
  | _ => false

/-- The outcome of an event on an invalidated link as far as the flag goes:
`ADV_LINK_INVALID` is still set or the link is what `reset_adv_link` returned,
and the `recv` callback was not invoked. -/
def stays_invalid (r : PbLink × List Effect) : Prop :=
  (r.1.flags.ADV_LINK_INVALID = true ∨ ∃ s, r.1 = reset_adv_link s) ∧
  ∀ e ∈ r.2, is_recv e = false

/-- The link of `sample_link` after a protocol violation: `ADV_LINK_INVALID`
is set. -/
def sample_invalid : PbLink :=
  { sample_link with flags := { sample_link.flags with ADV_LINK_INVALID := true } }

/-- Frame `k` of the segment set of `msg` sent as transaction `t` on link
`lid`: for `k = 0` the Start frame, announcing last segment `n`, the length of
`msg` and the FCS `fcs` and carrying the first 20 bytes; for `k ≥ 1` the
Continuation frame `k`, carrying the 23 bytes from offset `20 + 23 (k - 1)`, or
what is left of `msg` there. -/
def seg_frame (lid t n fcs : Nat) (msg : List Nat) : Nat → List Nat
  | 0 => be32 lid ++ t :: GPC_START n :: (be16 msg.length ++ fcs :: msg.take 20)
  | k + 1 => be32 lid ++ t :: GPC_CONT (k + 1) :: (msg.drop (20 + 23 * k)).take 23

/-- A declared length `L` fits the last-segment index `n` of a Start frame:
`n` is at most 2, `L` is from 1 to 65, a single segment holds at most 20 bytes,
and with `n ≥ 1` the last Continuation holds the `L - 20 - 23 (n - 1)` bytes
left, between 0 and 23, of a message longer than 20. -/
def well_formed (n L : Nat) : Prop :=
  n ≤ 2 ∧ 1 ≤ L ∧ L ≤ 65 ∧ (n = 0 → L ≤ 20) ∧
  (1 ≤ n → 20 < L ∧ 20 + 23 * (n - 1) ≤ L ∧ L ≤ 20 + 23 * n)

instance (n L : Nat) : Decidable (well_formed n L) := by
  unfold well_formed; infer_instance

/-- The inbound frames of a delivery: entry `(nbufs, k)` is segment `k` of the
set, received while the pool can hand out `nbufs` buffers. -/
def seg_events (lid t n fcs : Nat) (msg : List Nat) (seq : List (Nat × Nat)) : List Event :=
  seq.map fun p => Event.recv p.1 (seg_frame lid t n fcs msg p.2)

/-- Segment `k` occurs in the delivery `seq`. -/
def seen (seq : List (Nat × Nat)) (k : Nat) : Bool := seq.any fun p => p.2 == k

/-- The link state `gen_prov_start` leaves before it looks at `rx.seg`, for a
Start frame that passed its checks: transaction id `xid`, last segment `n`,
declared length `len`, expected FCS `fcs`, Start data `d0`; the segments
recorded as received before the Start stay received. -/
def rx_start (st : PbLink) (xid n len fcs : Nat) (d0 : List Nat) : PbLink :=
  { prov_clear_tx st with
    rx := { id := xid,
            seg := clear_bit (((if st.rx.seg ≠ 0 then st.rx.seg else SEG_NVAL)
                      &&& ((1 <<< (n + 1)) - 1)) % 256) 0 % 256,
            last_seg := n, fcs := fcs,
            buf := { data := memcpy st.rx.buf.data 0 d0, len := len } } }

/-- The link state `gen_prov_cont` hands to its copy step when a Continuation
opens transaction `xid` (the Start was lost). -/
def rx_lost_start (st : PbLink) (xid : Nat) : PbLink :=
  prov_clear_tx { st with
    rx := { st.rx with id := xid, seg := SEG_NVAL, last_seg := SEG_NVAL,
                       buf := net_buf_simple_reset st.rx.buf } }

/-- Two link states agree on what reassembly reads: link id, callbacks,
`ADV_LINK_ACTIVE` and the receive transaction. -/
def same_core (a b : PbLink) : Prop :=
  a.id = b.id ∧ a.cb = b.cb ∧ a.flags.ADV_LINK_ACTIVE = b.flags.ADV_LINK_ACTIVE ∧ a.rx = b.rx

/-- The value of `rx.seg` once the segments flagged by `r0`, `r1`, `r2` of a
set with last segment `n` have been taken in: 0 before the first; after the
Start the bits of the Continuations `1..n` still missing; before the Start
`0xff` without the bits of the Continuations taken in. -/
def seg_mask (n : Nat) (r0 r1 r2 : Bool) : Nat :=
  if r0 then (if 1 ≤ n ∧ r1 = false then 2 else 0) + (if 2 ≤ n ∧ r2 = false then 4 else 0)
  else if r1 || r2 then 0xf9 + (if r1 then 0 else 2) + (if r2 then 0 else 4)
  else 0

/-- The state of the receive transaction after the segments flagged by `r0`,
`r1`, `r2` of the segment set of `msg` (transaction `t`, last segment `n`) have
been taken in on link `lid`. -/
def reasm_inv (lid t n : Nat) (msg : List Nat) (r0 r1 r2 : Bool) (s : PbLink) : Prop :=
  s.id = lid ∧ s.cb ≠ none ∧ s.flags.ADV_LINK_ACTIVE = true ∧
  s.rx.buf.data.length = RX_BUF_SIZE ∧
  (r1 = true → 1 ≤ n) ∧ (r2 = true → 2 ≤ n) ∧
  s.rx.seg = seg_mask n r0 r1 r2 ∧
  (if (r0 || r1 || r2) = true then s.rx.id = t else next_transaction_id s.rx.id = t) ∧
  (r0 = true → s.rx.last_seg = n ∧ s.rx.buf.len = msg.length) ∧
  (r0 = false → s.rx.last_seg = SEG_NVAL ∨ (r1 || r2) = false) ∧
  (∀ i, i < msg.length →
    ((i < 20 ∧ r0 = true) ∨ (20 ≤ i ∧ i < 43 ∧ r1 = true) ∨ (43 ≤ i ∧ r2 = true)) →
    s.rx.buf.data.getD i 0 = msg.getD i 0)

/-- The link of `sample_link` in the middle of a reassembly: the Start frame of
a three-segment message of transaction `0x00` has been taken in (`rx.seg = 6`,
`rx.last_seg = 2`). -/
def sample_mid : PbLink := (run sample_env sample_link [Event.recv 1 sample_start_of_three]).1

/-- The occupied slots of `tx.buf`, in array order. -/
def TxBuf.pending (b : TxBuf) : List AdvBuf := b.b0.toList ++ b.b1.toList ++ b.b2.toList

/-- Events that take the initial object to an active device link with a
50-byte message in flight: accept, a Link Open frame for link `0x01020304`
with the UUID of `sample_env`, then `prov_send_adv`. -/
def sample_reached_events : List Event :=
  [Event.link_accept 0 (some 1) 0,
   Event.recv 1 ([0x01, 0x02, 0x03, 0x04, 0x00, 0x03] ++ List.replicate 16 0xaa),
   Event.send 3 0 (List.range 50) none 0]

/-- The link state `sample_reached_events` lead to. -/
def sample_reached : PbLink := (run sample_env pb_link_init sample_reached_events).1

/-- Continuation 1 of transaction `0x00` on the link of `sample_link`, carrying
the bytes 20 to 42. -/
def sample_cont1 : List Nat :=
  [0x01, 0x02, 0x03, 0x04, 0x00, 0x06] ++ (List.range 23).map (· + 20)

/-- The Start frame of transaction `0x01` on the link of `sample_link`: last
segment 2, declared length 50, FCS `0xeb`, twenty bytes 1. -/
def sample_next_start : List Nat :=
  [0x01, 0x02, 0x03, 0x04, 0x01, 0x08, 0x00, 50, 0xeb] ++ List.replicate 20 1

/-- Continuation 2 of transaction `0x01` on the link of `sample_link`, carrying
seven bytes 2. -/
def sample_next_cont2 : List Nat :=
  [0x01, 0x02, 0x03, 0x04, 0x01, 0x0a] ++ List.replicate 7 2

/-- Continuation 1 of transaction `0x00` on the link of `sample_link`, carrying
23 bytes 3. -/
def sample_long_cont1 : List Nat :=
  [0x01, 0x02, 0x03, 0x04, 0x00, 0x06] ++ List.replicate 23 3

/-- The Start frame of transaction `0x00` on the link of `sample_link`: last
segment 1, declared length 30, FCS 50, twenty bytes 1. -/
def sample_short_start : List Nat :=
  [0x01, 0x02, 0x03, 0x04, 0x00, 0x04, 0x00, 30, 50] ++ List.replicate 20 1

/-- A Continuation frame with segment index 0 of transaction `0x00` on the
link of `sample_link`, carrying 23 bytes. -/
def sample_cont0 : List Nat :=
  [0x01, 0x02, 0x03, 0x04, 0x00, 0x02] ++ List.replicate 23 9

/-- A Continuation frame with segment index 3 of transaction `0x00` on the
link of `sample_link`, carrying 23 bytes. -/
def sample_cont3 : List Nat :=
  [0x01, 0x02, 0x03, 0x04, 0x00, 0x0e] ++ List.replicate 23 9

/-- A Start frame of transaction `0x00` on the link of `sample_link` that
announces last segment 3 and the declared length 65. -/
def sample_start_of_four : List Nat :=
  [0x01, 0x02, 0x03, 0x04, 0x00, 0x0c, 0x00, 65, 0x00] ++ List.replicate 20 1

/-- Events that take the initial object to an active device link: accept,
then a Link Open frame for link `0x01020304` with the UUID of `sample_env`. -/
def sample_opened_events : List Event :=
  [Event.link_accept 0 (some 1) 0,
   Event.recv 1 ([0x01, 0x02, 0x03, 0x04, 0x00, 0x03] ++ List.replicate 16 0xaa)]

/-- The Start frame of the one-byte message `[5]` as transaction `0x00` on
link `0x01020304` with a wrong FCS (6 where the bytes sum to 5). -/
def sample_bad_fcs_start : List Nat := [0x01, 0x02, 0x03, 0x04, 0x00, 0x00, 0x00, 0x01, 6, 5]

/-- A Start frame of transaction `0x00` on link `0x01020304` that declares the
length 0. -/
def sample_zero_len_start : List Nat := [0x01, 0x02, 0x03, 0x04, 0x00, 0x00, 0x00, 0x00, 0]

/-- A bearer-control frame with the unassigned opcode 3 on link `0x01020304`. -/
def sample_unknown_ctl : List Nat := [0x01, 0x02, 0x03, 0x04, 0x00, 0x0f]

/-- The environment of `sample_env` built with `CONFIG_BT_TESTING`. -/
def sample_env_testing : Env := { sample_env with CONFIG_BT_TESTING := true }

theorem free_segments_loop_contiguous (b : TxBuf) (h : b.contiguous) :
    free_segments_loop 3 0 b = TxBuf.empty := by
  obtain ⟨b0, b1, b2⟩ := b
  obtain ⟨h1, h2⟩ := h
  cases b0 <;> cases b1 <;> cases b2 <;>
    simp_all [free_segments_loop, TxBuf.get, TxBuf.set, TxBuf.empty]

theorem free_segments_loop_full (x y z : AdvBuf) :
    free_segments_loop 3 0 ⟨some x, some y, some z⟩ = TxBuf.empty := by
  simp [free_segments_loop, TxBuf.get, TxBuf.set, TxBuf.empty]

@[simp] theorem prov_clear_tx_id (st : PbLink) : (prov_clear_tx st).id = st.id := rfl
@[simp] theorem prov_clear_tx_flags (st : PbLink) : (prov_clear_tx st).flags = st.flags := rfl
@[simp] theorem prov_clear_tx_cb (st : PbLink) : (prov_clear_tx st).cb = st.cb := rfl
@[simp] theorem prov_clear_tx_cb_data (st : PbLink) : (prov_clear_tx st).cb_data = st.cb_data := rfl
@[simp] theorem prov_clear_tx_rx (st : PbLink) : (prov_clear_tx st).rx = st.rx := rfl
@[simp] theorem prov_clear_tx_prot_timer (st : PbLink) :
    (prov_clear_tx st).prot_timer = st.prot_timer := rfl
@[simp] theorem prov_clear_tx_tx_start (st : PbLink) : (prov_clear_tx st).tx.start = st.tx.start := rfl
@[simp] theorem prov_clear_tx_tx_id (st : PbLink) : (prov_clear_tx st).tx.id = st.tx.id := rfl
@[simp] theorem prov_clear_tx_tx_pending_ack (st : PbLink) :
    (prov_clear_tx st).tx.pending_ack = st.tx.pending_ack := rfl
@[simp] theorem prov_clear_tx_tx_cb (st : PbLink) : (prov_clear_tx st).tx.cb = st.tx.cb := rfl
@[simp] theorem prov_clear_tx_tx_cb_data (st : PbLink) :
    (prov_clear_tx st).tx.cb_data = st.tx.cb_data := rfl
@[simp] theorem prov_clear_tx_tx_retransmit (st : PbLink) :
    (prov_clear_tx st).tx.retransmit = false := rfl


/-! ## Transaction ids -/

set_option maxRecDepth 100000 in
/-- C5: for every 8-bit id, `next_transaction_id` keeps bit 7, advances the low
seven bits by one modulo 128, never returns its argument, returns to it after
128 applications, and maps `0x7f` to `0x00` and `0xff` to `0x80`. -/
theorem next_transaction_id_spec (id : Nat) (h : id < 256) :
    next_transaction_id id &&& 0x80 = id &&& 0x80 ∧
    next_transaction_id id &&& 0x7f = ((id &&& 0x7f) + 1) % 128 ∧
    next_transaction_id id ≠ id ∧
    next_transaction_id^[128] id = id ∧
    next_transaction_id 0x7f = 0x00 ∧
    next_transaction_id 0xff = 0x80 := by
  revert id
  decide

theorem next_transaction_id_spec_witness :
    0x85 < 256 ∧
    next_transaction_id 0x85 &&& 0x80 = 0x85 &&& 0x80 ∧
    next_transaction_id 0x85 &&& 0x7f = ((0x85 &&& 0x7f) + 1) % 128 ∧
    next_transaction_id 0x85 ≠ 0x85 ∧
    next_transaction_id^[128] 0x85 = 0x85 ∧
    next_transaction_id 0x7f = 0x00 ∧
    next_transaction_id 0xff = 0x80 :=
  ⟨by decide, next_transaction_id_spec 0x85 (by decide)⟩

/-! ## Foreign link ids -/

/-- C6: while the link is active, a frame whose link id differs from
`pb_link.id` leaves the link state unchanged and causes no call at all,
whatever its kind and length. -/
theorem recv_foreign_link_id (env : Env) (nbufs : Nat) (st : PbLink) (buf : List Nat)
    (hact : st.flags.ADV_LINK_ACTIVE = true)
    (hid : (net_buf_simple_pull_be32 buf).1 ≠ st.id) :
    bt_mesh_pb_adv_recv env nbufs st buf = (st, []) := by
  unfold bt_mesh_pb_adv_recv
  by_cases hcb : st.cb = none
  · simp [hcb]
  · by_cases hlen : buf.length < 6
    · simp [hcb, hlen]
    · have hne : st.id ≠ (net_buf_simple_pull_be32 buf).1 := fun h => hid h.symm
      simp [hcb, hlen, hact, hne]

theorem recv_foreign_link_id_witness :
    sample_link.flags.ADV_LINK_ACTIVE = true ∧
    (net_buf_simple_pull_be32 [9, 9, 9, 9, 0, 0x03, 1, 2, 3]).1 ≠ sample_link.id ∧
    bt_mesh_pb_adv_recv sample_env 1 sample_link [9, 9, 9, 9, 0, 0x03, 1, 2, 3] =
      (sample_link, []) :=
  ⟨by decide, by decide,
    recv_foreign_link_id sample_env 1 sample_link [9, 9, 9, 9, 0, 0x03, 1, 2, 3]
      (by decide) (by decide)⟩

/-! ## Segmentation -/

theorem take_min_length (l : List Nat) (n : Nat) : l.take (min l.length n) = l.take n := by
  rcases Nat.le_total l.length n with h | h
  · rw [Nat.min_eq_left h, List.take_of_length_le h, List.take_of_length_le (Nat.le_refl _)]
  · rw [Nat.min_eq_right h]

theorem drop_min_length (l : List Nat) (n : Nat) : l.drop (min l.length n) = l.drop n := by
  rcases Nat.le_total l.length n with h | h
  · rw [Nat.min_eq_left h, List.drop_of_length_le h, List.drop_of_length_le (Nat.le_refl _)]
  · rw [Nat.min_eq_right h]

theorem send_loop_done (nbufs left : Nat) (st : PbLink) :
    prov_send_adv_loop nbufs left st [] = (0, (send_reliable st).1, (send_reliable st).2) := by
  cases left <;> simp [prov_send_adv_loop]

theorem send_loop_too_big (nbufs : Nat) (st : PbLink) (msg : List Nat) (h : 0 < msg.length) :
    prov_send_adv_loop nbufs 0 st msg = (-E2BIG, free_segments st, []) := by
  simp [prov_send_adv_loop, h]

theorem send_loop_no_buf (nbufs left : Nat) (st : PbLink) (msg : List Nat) (h : 0 < msg.length)
    (hl : left < 3) (hn : nbufs ≤ 3 - (left + 1)) :
    prov_send_adv_loop nbufs (left + 1) st msg = (-ENOBUFS, free_segments st, []) := by
  have h1 : ¬ 3 ≤ 3 - (left + 1) := by omega
  have h2 : ¬ 3 - (left + 1) < nbufs := by omega
  simp only [prov_send_adv_loop, TX_BUF_COUNT, h, h1, h2, gt_iff_lt, ge_iff_le, if_true, if_false,
    not_false_eq_true]

theorem send_loop_step (nbufs left : Nat) (st : PbLink) (msg : List Nat) (h : 0 < msg.length)
    (hl : left < 3) (hn : 3 - (left + 1) < nbufs) :
    prov_send_adv_loop nbufs (left + 1) st msg =
      prov_send_adv_loop nbufs left
        { st with tx.buf := st.tx.buf.set (3 - (left + 1)) (some (cont_buf st (3 - (left + 1)) msg)) }
        (msg.drop 23) := by
  have h1 : ¬ 3 ≤ 3 - (left + 1) := by omega
  simp only [prov_send_adv_loop, TX_BUF_COUNT, h, h1, hn, gt_iff_lt, ge_iff_le, if_true, if_false,
    not_true_eq_false, CONT_PAYLOAD_MAX, take_min_length, drop_min_length, cont_buf,
    net_buf_add_mem, net_buf_add_u8, net_buf_add_be32, adv_buf_create, RETRANSMITS_RELIABLE,
    List.nil_append, List.append_assoc, List.singleton_append, List.cons_append]

theorem prov_send_adv_no_buf (env : Env) (now : Int) (st : PbLink)
    (msg : List Nat) (cb : Option Nat) (cb_data : Nat) :
    prov_send_adv env 0 now st msg cb cb_data =
      (-ENOBUFS, { prov_clear_tx st with prot_timer := true }, []) := by
  simp [prov_send_adv]

theorem prov_send_adv_start (env : Env) (nbufs : Nat) (now : Int) (st : PbLink)
    (msg : List Nat) (cb : Option Nat) (cb_data : Nat) (hn : 0 < nbufs) :
    prov_send_adv env nbufs now st msg cb cb_data =
      prov_send_adv_loop nbufs 2 (send_start_state env now st msg cb cb_data) (msg.drop 20) := by
  have h0 : ¬ nbufs = 0 := by omega
  simp only [prov_send_adv, h0, if_false, START_PAYLOAD_MAX, take_min_length, drop_min_length,
    TX_BUF_COUNT, send_start_state, start_buf,
    net_buf_add_mem, net_buf_add_u8, net_buf_add_be32, net_buf_add_be16, adv_buf_create,
    RETRANSMITS_RELIABLE, List.nil_append, List.append_assoc, List.singleton_append,
    List.cons_append]
  simp [prov_clear_tx, free_segments]

theorem free_segments_buf (st : PbLink) :
    (free_segments st).tx.buf = free_segments_loop 3 0 st.tx.buf := rfl

theorem prov_clear_tx_buf (st : PbLink) :
    (prov_clear_tx st).tx.buf = free_segments_loop 3 0 st.tx.buf := rfl

theorem send_start_state_buf (env : Env) (now : Int) (st : PbLink) (msg : List Nat)
    (cb : Option Nat) (cb_data : Nat) :
    (send_start_state env now st msg cb cb_data).tx.buf =
      (free_segments_loop 3 0 st.tx.buf).set 0 (some (start_buf env st msg)) := rfl

/-- C4, as amended: for a message of more than 66 bytes `prov_send_adv` returns
`-E2BIG` when buffers for the three segments are available and `-ENOBUFS` when
the pool runs out first; in both cases no frame is handed to the transport, and
every slot of `tx.buf` is left empty (when the pool runs out, provided the slots
occupied on entry formed an initial segment of the array). -/
theorem prov_send_adv_too_big (env : Env) (nbufs : Nat) (now : Int) (st : PbLink)
    (msg : List Nat) (cb : Option Nat) (cb_data : Nat) (hL : 66 < msg.length) :
    (3 ≤ nbufs →
      (prov_send_adv env nbufs now st msg cb cb_data).1 = -E2BIG ∧
      (prov_send_adv env nbufs now st msg cb cb_data).2.1.tx.buf = TxBuf.empty) ∧
    (nbufs < 3 →
      (prov_send_adv env nbufs now st msg cb cb_data).1 = -ENOBUFS ∧
      (st.tx.buf.contiguous →
        (prov_send_adv env nbufs now st msg cb cb_data).2.1.tx.buf = TxBuf.empty)) ∧
    (prov_send_adv env nbufs now st msg cb cb_data).2.2 = [] := by
  have g1 : 0 < (msg.drop 20).length := by simp; omega
  have g2 : 0 < ((msg.drop 20).drop 23).length := by simp; omega
  have g3 : 0 < (((msg.drop 20).drop 23).drop 23).length := by simp; omega
  rcases Nat.eq_zero_or_pos nbufs with k0 | k0
  · subst k0
    rw [prov_send_adv_no_buf]
    refine ⟨by omega, fun _ => ⟨rfl, fun hc => ?_⟩, rfl⟩
    simp only [prov_clear_tx_buf, free_segments_loop_contiguous _ hc]
  · rw [prov_send_adv_start env nbufs now st msg cb cb_data k0]
    rcases Nat.lt_or_ge 1 nbufs with k1 | k1
    · rw [send_loop_step nbufs 1 _ _ g1 (by omega) (by omega)]
      rcases Nat.lt_or_ge 2 nbufs with k2 | k2
      · rw [send_loop_step nbufs 0 _ _ g2 (by omega) (by omega), send_loop_too_big _ _ _ g3]
        refine ⟨fun _ => ⟨rfl, ?_⟩, by omega, rfl⟩
        simp only [free_segments_buf, send_start_state_buf]
        generalize free_segments_loop 3 0 st.tx.buf = b
        simp [TxBuf.set, free_segments_loop, TxBuf.get, TxBuf.empty]
      · rw [send_loop_no_buf nbufs 0 _ _ g2 (by omega) (by omega)]
        refine ⟨by omega, fun _ => ⟨rfl, fun hc => ?_⟩, rfl⟩
        simp only [free_segments_buf, send_start_state_buf, free_segments_loop_contiguous _ hc]
        simp [TxBuf.set, free_segments_loop, TxBuf.get, TxBuf.empty]
    · rw [send_loop_no_buf nbufs 1 _ _ g1 (by omega) (by omega)]
      refine ⟨by omega, fun _ => ⟨rfl, fun hc => ?_⟩, rfl⟩
      simp only [free_segments_buf, send_start_state_buf, free_segments_loop_contiguous _ hc]
      simp [TxBuf.set, free_segments_loop, TxBuf.get, TxBuf.empty]


theorem next_transaction_id_lt (id : Nat) : next_transaction_id id < 256 := by
  unfold next_transaction_id
  have h1 : (id + 1) &&& XACT_ID_MAX ≤ 0x7f := Nat.and_le_right
  have h2 : id &&& (XACT_ID_MAX + 1) ≤ 0x80 := Nat.and_le_right
  exact Nat.or_lt_two_pow (n := 8) (by omega) (by omega)

theorem send_reliable_buf (st : PbLink) : (send_reliable st).1.tx.buf = st.tx.buf := rfl

theorem gpc_start_byte : ∀ L, L ≤ 66 → GPC_START (last_seg L) % 256 = GPC_START (last_seg L) := by
  decide

theorem take_drop_slice (msg : List Nat) (a : Nat) :
    (msg.drop a).take 23 = slice msg a (min msg.length (a + 23)) := by
  unfold slice
  rw [take_min_length, List.drop_take]
  congr 1
  omega

/-- C2: for a message of at most 66 bytes, with buffers available,
`prov_send_adv` succeeds and leaves exactly `1 + ceil(max(0, L - 20) / 23)`
frames in `tx.buf`: slot 0 holds the Start frame (link id, the new transaction
id, the `GPC_START` byte, the length, the FCS of the message, the first
`min(L, 20)` bytes) and slot `k >= 1` the Continuation frame with byte
`(k << 2) | 2` and the message bytes `[20 + 23(k-1), min(L, 20 + 23k))`; the
data parts of the frames, concatenated in index order, are the message. -/
theorem prov_send_adv_frames (env : Env) (nbufs : Nat) (now : Int) (st : PbLink)
    (msg : List Nat) (cb : Option Nat) (cb_data : Nat)
    (hL : msg.length ≤ 66) (hn : 3 ≤ nbufs) (hc : st.tx.buf.contiguous) :
    (prov_send_adv env nbufs now st msg cb cb_data).1 = 0 ∧
    (prov_send_adv env nbufs now st msg cb cb_data).2.1.tx.id = next_transaction_id st.tx.id ∧
    (prov_send_adv env nbufs now st msg cb cb_data).2.1.tx.buf.count
      = 1 + (msg.length - 20 + 22) / 23 ∧
    (prov_send_adv env nbufs now st msg cb cb_data).2.1.tx.buf.get 0
      = some ⟨0, be32 st.id ++ [next_transaction_id st.tx.id, GPC_START (last_seg msg.length)]
                 ++ be16 msg.length ++ [env.bt_mesh_fcs_calc msg % 256]
                 ++ slice msg 0 (min msg.length 20), false⟩ ∧
    (∀ k, 1 ≤ k → k ≤ (msg.length - 20 + 22) / 23 →
      (prov_send_adv env nbufs now st msg cb cb_data).2.1.tx.buf.get k
        = some ⟨0, be32 st.id ++ [next_transaction_id st.tx.id, (k <<< 2) ||| 2]
                   ++ slice msg (20 + 23 * (k - 1)) (min msg.length (20 + 23 * k)), false⟩) ∧
    (∀ k, (msg.length - 20 + 22) / 23 < k →
      (prov_send_adv env nbufs now st msg cb cb_data).2.1.tx.buf.get k = none) ∧
    (prov_send_adv env nbufs now st msg cb cb_data).2.1.tx.buf.payload = msg := by
  have hid := Nat.mod_eq_of_lt (next_transaction_id_lt st.tx.id)
  have hgpc := gpc_start_byte msg.length hL
  rw [prov_send_adv_start env nbufs now st msg cb cb_data (by omega)]
  rcases Nat.lt_or_ge 20 msg.length with c1 | c1
  · have g1 : 0 < (msg.drop 20).length := by simp; omega
    rw [send_loop_step nbufs 1 _ _ g1 (by omega) (by omega)]
    rcases Nat.lt_or_ge 43 msg.length with c2 | c2
    · have g2 : 0 < ((msg.drop 20).drop 23).length := by simp; omega
      have g3 : ((msg.drop 20).drop 23).drop 23 = [] := by
        apply List.drop_eq_nil_of_le; simp; omega
      rw [send_loop_step nbufs 0 _ _ g2 (by omega) (by omega), g3, send_loop_done]
      have hq : (msg.length - 20 + 22) / 23 = 2 := by omega
      have e1 : (msg.drop 20).take 23 = slice msg 20 (min msg.length 43) := take_drop_slice msg 20
      have e2 : ((msg.drop 20).drop 23).take 23 = slice msg 43 (min msg.length 66) := by
        rw [List.drop_drop]; exact take_drop_slice msg 43
      have e3 : ((msg.drop 20).drop 23).take 23 = (msg.drop 20).drop 23 :=
        List.take_of_length_le (by simp; omega)
      refine ⟨rfl, rfl, ?_, ?_, ?_, ?_, ?_⟩ <;>
        simp only [send_reliable_buf, send_start_state_buf, free_segments_loop_contiguous _ hc, hq]
      · simp [TxBuf.count, TxBuf.set, TxBuf.empty]
      · simp [TxBuf.get, TxBuf.set, TxBuf.empty, start_buf, hid, hgpc, slice, take_min_length]
      · intro k h1 h2
        rcases (by omega : k = 1 ∨ k = 2) with rfl | rfl
        · simp only [TxBuf.get, TxBuf.set, TxBuf.empty, cont_buf, e1]
          simp [send_start_state, prov_clear_tx, free_segments, hid, GPC_CONT]
        · simp only [TxBuf.get, TxBuf.set, TxBuf.empty, cont_buf, e2]
          simp [send_start_state, prov_clear_tx, free_segments, hid, GPC_CONT]
      · intro k hk
        match k, hk with
        | k + 3, _ => rfl
      · simp only [TxBuf.payload, TxBuf.set, TxBuf.empty, cont_buf, e3]
        have e4 : List.take 23 (List.drop 20 msg) ++ List.drop 43 msg = List.drop 20 msg := by
          have := List.take_append_drop 23 (List.drop 20 msg)
          rwa [List.drop_drop] at this
        simp [start_buf, be32, be16, e4]
    · have g2 : (msg.drop 20).drop 23 = [] := by
        apply List.drop_eq_nil_of_le; simp; omega
      rw [g2, send_loop_done]
      have hq : (msg.length - 20 + 22) / 23 = 1 := by omega
      have e1 : (msg.drop 20).take 23 = slice msg 20 (min msg.length 43) := take_drop_slice msg 20
      have e3 : (msg.drop 20).take 23 = msg.drop 20 :=
        List.take_of_length_le (by simp; omega)
      refine ⟨rfl, rfl, ?_, ?_, ?_, ?_, ?_⟩ <;>
        simp only [send_reliable_buf, send_start_state_buf, free_segments_loop_contiguous _ hc, hq]
      · simp [TxBuf.count, TxBuf.set, TxBuf.empty]
      · simp [TxBuf.get, TxBuf.set, TxBuf.empty, start_buf, hid, hgpc, slice, take_min_length]
      · intro k h1 h2
        obtain rfl : k = 1 := by omega
        simp only [TxBuf.get, TxBuf.set, TxBuf.empty, cont_buf, e1]
        simp [send_start_state, prov_clear_tx, free_segments, hid, GPC_CONT]
      · intro k hk
        match k, hk with
        | 2, _ => rfl
        | k + 3, _ => rfl
      · simp only [TxBuf.payload, TxBuf.set, TxBuf.empty, cont_buf, e3]
        simp [start_buf, be32, be16]
  · have g1 : msg.drop 20 = [] := List.drop_eq_nil_of_le c1
    rw [g1, send_loop_done]
    have hq : (msg.length - 20 + 22) / 23 = 0 := by omega
    refine ⟨rfl, rfl, ?_, ?_, ?_, ?_, ?_⟩ <;>
      simp only [send_reliable_buf, send_start_state_buf, free_segments_loop_contiguous _ hc, hq]
    · simp [TxBuf.count, TxBuf.set, TxBuf.empty]
    · simp [TxBuf.get, TxBuf.set, TxBuf.empty, start_buf, hid, hgpc, slice, take_min_length]
    · intro k h1 h2; omega
    · intro k hk
      match k, hk with
      | 1, _ => rfl
      | 2, _ => rfl
      | k + 3, _ => rfl
    · simp [TxBuf.payload, TxBuf.set, TxBuf.empty, start_buf, be32, be16, List.take_of_length_le c1]

theorem prov_send_adv_too_big_witness :
    66 < (List.replicate 67 0x55).length ∧
    ((3 ≤ 3 →
      (prov_send_adv sample_env 3 0 sample_link (List.replicate 67 0x55) none 0).1 = -E2BIG ∧
      (prov_send_adv sample_env 3 0 sample_link (List.replicate 67 0x55) none 0).2.1.tx.buf
        = TxBuf.empty) ∧
    (3 < 3 →
      (prov_send_adv sample_env 3 0 sample_link (List.replicate 67 0x55) none 0).1 = -ENOBUFS ∧
      (sample_link.tx.buf.contiguous →
        (prov_send_adv sample_env 3 0 sample_link (List.replicate 67 0x55) none 0).2.1.tx.buf
          = TxBuf.empty)) ∧
    (prov_send_adv sample_env 3 0 sample_link (List.replicate 67 0x55) none 0).2.2 = []) :=
  ⟨by decide,
    prov_send_adv_too_big sample_env 3 0 sample_link (List.replicate 67 0x55) none 0 (by decide)⟩

/-- C4, counterexample: with no advertising buffer available, a 67-byte message
makes `prov_send_adv` return `-ENOBUFS` (line 672), not `-E2BIG`. -/
theorem prov_send_adv_too_big_enobufs :
    (prov_send_adv sample_env 0 0 sample_link (List.replicate 67 0x55) none 0).1 = -ENOBUFS ∧
    (prov_send_adv sample_env 0 0 sample_link (List.replicate 67 0x55) none 0).1 ≠ -E2BIG := by
  decide

theorem prov_send_adv_frames_witness :
    (List.range 50).length ≤ 66 ∧ 3 ≤ 3 ∧ sample_link.tx.buf.contiguous ∧
    (prov_send_adv sample_env 3 0 sample_link (List.range 50) (some 7) 0).2.1.tx.buf.count
      = 1 + ((List.range 50).length - 20 + 22) / 23 ∧
    (prov_send_adv sample_env 3 0 sample_link (List.range 50) (some 7) 0).2.1.tx.buf.payload
      = List.range 50 :=
  have h := prov_send_adv_frames sample_env 3 0 sample_link (List.range 50) (some 7) 0
    (by decide) (by decide) (by decide)
  ⟨by decide, by decide, by decide, h.2.2.1, h.2.2.2.2.2.2⟩

set_option maxRecDepth 100000 in
/-- C3, evaluated: `last_seg` agrees with the index of the final queued frame,
`ceil(max(0, L - 20) / 23)`, for every accepted length except 43 and 66.  For
a 43-byte message `prov_send_adv` queues two frames (indices 0 and 1) while the
Start frame header announces last segment 2. -/
theorem last_seg_off_by_one :
    (∀ L, L ≤ 66 → (last_seg L = (L - 20 + 22) / 23 ↔ L ≠ 43 ∧ L ≠ 66)) ∧
    last_seg 43 = 2 ∧
    (prov_send_adv sample_env 3 0 sample_link (List.range 43) none 0).1 = 0 ∧
    (prov_send_adv sample_env 3 0 sample_link (List.range 43) none 0).2.1.tx.buf.count = 2 ∧
    (prov_send_adv sample_env 3 0 sample_link (List.range 43) none 0).2.1.tx.buf.b2 = none ∧
    ((prov_send_adv sample_env 3 0 sample_link (List.range 43) none 0).2.1.tx.buf.b0.map
      fun f => START_LAST_SEG (f.data.getD 5 0)) = some 2 := by
  decide

/-! ## Start frames -/

set_option maxRecDepth 100000 in
theorem next_transaction_id_ne_small : ∀ id, id < 256 → next_transaction_id id ≠ id := by
  decide

theorem next_transaction_id_ne (id : Nat) : next_transaction_id id ≠ id := by
  rcases Nat.lt_or_ge id 256 with h | h
  · exact next_transaction_id_ne_small id h
  · have := next_transaction_id_lt id
    omega

theorem gen_prov_ack_send_invalid (nbufs : Nat) (st : PbLink) (xact_id : Nat) :
    (gen_prov_ack_send nbufs st xact_id).1.flags.ADV_LINK_INVALID = st.flags.ADV_LINK_INVALID := by
  unfold gen_prov_ack_send
  simp only
  split
  · rfl
  · split
    · rfl
    · split <;> rfl

/-- What `gen_prov_ack_send` hands to the transport: nothing, or one
Transaction Ack frame for `xact_id` on the current link. -/
theorem gen_prov_ack_send_effects (nbufs : Nat) (st : PbLink) (xact_id : Nat) :
    (gen_prov_ack_send nbufs st xact_id).2 = [] ∨
    ∃ cb, (gen_prov_ack_send nbufs st xact_id).2 =
      [Effect.adv_send ⟨RETRANSMITS_ACK, be32 st.id ++ [xact_id % 256, GPC_ACK], false⟩ cb] := by
  unfold gen_prov_ack_send
  simp only
  split
  · exact Or.inl rfl
  · split
    · exact Or.inl rfl
    · right
      split
      · exact ⟨SendCb.null, by simp [net_buf_add_u8, net_buf_add_be32, adv_buf_create]⟩
      · exact ⟨SendCb.ack_complete, by simp [net_buf_add_u8, net_buf_add_be32, adv_buf_create]⟩

theorem prov_msg_recv_invalid (env : Env) (nbufs : Nat) (st : PbLink) :
    (prov_msg_recv env nbufs st).1.flags.ADV_LINK_INVALID = st.flags.ADV_LINK_INVALID := by
  have h := gen_prov_ack_send_invalid nbufs { st with prot_timer := true } st.rx.id
  unfold prov_msg_recv
  simp only
  split
  · rfl
  · split
    · rename_i hinv
      simp only [prov_failed]
      rw [← h, hinv]
    · exact h

theorem prov_msg_recv_no_nval_fmt (env : Env) (nbufs : Nat) (st : PbLink) :
    Effect.error PROV_ERR_NVAL_FMT ∉ (prov_msg_recv env nbufs st).2 := by
  have h := gen_prov_ack_send_effects nbufs { st with prot_timer := true } st.rx.id
  unfold prov_msg_recv
  simp only
  split
  · simp
  · split
    · rcases h with h | ⟨cb, h⟩ <;> simp [h, prov_failed]
    · rcases h with h | ⟨cb, h⟩ <;> simp [h]

/-- C8: for a Start frame whose transaction id is the successor of `rx.id`,
arriving with `rx.seg = 0`, `gen_prov_start` invokes the error callback with
`PROV_ERR_NVAL_FMT` exactly when the declared total length is 0, exceeds 65, or
is at most 20 while the header's last-segment index is positive; in that case
this is the only call made (nothing is acknowledged or delivered) and the
invalid flag is set, and otherwise the invalid flag keeps its value. -/
theorem gen_prov_start_length_check (env : Env) (nbufs : Nat) (st : PbLink) (rx : ProvRx)
    (buf : List Nat)
    (hid : rx.xact_id = next_transaction_id st.rx.id) (hseg : st.rx.seg = 0) :
    (Effect.error PROV_ERR_NVAL_FMT ∈ (gen_prov_start env nbufs st rx buf).2 ↔
      ((net_buf_simple_pull_be16 buf).1 = 0 ∨ (net_buf_simple_pull_be16 buf).1 > 65 ∨
        ((net_buf_simple_pull_be16 buf).1 ≤ 20 ∧ START_LAST_SEG rx.gpc > 0))) ∧
    (((net_buf_simple_pull_be16 buf).1 = 0 ∨ (net_buf_simple_pull_be16 buf).1 > 65 ∨
        ((net_buf_simple_pull_be16 buf).1 ≤ 20 ∧ START_LAST_SEG rx.gpc > 0)) →
      (gen_prov_start env nbufs st rx buf).2 = [Effect.error PROV_ERR_NVAL_FMT] ∧
      (gen_prov_start env nbufs st rx buf).1.flags.ADV_LINK_INVALID = true) ∧
    (¬ ((net_buf_simple_pull_be16 buf).1 = 0 ∨ (net_buf_simple_pull_be16 buf).1 > 65 ∨
        ((net_buf_simple_pull_be16 buf).1 ≤ 20 ∧ START_LAST_SEG rx.gpc > 0)) →
      (gen_prov_start env nbufs st rx buf).1.flags.ADV_LINK_INVALID
        = st.flags.ADV_LINK_INVALID) := by
  have hne : ¬ rx.xact_id = st.rx.id := by
    rw [hid]; exact next_transaction_id_ne _
  generalize hlen : (net_buf_simple_pull_be16 buf).1 = len
  have hbody : gen_prov_start env nbufs st rx buf = gen_prov_start_body env nbufs st rx buf := by
    unfold gen_prov_start
    rw [if_neg hne, if_neg (by simp [hid])]
  rw [hbody]
  by_cases h0 : len < 1
  · have : len = 0 := by omega
    simp [gen_prov_start_body, hlen, h0, prov_failed, this]
  · by_cases h1 : len > 65
    · simp [gen_prov_start_body, hlen, h0, h1, prov_failed]
    · by_cases h2 : START_LAST_SEG rx.gpc > 0 ∧ len ≤ 20
      · simp [gen_prov_start_body, hlen, h0, h1, h2, prov_failed]
      · have hN := prov_msg_recv_no_nval_fmt
        have hI := prov_msg_recv_invalid
        simp only [PROV_ERR_NVAL_FMT] at hN
        simp [gen_prov_start_body, hlen, h0, h1, h2, prov_failed, hseg]
        split <;> simp [hN, hI, XACT_SEG_RECV] <;> omega

theorem gen_prov_start_length_check_witness :
    (⟨sample_link.id, 0x00, GPC_START 0⟩ : ProvRx).xact_id = next_transaction_id sample_link.rx.id ∧
    sample_link.rx.seg = 0 ∧
    (gen_prov_start sample_env 1 sample_link ⟨sample_link.id, 0x00, GPC_START 0⟩ [0, 0, 0]).2
      = [Effect.error PROV_ERR_NVAL_FMT] :=
  ⟨by decide, by decide,
    ((gen_prov_start_length_check sample_env 1 sample_link ⟨sample_link.id, 0x00, GPC_START 0⟩
      [0, 0, 0] (by decide) (by decide)).2.1 (Or.inl (by decide))).1⟩

/-! ## Completed reassembly -/

/-- C9, as amended: when `prov_msg_recv` runs and the FCS check fails, nothing
is sent, no callback is invoked and only the protocol timer is re-armed (all
flags keep their value); when the check passes and the link is not invalid,
`recv` is invoked with the reassembled bytes, preceded by one Transaction Ack
for `rx.id` if a buffer is available and no ack for `rx.id` is already pending,
and by no Ack otherwise. -/
theorem prov_msg_recv_spec (env : Env) (nbufs : Nat) (st : PbLink) :
    (env.bt_mesh_fcs_check st.rx.buf.bytes st.rx.fcs = false →
      prov_msg_recv env nbufs st = ({ st with prot_timer := true }, [])) ∧
    (env.bt_mesh_fcs_check st.rx.buf.bytes st.rx.fcs = true →
      st.flags.ADV_LINK_INVALID = false →
      ((0 < nbufs ∧ ¬ (st.flags.ADV_ACK_PENDING = true ∧ st.tx.pending_ack = st.rx.id) →
        ∃ cb, (prov_msg_recv env nbufs st).2 =
          [Effect.adv_send ⟨RETRANSMITS_ACK, be32 st.id ++ [st.rx.id % 256, GPC_ACK], false⟩ cb,
           Effect.recv st.rx.buf.bytes]) ∧
       (¬ (0 < nbufs ∧ ¬ (st.flags.ADV_ACK_PENDING = true ∧ st.tx.pending_ack = st.rx.id)) →
        (prov_msg_recv env nbufs st).2 = [Effect.recv st.rx.buf.bytes]))) := by
  refine ⟨fun hf => ?_, fun hf hinv => ⟨fun hok => ?_, fun hno => ?_⟩⟩
  · simp [prov_msg_recv, hf]
  · obtain ⟨hn, hp⟩ := hok
    have hn0 : ¬ nbufs = 0 := by omega
    by_cases hpend : st.flags.ADV_ACK_PENDING = true
    · have hpa : ¬ st.tx.pending_ack = st.rx.id := fun h => hp ⟨hpend, h⟩
      exact ⟨SendCb.null, by
        simp [prov_msg_recv, hf, gen_prov_ack_send, hpend, hpa, hn0, hinv, net_buf_add_u8,
          net_buf_add_be32, adv_buf_create]⟩
    · exact ⟨SendCb.ack_complete, by
        simp [prov_msg_recv, hf, gen_prov_ack_send, hpend, hn0, hinv, net_buf_add_u8,
          net_buf_add_be32, adv_buf_create]⟩
  · by_cases hpend : st.flags.ADV_ACK_PENDING = true ∧ st.tx.pending_ack = st.rx.id
    · simp [prov_msg_recv, hf, gen_prov_ack_send, hpend, hinv]
    · have hn0 : nbufs = 0 := by
        by_contra h
        exact hno ⟨by omega, hpend⟩
      simp [prov_msg_recv, hf, gen_prov_ack_send, hpend, hn0, hinv]

theorem prov_msg_recv_spec_witness :
    sample_env.bt_mesh_fcs_check sample_reassembled.rx.buf.bytes sample_reassembled.rx.fcs = true ∧
    sample_reassembled.flags.ADV_LINK_INVALID = false ∧
    (¬ (0 < 0 ∧ ¬ (sample_reassembled.flags.ADV_ACK_PENDING = true ∧
        sample_reassembled.tx.pending_ack = sample_reassembled.rx.id))) ∧
    (prov_msg_recv sample_env 0 sample_reassembled).2 = [Effect.recv [5]] :=
  ⟨by decide, by decide, by decide,
    ((prov_msg_recv_spec sample_env 0 sample_reassembled).2 (by decide) (by decide)).2
      (by decide)⟩

/-- C9, counterexample: the FCS matches and the link is not invalid, but no
advertising buffer is available: `recv` is invoked and no Transaction Ack is
sent (lines 321 to 325). -/
theorem prov_msg_recv_without_ack :
    sample_env.bt_mesh_fcs_check sample_reassembled.rx.buf.bytes sample_reassembled.rx.fcs = true ∧
    sample_reassembled.flags.ADV_LINK_INVALID = false ∧
    (prov_msg_recv sample_env 0 sample_reassembled).2 = [Effect.recv [5]] := by
  decide

/-! ## Transaction acknowledgment -/

/-- C10: with `tx.buf[0]` occupied (the occupied slots forming an initial
segment of the array), the link not closing and a completion callback set, a
Transaction Ack whose id equals `tx.id` empties every slot of `tx.buf` and
invokes the completion callback once with status 0; in the state it leaves,
every further Ack changes nothing and invokes nothing, however many arrive; an
Ack whose id differs from `tx.id` changes nothing and invokes nothing. -/
theorem gen_prov_ack_spec (st : PbLink) (rx : ProvRx) (cb : Nat)
    (h0 : st.tx.buf.get 0 ≠ none) (hc : st.tx.buf.contiguous)
    (hcl : st.flags.ADV_LINK_CLOSING = false) (hcb : st.tx.cb = some cb) :
    (rx.xact_id = st.tx.id →
      gen_prov_ack st rx = (prov_clear_tx st, [Effect.send_complete cb st.tx.cb_data 0]) ∧
      (gen_prov_ack st rx).1.tx.buf = TxBuf.empty ∧
      (∀ rx2 : ProvRx, gen_prov_ack (gen_prov_ack st rx).1 rx2 = ((gen_prov_ack st rx).1, [])) ∧
      (∀ rxs : List ProvRx,
        rxs.foldl (fun s r => (gen_prov_ack s r).1) (gen_prov_ack st rx).1
          = (gen_prov_ack st rx).1)) ∧
    (rx.xact_id ≠ st.tx.id → gen_prov_ack st rx = (st, [])) := by
  have hclr : (prov_clear_tx st).tx.buf = TxBuf.empty := by
    rw [prov_clear_tx_buf]; exact free_segments_loop_contiguous _ hc
  have hstep : ∀ rx2 : ProvRx, gen_prov_ack (prov_clear_tx st) rx2 = (prov_clear_tx st, []) := by
    intro rx2
    simp [gen_prov_ack, hclr, TxBuf.empty, TxBuf.get]
  refine ⟨fun hid => ?_, fun hid => ?_⟩
  · have e : gen_prov_ack st rx
        = (prov_clear_tx st, [Effect.send_complete cb st.tx.cb_data 0]) := by
      simp [gen_prov_ack, h0, hid, hcl, hcb]
    rw [e]
    refine ⟨rfl, hclr, hstep, fun rxs => ?_⟩
    induction rxs with
    | nil => rfl
    | cons r rs ih => simpa [List.foldl, hstep r] using ih
  · simp [gen_prov_ack, h0, hid]

theorem gen_prov_ack_spec_witness :
    (prov_send_adv sample_env 3 0 sample_link [1, 2, 3] (some 7) 9).2.1.tx.buf.get 0 ≠ none ∧
    (prov_send_adv sample_env 3 0 sample_link [1, 2, 3] (some 7) 9).2.1.tx.buf.contiguous ∧
    (gen_prov_ack (prov_send_adv sample_env 3 0 sample_link [1, 2, 3] (some 7) 9).2.1
        ⟨sample_link.id, 0x80, GPC_ACK⟩).2 = [Effect.send_complete 7 9 0] ∧
    (gen_prov_ack (prov_send_adv sample_env 3 0 sample_link [1, 2, 3] (some 7) 9).2.1
        ⟨sample_link.id, 0x80, GPC_ACK⟩).1.tx.buf = TxBuf.empty :=
  have h := (gen_prov_ack_spec (prov_send_adv sample_env 3 0 sample_link [1, 2, 3] (some 7) 9).2.1
    ⟨sample_link.id, 0x80, GPC_ACK⟩ 7 (by decide) (by decide) (by decide) (by decide)).1
    (by decide)
  ⟨by decide, by decide, by rw [h.1]; decide, h.2.1⟩


/-! ## Acknowledgments under duplication -/

theorem ack_frame_is_ack (id xact_id : Nat) (cb : SendCb) :
    is_ack (Effect.adv_send ⟨RETRANSMITS_ACK, be32 id ++ [xact_id % 256, GPC_ACK], false⟩ cb)
      = true := by
  simp [is_ack, be32, GPCF]

theorem gen_prov_ack_send_outcome (nbufs : Nat) (st : PbLink) (t : Nat) (hn : 0 < nbufs) :
    (acks (gen_prov_ack_send nbufs st t).2 = 1 ∧
      (gen_prov_ack_send nbufs st t).1.flags.ADV_ACK_PENDING = true ∧
      (gen_prov_ack_send nbufs st t).1.rx = st.rx ∧
      (∀ e ∈ (gen_prov_ack_send nbufs st t).2, is_accept e = false)) ∨
    (ack_pending_for t st ∧ gen_prov_ack_send nbufs st t = (st, [])) := by
  have hn0 : ¬ nbufs = 0 := by omega
  by_cases hp : st.flags.ADV_ACK_PENDING = true
  · by_cases hpa : st.tx.pending_ack = t
    · right
      refine ⟨⟨hp, hpa⟩, ?_⟩
      obtain ⟨id, ⟨f1, f2, f3, f4, f5, f6⟩, cb, cbd, rx, tx, pt⟩ := st
      simp only at hp hpa
      subst hp
      simp [gen_prov_ack_send, hpa]
    · left
      simp [gen_prov_ack_send, hp, hpa, hn0, acks, is_ack, is_accept, net_buf_add_u8,
        net_buf_add_be32, adv_buf_create, be32, GPCF]
  · left
    simp [gen_prov_ack_send, hp, hn0, acks, is_ack, is_accept, net_buf_add_u8,
      net_buf_add_be32, adv_buf_create, be32, GPCF]

theorem acks_append (a b : List Effect) : acks (a ++ b) = acks a + acks b := by
  simp [acks, List.countP_append]

theorem prov_msg_recv_outcome (env : Env) (nbufs : Nat) (st : PbLink) (t : Nat) (hn : 0 < nbufs)
    (hseg : st.rx.seg = 0) (hid : st.rx.id = t) :
    segment_outcome t st (prov_msg_recv env nbufs st) := by
  unfold prov_msg_recv
  simp only
  split
  · right
    refine ⟨rfl, fun hk => ⟨by simp, hk⟩⟩
  · have h := gen_prov_ack_send_outcome nbufs { st with prot_timer := true } t hn
    rw [hid]
    generalize gen_prov_ack_send nbufs { st with prot_timer := true } t = r at h
    obtain ⟨s1, e1⟩ := r
    simp only at h
    rcases h with ⟨h1, h2, h3, h4⟩ | ⟨h1, h2⟩
    · left
      have hs : s1.rx.seg = 0 := by rw [h3]; exact hseg
      have hi : s1.rx.id = t := by rw [h3]; exact hid
      split
      · simp only [prov_failed, acks_append, h1]
        exact ⟨by simp [acks, is_ack], hs, hi, h2⟩
      · simp only [acks_append, h1]
        exact ⟨by simp [acks, is_ack], hs, hi, h2⟩
    · right
      simp only [Prod.mk.injEq] at h2
      obtain ⟨rfl, rfl⟩ := h2
      have hk : ack_pending_for t st := h1
      split
      · exact ⟨by simp [prov_failed, acks, is_ack], fun hnk => absurd hk hnk⟩
      · exact ⟨by simp [acks, is_ack], fun hnk => absurd hk hnk⟩

theorem segment_outcome_quiet (t : Nat) (st : PbLink) (r : PbLink × List Effect)
    (hacks : acks r.2 = 0) (hacc : ∀ e ∈ r.2, is_accept e = false)
    (hf : r.1.flags.ADV_ACK_PENDING = st.flags.ADV_ACK_PENDING)
    (hp : r.1.tx.pending_ack = st.tx.pending_ack) :
    segment_outcome t st r := by
  right
  refine ⟨hacks, fun hk => ⟨hacc, fun hk2 => hk ?_⟩⟩
  unfold ack_pending_for at *
  rw [← hf, ← hp]
  exact hk2

theorem segment_outcome_prepend (t : Nat) (st st1 : PbLink) (r : PbLink × List Effect)
    (e0 : List Effect) (h0 : acks e0 = 0) (h1 : ∀ e ∈ e0, is_accept e = false)
    (hf : st1.flags.ADV_ACK_PENDING = st.flags.ADV_ACK_PENDING)
    (hp : st1.tx.pending_ack = st.tx.pending_ack)
    (h : segment_outcome t st1 r) :
    segment_outcome t st (r.1, e0 ++ r.2) := by
  rcases h with ⟨ha, hd⟩ | ⟨ha, hk⟩
  · left
    exact ⟨by simp only [acks_append, h0, ha], hd⟩
  · right
    refine ⟨by simp only [acks_append, h0, ha], fun hnk => ?_⟩
    have hnk1 : ¬ ack_pending_for t st1 := by
      unfold ack_pending_for at *
      rw [hf, hp]
      exact hnk
    obtain ⟨hk1, hk2⟩ := hk hnk1
    refine ⟨fun e he => ?_, hk2⟩
    rcases List.mem_append.mp he with he | he
    · exact h1 e he
    · exact hk1 e he

theorem reassembly_step_outcome (env : Env) (nbufs : Nat) (st s : PbLink) (t : Nat)
    (e0 : List Effect) (hn : 0 < nbufs) (hid : s.rx.id = t)
    (hf : s.flags.ADV_ACK_PENDING = st.flags.ADV_ACK_PENDING)
    (hp : s.tx.pending_ack = st.tx.pending_ack)
    (h0 : acks e0 = 0) (h1 : ∀ e ∈ e0, is_accept e = false) :
    segment_outcome t st
      (if s.rx.seg = 0 then
        ((prov_msg_recv env nbufs s).1, e0 ++ (prov_msg_recv env nbufs s).2)
       else (s, e0)) := by
  split
  · rename_i hz
    exact segment_outcome_prepend t st s _ e0 h0 h1 hf hp
      (prov_msg_recv_outcome env nbufs s t hn hz hid)
  · exact segment_outcome_quiet t st _ h0 h1 hf hp

theorem failed_outcome (t : Nat) (st s : PbLink) (e0 : List Effect)
    (hf : s.flags.ADV_ACK_PENDING = st.flags.ADV_ACK_PENDING)
    (hp : s.tx.pending_ack = st.tx.pending_ack)
    (h0 : acks e0 = 0) (h1 : ∀ e ∈ e0, is_accept e = false) :
    segment_outcome t st
      ((prov_failed s PROV_ERR_NVAL_FMT).1, e0 ++ (prov_failed s PROV_ERR_NVAL_FMT).2) := by
  refine segment_outcome_quiet t st _ ?_ ?_ hf hp
  · simp only [acks_append, h0]
    simp [prov_failed, acks, is_ack]
  · intro e he
    rcases List.mem_append.mp he with he | he
    · exact h1 e he
    · simp [prov_failed] at he
      subst he
      simp [is_accept]

theorem gen_prov_cont_body_outcome (env : Env) (nbufs : Nat) (st : PbLink) (t seg : Nat)
    (buf : List Nat) (hn : 0 < nbufs) (hid : st.rx.id = t) :
    segment_outcome t st (gen_prov_cont_body env nbufs st seg buf) := by
  unfold gen_prov_cont_body
  simp only
  split
  · exact failed_outcome t st st [] rfl rfl rfl (by simp)
  · split
    · exact segment_outcome_quiet t st _ rfl (by simp) rfl rfl
    · split
      · exact failed_outcome t st _ _ rfl rfl (by simp [acks, is_ack]) (by simp [is_accept])
      · exact reassembly_step_outcome env nbufs st _ t _ hn
          (by simpa [XACT_SEG_RECV] using hid) rfl rfl
          (by simp [acks, is_ack]) (by simp [is_accept])

theorem duplicate_outcome (nbufs : Nat) (st : PbLink) (t : Nat) (hn : 0 < nbufs)
    (hseg : st.rx.seg = 0) (hid : st.rx.id = t) :
    segment_outcome t st
      (if ¬ ack_pending st then gen_prov_ack_send nbufs st t else (st, [])) := by
  split
  · rename_i hp
    rcases gen_prov_ack_send_outcome nbufs st t hn with ⟨h1, h2, h3, _⟩ | ⟨h1, _⟩
    · left
      exact ⟨h1, by rw [h3]; exact hseg, by rw [h3]; exact hid, h2⟩
    · exact absurd h1.1 (by simpa [ack_pending] using hp)
  · exact segment_outcome_quiet t st _ rfl (by simp) rfl rfl

theorem segment_outcome_transfer (t : Nat) (st st1 : PbLink) (r : PbLink × List Effect)
    (h : segment_outcome t st1 r)
    (hf : st1.flags.ADV_ACK_PENDING = st.flags.ADV_ACK_PENDING)
    (hp : st1.tx.pending_ack = st.tx.pending_ack) :
    segment_outcome t st r := by
  have h2 := segment_outcome_prepend t st st1 r [] rfl (by simp) hf hp h
  simpa using h2

theorem gen_prov_cont_outcome (env : Env) (nbufs : Nat) (st : PbLink) (rx : ProvRx)
    (buf : List Nat) (hn : 0 < nbufs) :
    segment_outcome rx.xact_id st (gen_prov_cont env nbufs st rx buf) := by
  unfold gen_prov_cont
  simp only
  split
  · rename_i h
    exact duplicate_outcome nbufs st rx.xact_id hn h.1 h.2
  · split
    · exact segment_outcome_transfer _ st _ _
        (gen_prov_cont_body_outcome env nbufs _ rx.xact_id _ buf hn rfl) rfl rfl
    · split
      · exact segment_outcome_quiet _ st _ rfl (by simp) rfl rfl
      · rename_i _ _ hx
        exact gen_prov_cont_body_outcome env nbufs st rx.xact_id _ buf hn
          (not_not.mp hx).symm

theorem gen_prov_start_body_outcome (env : Env) (nbufs : Nat) (st : PbLink) (rx : ProvRx)
    (buf : List Nat) (hn : 0 < nbufs) :
    segment_outcome rx.xact_id st (gen_prov_start_body env nbufs st rx buf) := by
  unfold gen_prov_start_body
  simp only
  split
  · exact failed_outcome _ st _ [] rfl rfl rfl (by simp)
  · split
    · exact failed_outcome _ st _ [] rfl rfl rfl (by simp)
    · split
      · exact failed_outcome _ st _ [] rfl rfl rfl (by simp)
      · split
        · exact failed_outcome _ st _ [] rfl rfl rfl (by simp)
        · exact reassembly_step_outcome env nbufs st _ _ _ hn
            (by simp [XACT_SEG_RECV]) rfl rfl
            (by simp [acks, is_ack]) (by simp [is_accept])

theorem gen_prov_start_outcome (env : Env) (nbufs : Nat) (st : PbLink) (rx : ProvRx)
    (buf : List Nat) (hn : 0 < nbufs) :
    segment_outcome rx.xact_id st (gen_prov_start env nbufs st rx buf) := by
  unfold gen_prov_start
  split
  · rename_i hx
    split
    · rename_i hz
      exact duplicate_outcome nbufs st rx.xact_id hn hz hx.symm
    · split
      · exact segment_outcome_quiet _ st _ rfl (by simp) rfl rfl
      · exact gen_prov_start_body_outcome env nbufs st rx buf hn
  · split
    · exact segment_outcome_quiet _ st _ rfl (by simp) rfl rfl
    · exact gen_prov_start_body_outcome env nbufs st rx buf hn

theorem pull_xact_id (f : List Nat) :
    (net_buf_simple_pull_u8 (net_buf_simple_pull_be32 f).2).1 = frame_xact_id f := by
  simp [net_buf_simple_pull_u8, net_buf_simple_pull_be32, frame_xact_id, List.getD_eq_getElem?_getD]

theorem pull_gpc (f : List Nat) :
    (net_buf_simple_pull_u8 (net_buf_simple_pull_u8 (net_buf_simple_pull_be32 f).2).2).1
      = frame_gpc f := by
  simp [net_buf_simple_pull_u8, net_buf_simple_pull_be32, frame_gpc, List.getD_eq_getElem?_getD]

theorem recv_segment_outcome (env : Env) (nbufs : Nat) (st : PbLink) (f : List Nat) (t : Nat)
    (hn : 0 < nbufs) (hf : is_segment_of t f) :
    segment_outcome t st (bt_mesh_pb_adv_recv env nbufs st f) := by
  obtain ⟨hx, hg⟩ := hf
  unfold bt_mesh_pb_adv_recv
  simp only [pull_xact_id, pull_gpc]
  split
  · exact segment_outcome_quiet _ st _ rfl (by simp) rfl rfl
  · split
    · exact segment_outcome_quiet _ st _ rfl (by simp) rfl rfl
    · split
      · exact segment_outcome_quiet _ st _ rfl (by simp) rfl rfl
      · unfold gen_prov_recv
        simp only
        split
        · exact segment_outcome_quiet _ st _ rfl (by simp) rfl rfl
        · split
          · exact segment_outcome_quiet _ st _ rfl (by simp) rfl rfl
          · unfold gen_prov_func
            simp only
            rcases hg with hg | hg
            · rw [hg]
              simp only
              have h := gen_prov_start_outcome env nbufs st
                ⟨(net_buf_simple_pull_be32 f).1, frame_xact_id f, frame_gpc f⟩
                (net_buf_simple_pull_u8 (net_buf_simple_pull_u8 (net_buf_simple_pull_be32 f).2).2).2 hn
              rw [hx] at h ⊢
              exact h
            · rw [hg]
              simp only
              have h := gen_prov_cont_outcome env nbufs st
                ⟨(net_buf_simple_pull_be32 f).1, frame_xact_id f, frame_gpc f⟩
                (net_buf_simple_pull_u8 (net_buf_simple_pull_u8 (net_buf_simple_pull_be32 f).2).2).2 hn
              rw [hx] at h ⊢
              exact h

theorem recv_after_ack (env : Env) (nbufs : Nat) (st : PbLink) (f : List Nat) (t : Nat)
    (hd : acked t st) (hf : is_segment_of t f) :
    bt_mesh_pb_adv_recv env nbufs st f = (st, []) := by
  obtain ⟨hx, hg⟩ := hf
  obtain ⟨hz, hi, hp⟩ := hd
  unfold bt_mesh_pb_adv_recv
  simp only [pull_xact_id, pull_gpc]
  split
  · rfl
  · split
    · rfl
    · split
      · rfl
      · unfold gen_prov_recv
        simp only
        split
        · rfl
        · split
          · rfl
          · unfold gen_prov_func
            simp only
            rcases hg with hg | hg
            · rw [hg]
              simp [gen_prov_start, hx, hi, hz, ack_pending, hp]
            · rw [hg]
              simp [gen_prov_cont, hx, hi, hz, ack_pending, hp]

theorem run_after_ack (env : Env) (t : Nat) (evs : List Event) :
    ∀ st : PbLink, acked t st → (∀ ev ∈ evs, is_segment_event t ev) →
      run env st evs = (st, []) := by
  induction evs with
  | nil => intro st _ _; rfl
  | cons ev evs ih =>
    intro st hd hall
    have hev := hall ev (List.mem_cons_self _ _)
    cases ev with
    | recv nbufs f =>
      have h1 : bt_mesh_pb_adv_recv env nbufs st f = (st, []) :=
        recv_after_ack env nbufs st f t hd hev.2
      have h2 := ih st hd (fun e he => hall e (List.mem_cons_of_mem _ he))
      simp [run, step, h1, h2]
    | _ => exact absurd hev (by simp [is_segment_event])

/-- C7, as amended: from any link state, for every inbound sequence of Start
and Continuation frames of one transaction id (in particular one in which each
segment is received twice), each received with a buffer available and with no
`ack_complete` notification in between, at most one Transaction Ack frame is
handed to the transport; and exactly one if that sequence gets the transaction
accepted (its reassembly passes the FCS check) and no ack for this id was
already pending at the start. -/
theorem ack_once_while_pending (env : Env) (t : Nat) (evs : List Event) :
    ∀ st : PbLink, (∀ ev ∈ evs, is_segment_event t ev) →
      acks (run env st evs).2 ≤ 1 ∧
      (¬ ack_pending_for t st → (∃ e ∈ (run env st evs).2, is_accept e = true) →
        acks (run env st evs).2 = 1) := by
  induction evs with
  | nil =>
    intro st _
    exact ⟨by simp [run, acks], fun _ h => by simp [run] at h⟩
  | cons ev evs ih =>
    intro st hall
    have hev := hall ev (List.mem_cons_self _ _)
    have hrest : ∀ e ∈ evs, is_segment_event t e := fun e he => hall e (List.mem_cons_of_mem _ he)
    cases ev with
    | recv nbufs f =>
      have h1 := recv_segment_outcome env nbufs st f t hev.1 hev.2
      generalize hr : bt_mesh_pb_adv_recv env nbufs st f = r at h1
      obtain ⟨s1, e1⟩ := r
      have hrun : run env st (Event.recv nbufs f :: evs)
          = ((run env s1 evs).1, e1 ++ (run env s1 evs).2) := by
        simp [run, step, hr]
      rw [hrun]
      rcases h1 with ⟨ha, hd⟩ | ⟨ha, hk⟩
      · have h2 := run_after_ack env t evs s1 hd hrest
        simp only at ha
        simp only [h2, List.append_nil, ha]
        exact ⟨Nat.le_refl _, fun _ _ => trivial⟩
      · obtain ⟨ih1, ih2⟩ := ih s1 hrest
        simp only at ha hk
        simp only [acks_append, ha, Nat.zero_add]
        refine ⟨ih1, fun hnk hacc => ?_⟩
        obtain ⟨hk1, hk2⟩ := hk hnk
        obtain ⟨e, he, hacc⟩ := hacc
        rcases List.mem_append.mp he with he | he
        · rw [hk1 e he] at hacc
          exact absurd hacc (by simp)
        · exact ih2 hk2 ⟨e, he, hacc⟩
    | _ => exact absurd hev (by simp [is_segment_event])

theorem ack_once_while_pending_witness :
    (∀ ev ∈ [Event.recv 1 sample_start_frame, Event.recv 1 sample_start_frame],
      is_segment_event 0 ev) ∧
    ¬ ack_pending_for 0 sample_link ∧
    (∃ e ∈ (run sample_env sample_link
        [Event.recv 1 sample_start_frame, Event.recv 1 sample_start_frame]).2,
      is_accept e = true) ∧
    acks (run sample_env sample_link
      [Event.recv 1 sample_start_frame, Event.recv 1 sample_start_frame]).2 = 1 :=
  have hall : ∀ ev ∈ [Event.recv 1 sample_start_frame, Event.recv 1 sample_start_frame],
      is_segment_event 0 ev := by
    intro ev hev
    simp only [List.mem_cons, List.mem_singleton, List.not_mem_nil, or_false, or_self] at hev
    subst hev
    exact ⟨by decide, by decide⟩
  have hk : ¬ ack_pending_for 0 sample_link := by
    unfold ack_pending_for; decide
  have hacc : ∃ e ∈ (run sample_env sample_link
      [Event.recv 1 sample_start_frame, Event.recv 1 sample_start_frame]).2,
      is_accept e = true := ⟨Effect.recv [5], by decide, rfl⟩
  ⟨hall, hk, hacc,
    (ack_once_while_pending sample_env 0
      [Event.recv 1 sample_start_frame, Event.recv 1 sample_start_frame] sample_link hall).2
      hk hacc⟩

/-- C7, counterexample: the single-segment transaction `0x00` is received
twice and the transport's `ack_complete` notification falls between the two
receptions: the duplicate Start finds no ack pending and `gen_prov_ack_send`
hands a second Ack frame for the same id to the transport (lines 432 to 438). -/
theorem ack_resent_after_ack_complete :
    (run sample_env sample_link
      [Event.recv 1 sample_start_frame, Event.ack_complete, Event.recv 1 sample_start_frame]).2
    = [Effect.memcpy 0 1,
       Effect.adv_send ⟨2, [0x01, 0x02, 0x03, 0x04, 0x00, 0x01], false⟩ SendCb.ack_complete,
       Effect.recv [5],
       Effect.adv_send ⟨2, [0x01, 0x02, 0x03, 0x04, 0x00, 0x01], false⟩ SendCb.ack_complete] ∧
    acks (run sample_env sample_link
      [Event.recv 1 sample_start_frame, Event.ack_complete, Event.recv 1 sample_start_frame]).2
    = 2 := by
  decide

/-! ## The occupied slots of `tx.buf` form an initial segment -/

theorem contiguous_empty : TxBuf.empty.contiguous := by
  simp [TxBuf.contiguous, TxBuf.empty]

theorem prov_clear_tx_contiguous (st : PbLink) (h : st.tx.buf.contiguous) :
    (prov_clear_tx st).tx.buf.contiguous := by
  rw [prov_clear_tx_buf, free_segments_loop_contiguous _ h]
  exact contiguous_empty

theorem reset_adv_link_contiguous (st : PbLink) (h : st.tx.buf.contiguous) :
    (reset_adv_link st).tx.buf.contiguous := by
  have h1 := prov_clear_tx_contiguous st h
  unfold reset_adv_link
  simp only
  split
  · exact contiguous_empty
  · exact h1

theorem gen_prov_ack_send_buf (nbufs : Nat) (st : PbLink) (x : Nat) :
    (gen_prov_ack_send nbufs st x).1.tx.buf = st.tx.buf := by
  unfold gen_prov_ack_send
  simp only
  split
  · rfl
  · split
    · rfl
    · split <;> rfl

theorem prov_msg_recv_buf (env : Env) (nbufs : Nat) (st : PbLink) :
    (prov_msg_recv env nbufs st).1.tx.buf = st.tx.buf := by
  have h := gen_prov_ack_send_buf nbufs { st with prot_timer := true } st.rx.id
  unfold prov_msg_recv
  simp only
  split
  · rfl
  · split
    · exact h
    · exact h

theorem reassembly_step_buf (env : Env) (nbufs : Nat) (s : PbLink) (e0 : List Effect) :
    (if s.rx.seg = 0 then
        ((prov_msg_recv env nbufs s).1, e0 ++ (prov_msg_recv env nbufs s).2)
      else (s, e0)).1.tx.buf = s.tx.buf := by
  split
  · exact prov_msg_recv_buf env nbufs s
  · rfl

theorem gen_prov_cont_body_buf (env : Env) (nbufs : Nat) (st : PbLink) (seg : Nat)
    (buf : List Nat) :
    (gen_prov_cont_body env nbufs st seg buf).1.tx.buf = st.tx.buf := by
  unfold gen_prov_cont_body
  simp only
  split
  · rfl
  · split
    · rfl
    · split
      · rfl
      · split
        · exact prov_msg_recv_buf env nbufs _
        · rfl

theorem gen_prov_cont_contiguous (env : Env) (nbufs : Nat) (st : PbLink) (rx : ProvRx)
    (buf : List Nat) (h : st.tx.buf.contiguous) :
    (gen_prov_cont env nbufs st rx buf).1.tx.buf.contiguous := by
  unfold gen_prov_cont
  simp only
  split
  · split
    · rw [gen_prov_ack_send_buf]; exact h
    · exact h
  · split
    · rw [gen_prov_cont_body_buf]
      exact prov_clear_tx_contiguous _ h
    · split
      · exact h
      · rw [gen_prov_cont_body_buf]; exact h

theorem gen_prov_start_body_contiguous (env : Env) (nbufs : Nat) (st : PbLink) (rx : ProvRx)
    (buf : List Nat) (h : st.tx.buf.contiguous) :
    (gen_prov_start_body env nbufs st rx buf).1.tx.buf.contiguous := by
  have hc : ∀ s : PbLink, s.tx.buf = st.tx.buf → (prov_clear_tx s).tx.buf.contiguous :=
    fun s hs => prov_clear_tx_contiguous s (by rw [hs]; exact h)
  unfold gen_prov_start_body
  simp only
  split
  · exact h
  · split
    · exact h
    · split
      · exact h
      · split
        · exact hc _ rfl
        · have e := reassembly_step_buf env nbufs
          refine Eq.mpr (congrArg TxBuf.contiguous (e _ _)) ?_
          exact hc _ rfl

theorem gen_prov_start_contiguous (env : Env) (nbufs : Nat) (st : PbLink) (rx : ProvRx)
    (buf : List Nat) (h : st.tx.buf.contiguous) :
    (gen_prov_start env nbufs st rx buf).1.tx.buf.contiguous := by
  unfold gen_prov_start
  split
  · split
    · split
      · rw [gen_prov_ack_send_buf]; exact h
      · exact h
    · split
      · exact h
      · exact gen_prov_start_body_contiguous env nbufs st rx buf h
  · split
    · exact h
    · exact gen_prov_start_body_contiguous env nbufs st rx buf h

theorem gen_prov_ack_contiguous (st : PbLink) (rx : ProvRx) (h : st.tx.buf.contiguous) :
    (gen_prov_ack st rx).1.tx.buf.contiguous := by
  unfold gen_prov_ack
  split
  · exact h
  · split
    · have h2 : (if ¬ st.flags.ADV_LINK_CLOSING = true then prov_clear_tx st else st).tx.buf.contiguous := by
        split
        · exact prov_clear_tx_contiguous st h
        · exact h
      simp only
      split <;> exact h2
    · exact h

theorem bearer_ctl_send_unacked_contiguous (st : PbLink) (b : Option AdvBuf)
    (h : st.tx.buf.contiguous) :
    (bearer_ctl_send_unacked st b).2.1.tx.buf.contiguous := by
  unfold bearer_ctl_send_unacked
  cases b with
  | none => exact h
  | some _ => exact prov_clear_tx_contiguous st h

theorem prov_link_close_contiguous (nbufs : Nat) (st : PbLink) (status : Nat)
    (h : st.tx.buf.contiguous) :
    (prov_link_close nbufs st status).1.tx.buf.contiguous := by
  unfold prov_link_close
  split
  · exact h
  · exact bearer_ctl_send_unacked_contiguous _ _ h

theorem link_open_contiguous (env : Env) (nbufs : Nat) (st : PbLink) (rx : ProvRx)
    (buf : List Nat) (h : st.tx.buf.contiguous) :
    (link_open env nbufs st rx buf).1.tx.buf.contiguous := by
  unfold link_open
  split
  · exact h
  · split
    · split
      · exact h
      · exact bearer_ctl_send_unacked_contiguous _ _ h
    · split
      · exact h
      · simp only
        split
        · exact reset_adv_link_contiguous _ (bearer_ctl_send_unacked_contiguous _ _ h)
        · exact bearer_ctl_send_unacked_contiguous _ _ h

theorem gen_prov_ctl_contiguous (env : Env) (nbufs : Nat) (st : PbLink) (rx : ProvRx)
    (buf : List Nat) (h : st.tx.buf.contiguous) :
    (gen_prov_ctl env nbufs st rx buf).1.tx.buf.contiguous := by
  unfold gen_prov_ctl
  split
  · exact link_open_contiguous env nbufs st rx buf h
  · split
    · split
      · exact h
      · unfold link_ack
        split
        · split
          · exact h
          · exact prov_clear_tx_contiguous _ h
        · exact h
    · split
      · split
        · exact h
        · unfold link_close
          split
          · exact h
          · exact reset_adv_link_contiguous st h
      · split <;> exact h

theorem recv_contiguous (env : Env) (nbufs : Nat) (st : PbLink) (buf : List Nat)
    (h : st.tx.buf.contiguous) :
    (bt_mesh_pb_adv_recv env nbufs st buf).1.tx.buf.contiguous := by
  unfold bt_mesh_pb_adv_recv
  split
  · exact h
  · split
    · exact h
    · simp only
      split
      · exact h
      · unfold gen_prov_recv
        split
        · exact h
        · split
          · exact h
          · unfold gen_prov_func
            split
            · exact gen_prov_start_contiguous env nbufs st _ _ h
            · exact gen_prov_ack_contiguous st _ h
            · exact gen_prov_cont_contiguous env nbufs st _ _ h
            · exact gen_prov_ctl_contiguous env nbufs st _ _ h

theorem free_segments_contiguous (st : PbLink) (h : st.tx.buf.contiguous) :
    (free_segments st).tx.buf.contiguous := by
  rw [free_segments_buf, free_segments_loop_contiguous _ h]
  exact contiguous_empty

theorem send_loop_contiguous_0 (nbufs : Nat) (st : PbLink) (msg : List Nat)
    (h : st.tx.buf.contiguous) :
    (prov_send_adv_loop nbufs 0 st msg).2.1.tx.buf.contiguous := by
  unfold prov_send_adv_loop
  split
  · exact free_segments_contiguous st h
  · exact h

theorem send_loop_contiguous_1 (nbufs : Nat) (st : PbLink) (msg : List Nat)
    (h0 : st.tx.buf.b0 ≠ none) (h1 : st.tx.buf.b1 ≠ none) :
    (prov_send_adv_loop nbufs 1 st msg).2.1.tx.buf.contiguous := by
  have hc : st.tx.buf.contiguous := ⟨fun h => absurd h h0, fun h => absurd h h1⟩
  unfold prov_send_adv_loop
  simp only
  split
  · split
    · exact free_segments_contiguous st hc
    · split
      · exact free_segments_contiguous st hc
      · apply send_loop_contiguous_0
        exact ⟨fun h => absurd h h0, fun h => absurd h h1⟩
  · exact hc

theorem send_loop_contiguous_2 (nbufs : Nat) (st : PbLink) (msg : List Nat)
    (h0 : st.tx.buf.b0 ≠ none) (h2 : st.tx.buf.b2 = none) :
    (prov_send_adv_loop nbufs 2 st msg).2.1.tx.buf.contiguous := by
  have hc : st.tx.buf.contiguous := ⟨fun h => absurd h h0, fun _ => h2⟩
  unfold prov_send_adv_loop
  simp only
  split
  · split
    · exact free_segments_contiguous st hc
    · split
      · exact free_segments_contiguous st hc
      · apply send_loop_contiguous_1
        · exact h0
        · simp [TxBuf.set]
  · exact hc

theorem prov_send_adv_contiguous (env : Env) (nbufs : Nat) (now : Int) (st : PbLink)
    (msg : List Nat) (cb : Option Nat) (cb_data : Nat) (h : st.tx.buf.contiguous) :
    (prov_send_adv env nbufs now st msg cb cb_data).2.1.tx.buf.contiguous := by
  rcases Nat.eq_zero_or_pos nbufs with h0 | h0
  · subst h0
    rw [prov_send_adv_no_buf]
    exact prov_clear_tx_contiguous st h
  · rw [prov_send_adv_start env nbufs now st msg cb cb_data h0]
    apply send_loop_contiguous_2 <;>
      rw [send_start_state_buf, free_segments_loop_contiguous _ h] <;>
      simp [TxBuf.set, TxBuf.empty]

theorem bearer_ctl_send_contiguous (now : Int) (st : PbLink) (b : Option AdvBuf)
    (h : st.tx.buf.contiguous) :
    (bearer_ctl_send now st b).2.1.tx.buf.contiguous := by
  unfold bearer_ctl_send
  cases b with
  | none => exact h
  | some x =>
    have e : (prov_clear_tx st).tx.buf = TxBuf.empty := by
      rw [prov_clear_tx_buf, free_segments_loop_contiguous _ h]
    simp [send_reliable, e, TxBuf.set, TxBuf.empty, TxBuf.contiguous]

theorem step_contiguous (env : Env) (st : PbLink) (ev : Event) (h : st.tx.buf.contiguous) :
    (step env st ev).1.tx.buf.contiguous := by
  cases ev with
  | recv nbufs buf => exact recv_contiguous env nbufs st buf h
  | ack_complete => exact h
  | buf_sent =>
    simp only [step, buf_sent]
    split
    · exact reset_adv_link_contiguous _ h
    · exact h
  | buf_start err =>
    simp only [step, buf_start, buf_sent]
    split
    · split
      · exact reset_adv_link_contiguous _ h
      · exact h
    · exact h
  | protocol_timeout nbufs =>
    simp only [step, protocol_timeout]
    split
    · exact h
    · exact prov_link_close_contiguous nbufs _ _ h
  | prov_retransmit nbufs now =>
    simp only [step, prov_retransmit]
    split
    · exact h
    · split
      · exact prov_link_close_contiguous nbufs _ _ h
      · exact h
  | send nbufs now msg cb cb_data => exact prov_send_adv_contiguous env nbufs now st msg cb cb_data h
  | link_open nbufs now adv_err rand uuid cb cb_data =>
    simp only [step, prov_link_open]
    split
    · exact h
    · split
      · exact h
      · exact bearer_ctl_send_contiguous now _ _ h
  | link_accept adv_err cb cb_data =>
    simp only [step, prov_link_accept]
    split
    · exact h
    · split <;> exact h
  | link_close nbufs status => exact prov_link_close_contiguous nbufs st status h
  | clear_tx => exact prov_clear_tx_contiguous st h
  | reset => exact reset_adv_link_contiguous st h

/-- In every reachable link state the occupied slots of `tx.buf` form an
initial segment of the array. -/
theorem reachable_contiguous (env : Env) (st : PbLink) (h : Reachable env st) :
    st.tx.buf.contiguous := by
  induction h with
  | init => exact contiguous_empty
  | step st ev _ ih => exact step_contiguous env st ev ih

/-! ## Frames on the wire -/

theorem pull_be32_be32 (id : Nat) (rest : List Nat) (h : id < 2 ^ 32) :
    net_buf_simple_pull_be32 (be32 id ++ rest) = (id, rest) := by
  simp only [net_buf_simple_pull_be32, be32, List.cons_append, List.nil_append, List.getD_cons_zero,
    List.getD_cons_succ, List.drop_succ_cons, List.drop_zero, Prod.mk.injEq, and_true]
  omega

theorem pull_be16_be16 (v : Nat) (rest : List Nat) (h : v < 2 ^ 16) :
    net_buf_simple_pull_be16 (be16 v ++ rest) = (v, rest) := by
  simp only [net_buf_simple_pull_be16, be16, List.cons_append, List.nil_append, List.getD_cons_zero,
    List.getD_cons_succ, List.drop_succ_cons, List.drop_zero, Prod.mk.injEq, and_true]
  omega

theorem pull_u8_cons (x : Nat) (rest : List Nat) :
    net_buf_simple_pull_u8 (x :: rest) = (x % 256, rest) := by
  simp [net_buf_simple_pull_u8]

/-- What `bt_mesh_pb_adv_recv` does with a frame that carries the id of the
active link: it hands the header fields and the rest to `gen_prov_recv`. -/
theorem recv_own_frame (env : Env) (nbufs : Nat) (st : PbLink) (x y : Nat) (rest : List Nat)
    (hcb : st.cb ≠ none) (h32 : st.id < 2 ^ 32) :
    bt_mesh_pb_adv_recv env nbufs st (be32 st.id ++ x :: y :: rest)
      = gen_prov_recv env nbufs st ⟨st.id, x % 256, y % 256⟩ rest := by
  unfold bt_mesh_pb_adv_recv
  have hlen : ¬ (be32 st.id ++ x :: y :: rest).length < 6 := by
    simp [be32]
  rw [if_neg hcb, if_neg hlen]
  simp only [pull_be32_be32 _ _ h32, pull_u8_cons]
  simp

/-! ## Copies into the reassembly buffer -/

theorem memcpy_length (d : List Nat) (off : Int) (src : List Nat) :
    (memcpy d off src).length = d.length := by
  simp [memcpy]

theorem memcpy_getElem (d : List Nat) (off : Nat) (src : List Nat) (i : Nat)
    (h : i < (memcpy d off src).length) :
    (memcpy d off src)[i] =
      if off ≤ i ∧ i < off + src.length then src.getD (i - off) 0 else d.getD i 0 := by
  unfold memcpy
  simp only [List.getElem_map, List.getElem_range]
  by_cases hc : off ≤ i ∧ i < off + src.length
  · have hc2 : (off : Int) ≤ (i : Int) ∧ (i : Int) < (off : Int) + (src.length : Int) := by omega
    rw [if_pos hc, if_pos hc2]
    congr 1
    omega
  · have hc2 : ¬ ((off : Int) ≤ (i : Int) ∧ (i : Int) < (off : Int) + (src.length : Int)) := by
      omega
    rw [if_neg hc, if_neg hc2]

/-- A copy that continues a reassembled part: if the first `off` bytes of the
storage are `p` and `src` fits behind them, the first `off + |src|` bytes
after the copy are `p ++ src`. -/
theorem memcpy_take (d : List Nat) (off : Nat) (src p : List Nat)
    (hp : d.take off = p) (hfit : off + src.length ≤ d.length) :
    (memcpy d off src).take (off + src.length) = p ++ src := by
  have hpl : p.length = off := by rw [← hp, List.length_take]; omega
  apply List.ext_getElem
  · simp only [List.length_take, memcpy_length, List.length_append, hpl]
    omega
  · intro i h1 h2
    have hi : i < off + src.length := by
      simp only [List.length_take, memcpy_length] at h1; omega
    rw [List.getElem_take, memcpy_getElem]
    by_cases hc : off ≤ i
    · rw [if_pos ⟨hc, hi⟩, List.getElem_append_right (by omega)]
      simp only [hpl]
      rw [List.getD_eq_getElem _ _ (by omega)]
    · have hlt : i < off := by omega
      rw [if_neg (by omega), List.getElem_append_left (by omega)]
      rw [List.getD_eq_getElem _ _ (by omega)]
      subst hp
      rw [List.getElem_take]

/-! ## Round trip for the lengths `last_seg` gets right -/

/-- The frames `prov_send_adv` hands to the transport for a message of at most
66 bytes when three buffers are available. -/
theorem prov_send_adv_sent (env : Env) (now : Int) (st : PbLink) (msg : List Nat)
    (cb : Option Nat) (cb_data : Nat) (hL : msg.length ≤ 66) (hc : st.tx.buf.contiguous) :
    sent_frames (prov_send_adv env 3 now st msg cb cb_data).2.2 =
      (start_buf env st msg).data ::
        ((if 20 < msg.length then
            [be32 st.id ++ [next_transaction_id st.tx.id % 256, GPC_CONT 1 % 256]
              ++ (msg.drop 20).take 23] else []) ++
         (if 43 < msg.length then
            [be32 st.id ++ [next_transaction_id st.tx.id % 256, GPC_CONT 2 % 256]
              ++ (msg.drop 43).take 23] else [])) := by
  rw [prov_send_adv_start env 3 now st msg cb cb_data (by omega)]
  rcases Nat.lt_or_ge 20 msg.length with c1 | c1
  · have g1 : 0 < (msg.drop 20).length := by simp; omega
    rw [send_loop_step 3 1 _ _ g1 (by omega) (by omega)]
    rcases Nat.lt_or_ge 43 msg.length with c2 | c2
    · have g2 : 0 < ((msg.drop 20).drop 23).length := by simp; omega
      have g3 : ((msg.drop 20).drop 23).drop 23 = [] := by
        apply List.drop_eq_nil_of_le; simp; omega
      rw [send_loop_step 3 0 _ _ g2 (by omega) (by omega), g3, send_loop_done]
      simp only [send_reliable, send_start_state_buf, free_segments_loop_contiguous _ hc]
      simp only [TxBuf.set, TxBuf.empty]
      simp [send_reliable_loop, TxBuf.get, sent_frames, c1, c2, cont_buf, start_buf,
        send_start_state]
    · have g2 : (msg.drop 20).drop 23 = [] := by
        apply List.drop_eq_nil_of_le; simp; omega
      rw [g2, send_loop_done]
      simp only [send_reliable, send_start_state_buf, free_segments_loop_contiguous _ hc]
      simp only [TxBuf.set, TxBuf.empty]
      have c2' : ¬ 43 < msg.length := by omega
      simp [send_reliable_loop, TxBuf.get, sent_frames, c1, c2', cont_buf, start_buf,
        send_start_state]
  · have g1 : msg.drop 20 = [] := List.drop_eq_nil_of_le c1
    rw [g1, send_loop_done]
    simp only [send_reliable, send_start_state_buf, free_segments_loop_contiguous _ hc]
    simp only [TxBuf.set, TxBuf.empty]
    have c1' : ¬ 20 < msg.length := by omega
    have c2' : ¬ 43 < msg.length := by omega
    simp [send_reliable_loop, TxBuf.get, sent_frames, c1', c2', start_buf]

set_option maxRecDepth 100000 in
theorem last_seg_small : ∀ L, L ≤ 66 →
    last_seg L = if L ≤ 20 then 0 else 1 + (L - 20) / 23 := by
  decide

theorem gen_prov_recv_start (env : Env) (nbufs : Nat) (st : PbLink) (lid xid gpc : Nat)
    (buf : List Nat) (hg : GPCF gpc = 0) (hlen : 3 ≤ buf.length)
    (hact : st.flags.ADV_LINK_ACTIVE = true)
    (hx : xid = next_transaction_id st.rx.id) :
    gen_prov_recv env nbufs st ⟨lid, xid, gpc⟩ buf
      = gen_prov_start_body env nbufs st ⟨lid, xid, gpc⟩ buf := by
  have hne : ¬ xid = st.rx.id := by rw [hx]; exact next_transaction_id_ne _
  have hl : ¬ buf.length < 3 := by omega
  have h1 : gen_prov_recv env nbufs st ⟨lid, xid, gpc⟩ buf
      = gen_prov_start env nbufs st ⟨lid, xid, gpc⟩ buf := by
    simp [gen_prov_recv, gen_prov_func, hg, gen_prov_min_len, gen_prov_require_link, hact, hl]
  rw [h1]
  unfold gen_prov_start
  rw [if_neg hne, if_neg (by simp only [hx]; simp)]

/-- A well-formed Start frame arriving with `rx.seg = 0`: the header is
recorded, the data copied to offset 0, and the message is processed at once if
no other segment is missing. -/
theorem gen_prov_start_body_fresh (env : Env) (nbufs : Nat) (st : PbLink) (lid xid gpc : Nat)
    (len f : Nat) (d0 : List Nat) (hseg : st.rx.seg = 0)
    (h1 : 1 ≤ len) (h2 : len ≤ 65) (h3 : ¬ (START_LAST_SEG gpc > 0 ∧ len ≤ 20)) :
    gen_prov_start_body env nbufs st ⟨lid, xid, gpc⟩ (be16 len ++ f :: d0) =
      if (rx_started st xid (START_LAST_SEG gpc) len (f % 256) d0).rx.seg = 0 then
        ((prov_msg_recv env nbufs (rx_started st xid (START_LAST_SEG gpc) len (f % 256) d0)).1,
          Effect.memcpy 0 d0.length ::
            (prov_msg_recv env nbufs (rx_started st xid (START_LAST_SEG gpc) len (f % 256) d0)).2)
      else (rx_started st xid (START_LAST_SEG gpc) len (f % 256) d0,
          [Effect.memcpy 0 d0.length]) := by
  unfold gen_prov_start_body
  simp only [pull_be16_be16 len _ (by omega : len < 2 ^ 16), pull_u8_cons]
  have c1 : ¬ len < 1 := by omega
  have c2 : ¬ len > RX_BUF_SIZE := by simp; omega
  simp only [c1, c2, h3, if_false, prov_clear_tx_rx, hseg, Nat.zero_and, ne_eq,
    not_true_eq_false, false_and, and_false]
  rfl

/-! ## Round trip -/

set_option maxRecDepth 100000 in
/-- C1, evaluated at the failing input: a 43-byte message is sent as two
frames (Start with 20 bytes, Continuation 1 with 23 bytes) whose Start header
announces last segment 2; the receiver copies both segments and then keeps
waiting for segment 2 (`rx.seg = 4`): no Ack is sent and `recv` is not
invoked.  The same exchange with 42 bytes delivers the message and sends one
Ack. -/
theorem round_trip_stalls_at_43 :
    (sent_frames (prov_send_adv sample_env 3 0 sample_peer (List.range 43) none 0).2.2).length = 2 ∧
    (send_then_receive sample_env sample_peer sample_link (List.range 43)).2
      = [Effect.memcpy 0 20, Effect.memcpy 20 23] ∧
    (send_then_receive sample_env sample_peer sample_link (List.range 43)).1.rx.last_seg = 2 ∧
    (send_then_receive sample_env sample_peer sample_link (List.range 43)).1.rx.seg = 4 ∧
    (send_then_receive sample_env sample_peer sample_link (List.range 42)).2
      = [Effect.memcpy 0 20, Effect.memcpy 20 22,
         Effect.adv_send ⟨2, [0x01, 0x02, 0x03, 0x04, 0x00, 0x01], false⟩ SendCb.ack_complete,
         Effect.recv (List.range 42)] := by
  decide

/-- A completed, FCS-valid reassembly on a link that is not invalid, with a
buffer available and no ack for the transaction pending: one Transaction Ack,
then delivery. -/
theorem prov_msg_recv_delivers (env : Env) (nbufs : Nat) (st : PbLink) (hn : 0 < nbufs)
    (hf : env.bt_mesh_fcs_check st.rx.buf.bytes st.rx.fcs = true)
    (hinv : st.flags.ADV_LINK_INVALID = false)
    (hp : ¬ ack_pending_for st.rx.id st) :
    ∃ cb, (prov_msg_recv env nbufs st).2 =
      [Effect.adv_send ⟨RETRANSMITS_ACK, be32 st.id ++ [st.rx.id % 256, GPC_ACK], false⟩ cb,
       Effect.recv st.rx.buf.bytes] := by
  have hn0 : ¬ nbufs = 0 := by omega
  unfold ack_pending_for at hp
  by_cases hpend : st.flags.ADV_ACK_PENDING = true
  · have hpa : ¬ st.tx.pending_ack = st.rx.id := fun h => hp ⟨hpend, h⟩
    exact ⟨SendCb.null, by
      simp [prov_msg_recv, hf, gen_prov_ack_send, hpend, hpa, hn0, hinv, net_buf_add_u8,
        net_buf_add_be32, adv_buf_create]⟩
  · exact ⟨SendCb.ack_complete, by
      simp [prov_msg_recv, hf, gen_prov_ack_send, hpend, hn0, hinv, net_buf_add_u8,
        net_buf_add_be32, adv_buf_create]⟩

theorem gen_prov_recv_cont (env : Env) (nbufs : Nat) (st : PbLink) (lid xid gpc : Nat)
    (buf : List Nat) (hg : GPCF gpc = 2)
    (hact : st.flags.ADV_LINK_ACTIVE = true)
    (hx : xid = st.rx.id) (hseg : st.rx.seg ≠ 0) :
    gen_prov_recv env nbufs st ⟨lid, xid, gpc⟩ buf
      = gen_prov_cont_body env nbufs st (CONT_SEG_INDEX gpc) buf := by
  simp [gen_prov_recv, gen_prov_func, hg, gen_prov_min_len, gen_prov_require_link, hact,
    gen_prov_cont, hseg, hx]

/-- A Continuation frame for a segment that is still missing, with no length
mismatch: the data is copied to its offset and the message is processed if no
other segment is missing. -/
theorem gen_prov_cont_body_copy (env : Env) (nbufs : Nat) (st : PbLink) (seg : Nat)
    (buf : List Nat) (h1 : seg ≤ st.rx.last_seg) (h2 : st.rx.seg &&& BIT seg ≠ 0)
    (h3 : ¬ (seg = st.rx.last_seg ∧ (rx_continued st seg buf).rx.seg &&& BIT 0 = 0 ∧
      expect_len (rx_continued st seg buf) ≠ buf.length)) :
    gen_prov_cont_body env nbufs st seg buf =
      if (rx_continued st seg buf).rx.seg = 0 then
        ((prov_msg_recv env nbufs (rx_continued st seg buf)).1,
          Effect.memcpy (XACT_SEG_DATA seg) buf.length ::
            (prov_msg_recv env nbufs (rx_continued st seg buf)).2)
      else (rx_continued st seg buf, [Effect.memcpy (XACT_SEG_DATA seg) buf.length]) := by
  unfold gen_prov_cont_body
  have c1 : ¬ seg > st.rx.last_seg := by omega
  rw [if_neg c1, if_neg h2]
  have e : XACT_SEG_RECV { st with rx.buf.data := memcpy st.rx.buf.data (XACT_SEG_DATA seg) buf } seg
      = rx_continued st seg buf := rfl
  simp only [e]
  have c3 : ¬ (seg = (rx_continued st seg buf).rx.last_seg ∧
      (rx_continued st seg buf).rx.seg &&& BIT 0 = 0 ∧
      expect_len (rx_continued st seg buf) ≠ buf.length) := h3
  rw [if_neg c3]
  rfl

theorem rx_started_seg_0 (st : PbLink) (xid len fcs : Nat) (d0 : List Nat) :
    (rx_started st xid 0 len fcs d0).rx.seg = 0 := by
  simp only [rx_started]; decide

theorem rx_started_seg_1 (st : PbLink) (xid len fcs : Nat) (d0 : List Nat) :
    (rx_started st xid 1 len fcs d0).rx.seg = 2 := by
  simp only [rx_started]; decide

theorem rx_started_seg_2 (st : PbLink) (xid len fcs : Nat) (d0 : List Nat) :
    (rx_started st xid 2 len fcs d0).rx.seg = 6 := by
  simp only [rx_started]; decide

theorem round_trip_one_frame (env : Env) (R : PbLink) (tid fcs : Nat) (msg : List Nat)
    (hL1 : 1 ≤ msg.length) (hL2 : msg.length ≤ 20)
    (hfcs : env.bt_mesh_fcs_check msg (fcs % 256) = true)
    (h32 : R.id < 2 ^ 32) (hact : R.flags.ADV_LINK_ACTIVE = true) (hcb : R.cb ≠ none)
    (hseg : R.rx.seg = 0) (hx : tid = next_transaction_id R.rx.id)
    (hinv : R.flags.ADV_LINK_INVALID = false)
    (hpend : ¬ ack_pending_for tid R)
    (hdata : R.rx.buf.data.length = 65) :
    delivers (bt_mesh_pb_adv_recv env 1 R
        (be32 R.id ++ [tid % 256, GPC_START 0 % 256] ++ be16 msg.length ++ [fcs % 256] ++ msg)).2
      R.id tid msg := by
  have htid : tid < 256 := by rw [hx]; exact next_transaction_id_lt _
  have e1 : be32 R.id ++ [tid % 256, GPC_START 0 % 256] ++ be16 msg.length ++ [fcs % 256] ++ msg
      = be32 R.id ++ (tid % 256) :: (GPC_START 0 % 256) :: (be16 msg.length ++ (fcs % 256) :: msg) := by
    simp
  rw [e1, recv_own_frame env 1 R _ _ _ hcb h32]
  rw [gen_prov_recv_start env 1 R _ _ _ _ (show GPCF (GPC_START 0 % 256 % 256) = 0 by decide)
    (by simp [be16]) hact
    (show tid % 256 % 256 = next_transaction_id R.rx.id by
      rw [Nat.mod_mod, Nat.mod_eq_of_lt htid, hx])]
  rw [gen_prov_start_body_fresh env 1 R _ _ _ _ _ _ hseg hL1 (by omega)
    (by rw [show START_LAST_SEG (GPC_START 0 % 256 % 256) = 0 by decide]; omega)]
  rw [show START_LAST_SEG (GPC_START 0 % 256 % 256) = 0 by decide]
  rw [if_pos (rx_started_seg_0 _ _ _ _ _)]
  have hmem : (memcpy R.rx.buf.data 0 msg).take msg.length = msg := by
    have := memcpy_take R.rx.buf.data 0 msg [] (by simp) (by omega)
    simpa using this
  have hxid : tid % 256 % 256 = tid := by rw [Nat.mod_mod, Nat.mod_eq_of_lt htid]
  obtain ⟨cb, hcbk⟩ := prov_msg_recv_delivers env 1
    (rx_started R (tid % 256 % 256) 0 msg.length (fcs % 256 % 256) msg) (by omega)
    (by simpa [rx_started, NetBufSimple.bytes, hmem] using hfcs)
    (by simpa [rx_started] using hinv)
    (by simpa [rx_started, ack_pending_for, hxid] using hpend)
  refine ⟨cb, [Effect.memcpy 0 msg.length], ?_, ?_⟩
  · simp only [hcbk]
    simp [rx_started, NetBufSimple.bytes, hmem, hxid, Nat.mod_eq_of_lt htid]
  · intro e he
    simp only [List.mem_singleton] at he
    exact ⟨0, msg.length, he⟩

theorem recv_start_partial (env : Env) (R : PbLink) (tid fcs n len : Nat) (d0 : List Nat)
    (hn : n = 1 ∨ n = 2) (hL1 : 20 < len) (hL2 : len ≤ 65)
    (h32 : R.id < 2 ^ 32) (hact : R.flags.ADV_LINK_ACTIVE = true) (hcb : R.cb ≠ none)
    (hseg : R.rx.seg = 0) (hx : tid = next_transaction_id R.rx.id) :
    bt_mesh_pb_adv_recv env 1 R
        (be32 R.id ++ [tid % 256, GPC_START n % 256] ++ be16 len ++ [fcs % 256] ++ d0)
      = (rx_started R tid n len (fcs % 256) d0, [Effect.memcpy 0 d0.length]) := by
  have htid : tid < 256 := by rw [hx]; exact next_transaction_id_lt _
  have hxid : tid % 256 % 256 = tid := by rw [Nat.mod_mod, Nat.mod_eq_of_lt htid]
  have e1 : be32 R.id ++ [tid % 256, GPC_START n % 256] ++ be16 len ++ [fcs % 256] ++ d0
      = be32 R.id ++ (tid % 256) :: (GPC_START n % 256) :: (be16 len ++ (fcs % 256) :: d0) := by
    simp
  have hg : GPCF (GPC_START n % 256 % 256) = 0 := by
    rcases hn with rfl | rfl <;> decide
  have hs : START_LAST_SEG (GPC_START n % 256 % 256) = n := by
    rcases hn with rfl | rfl <;> decide
  rw [e1, recv_own_frame env 1 R _ _ _ hcb h32]
  rw [gen_prov_recv_start env 1 R _ _ _ _ hg (by simp [be16]) hact (by rw [hxid, hx])]
  rw [gen_prov_start_body_fresh env 1 R _ _ _ _ _ _ hseg (by omega) hL2 (by omega)]
  rw [hs, hxid, Nat.mod_mod]
  have hne : ¬ (rx_started R tid n len (fcs % 256) d0).rx.seg = 0 := by
    rcases hn with rfl | rfl
    · rw [rx_started_seg_1]; decide
    · rw [rx_started_seg_2]; decide
  rw [if_neg hne]

theorem recv_cont_copy (env : Env) (s : PbLink) (tid k : Nat) (d : List Nat)
    (hk : k = 1 ∨ k = 2) (htid : tid < 256)
    (h32 : s.id < 2 ^ 32) (hact : s.flags.ADV_LINK_ACTIVE = true) (hcb : s.cb ≠ none)
    (hx : s.rx.id = tid) (hseg : s.rx.seg ≠ 0)
    (h1 : k ≤ s.rx.last_seg) (h2 : s.rx.seg &&& BIT k ≠ 0)
    (h3 : ¬ (k = s.rx.last_seg ∧ (rx_continued s k d).rx.seg &&& BIT 0 = 0 ∧
      expect_len (rx_continued s k d) ≠ d.length)) :
    bt_mesh_pb_adv_recv env 1 s (be32 s.id ++ [tid % 256, GPC_CONT k % 256] ++ d) =
      if (rx_continued s k d).rx.seg = 0 then
        ((prov_msg_recv env 1 (rx_continued s k d)).1,
          Effect.memcpy (XACT_SEG_DATA k) d.length ::
            (prov_msg_recv env 1 (rx_continued s k d)).2)
      else (rx_continued s k d, [Effect.memcpy (XACT_SEG_DATA k) d.length]) := by
  have hxid : tid % 256 % 256 = tid := by rw [Nat.mod_mod, Nat.mod_eq_of_lt htid]
  have e1 : be32 s.id ++ [tid % 256, GPC_CONT k % 256] ++ d
      = be32 s.id ++ (tid % 256) :: (GPC_CONT k % 256) :: d := by
    simp
  have hg : GPCF (GPC_CONT k % 256 % 256) = 2 := by
    rcases hk with rfl | rfl <;> decide
  have hs : CONT_SEG_INDEX (GPC_CONT k % 256 % 256) = k := by
    rcases hk with rfl | rfl <;> decide
  rw [e1, recv_own_frame env 1 s _ _ _ hcb h32]
  rw [gen_prov_recv_cont env 1 s _ _ _ _ hg hact (by rw [hxid, hx]) hseg]
  rw [hs]
  exact gen_prov_cont_body_copy env 1 s k d h1 h2 h3

theorem xact_seg_data_1 : XACT_SEG_DATA 1 = ((20 : Nat) : Int) := by decide

theorem xact_seg_data_2 : XACT_SEG_DATA 2 = ((43 : Nat) : Int) := by decide

theorem round_trip_two_frames (env : Env) (R : PbLink) (tid fcs : Nat) (msg : List Nat)
    (hL1 : 20 < msg.length) (hL2 : msg.length ≤ 42)
    (hfcs : env.bt_mesh_fcs_check msg (fcs % 256) = true)
    (h32 : R.id < 2 ^ 32) (hact : R.flags.ADV_LINK_ACTIVE = true) (hcb : R.cb ≠ none)
    (hseg : R.rx.seg = 0) (hx : tid = next_transaction_id R.rx.id)
    (hinv : R.flags.ADV_LINK_INVALID = false)
    (hpend : ¬ ack_pending_for tid R)
    (hdata : R.rx.buf.data.length = 65) :
    delivers (run env R
      [Event.recv 1 (be32 R.id ++ [tid % 256, GPC_START 1 % 256] ++ be16 msg.length ++ [fcs % 256]
          ++ msg.take 20),
       Event.recv 1 (be32 R.id ++ [tid % 256, GPC_CONT 1 % 256] ++ (msg.drop 20).take 23)]).2
      R.id tid msg := by
  have htid : tid < 256 := by rw [hx]; exact next_transaction_id_lt _
  have hd1 : (msg.drop 20).take 23 = msg.drop 20 := List.take_of_length_le (by simp; omega)
  have hla : (msg.take 20).length = 20 := by simp; omega
  have hld : (msg.drop 20).length = msg.length - 20 := by simp
  rw [hd1]
  have st1 := recv_start_partial env R tid fcs 1 msg.length (msg.take 20) (Or.inl rfl) hL1
    (by omega) h32 hact hcb hseg hx
  generalize hs1 : rx_started R tid 1 msg.length (fcs % 256) (msg.take 20) = s1 at st1
  have p_id : s1.id = R.id := by rw [← hs1]; rfl
  have p_flags : s1.flags = R.flags := by rw [← hs1]; rfl
  have p_cb : s1.cb = R.cb := by rw [← hs1]; rfl
  have p_pa : s1.tx.pending_ack = R.tx.pending_ack := by rw [← hs1]; rfl
  have p_rxid : s1.rx.id = tid := by rw [← hs1]; rfl
  have p_seg : s1.rx.seg = 2 := by rw [← hs1]; exact rx_started_seg_1 _ _ _ _ _
  have p_last : s1.rx.last_seg = 1 := by rw [← hs1]; rfl
  have p_len : s1.rx.buf.len = msg.length := by rw [← hs1]; rfl
  have p_fcs : s1.rx.fcs = fcs % 256 := by rw [← hs1]; rfl
  have p_data : s1.rx.buf.data = memcpy R.rx.buf.data 0 (msg.take 20) := by rw [← hs1]; rfl
  have q_seg : (rx_continued s1 1 (msg.drop 20)).rx.seg = 0 := by
    simp only [rx_continued, p_seg]; decide
  have q_exp : expect_len (rx_continued s1 1 (msg.drop 20)) = (msg.drop 20).length := by
    simp only [expect_len, rx_continued, p_len, p_last, hld]
    omega
  have st2 := recv_cont_copy env s1 tid 1 (msg.drop 20) (Or.inl rfl) htid (by rw [p_id]; exact h32)
    (by rw [p_flags]; exact hact) (by rw [p_cb]; exact hcb) p_rxid (by rw [p_seg]; decide)
    (by rw [p_last]) (by rw [p_seg]; decide) (by rw [q_exp]; simp)
  rw [if_pos q_seg, p_id] at st2
  have hbytes : (rx_continued s1 1 (msg.drop 20)).rx.buf.bytes = msg := by
    simp only [NetBufSimple.bytes, rx_continued, p_len, p_data, xact_seg_data_1]
    have a1 : (memcpy R.rx.buf.data 0 (msg.take 20)).take 20 = msg.take 20 := by
      have := memcpy_take R.rx.buf.data 0 (msg.take 20) [] (by simp) (by rw [hla]; omega)
      simpa [hla] using this
    have a2 := memcpy_take (memcpy R.rx.buf.data 0 (msg.take 20)) 20 (msg.drop 20) (msg.take 20)
      a1 (by rw [memcpy_length, hld]; omega)
    rw [hld, show 20 + (msg.length - 20) = msg.length by omega, List.take_append_drop] at a2
    exact a2
  obtain ⟨cb, hcbk⟩ := prov_msg_recv_delivers env 1 (rx_continued s1 1 (msg.drop 20)) (by omega)
    (by rw [hbytes]; simpa [rx_continued, p_fcs] using hfcs)
    (by simpa [rx_continued, p_flags] using hinv)
    (by simpa [rx_continued, ack_pending_for, p_flags, p_pa, p_rxid] using hpend)
  refine ⟨cb, [Effect.memcpy 0 (msg.take 20).length,
    Effect.memcpy (XACT_SEG_DATA 1) (msg.drop 20).length], ?_, ?_⟩
  · simp only [run, step, st1, st2, hcbk, hbytes]
    simp [rx_continued, p_id, p_rxid, Nat.mod_eq_of_lt htid]
  · intro e he
    simp only [List.mem_cons, List.mem_singleton, List.not_mem_nil, or_false] at he
    rcases he with he | he
    · exact ⟨_, _, he⟩
    · exact ⟨_, _, he⟩

theorem round_trip_three_frames (env : Env) (R : PbLink) (tid fcs : Nat) (msg : List Nat)
    (hL1 : 43 < msg.length) (hL2 : msg.length ≤ 65)
    (hfcs : env.bt_mesh_fcs_check msg (fcs % 256) = true)
    (h32 : R.id < 2 ^ 32) (hact : R.flags.ADV_LINK_ACTIVE = true) (hcb : R.cb ≠ none)
    (hseg : R.rx.seg = 0) (hx : tid = next_transaction_id R.rx.id)
    (hinv : R.flags.ADV_LINK_INVALID = false)
    (hpend : ¬ ack_pending_for tid R)
    (hdata : R.rx.buf.data.length = 65) :
    delivers (run env R
      [Event.recv 1 (be32 R.id ++ [tid % 256, GPC_START 2 % 256] ++ be16 msg.length ++ [fcs % 256]
          ++ msg.take 20),
       Event.recv 1 (be32 R.id ++ [tid % 256, GPC_CONT 1 % 256] ++ (msg.drop 20).take 23),
       Event.recv 1 (be32 R.id ++ [tid % 256, GPC_CONT 2 % 256] ++ (msg.drop 43).take 23)]).2
      R.id tid msg := by
  have htid : tid < 256 := by rw [hx]; exact next_transaction_id_lt _
  have hd2 : (msg.drop 43).take 23 = msg.drop 43 := List.take_of_length_le (by simp; omega)
  have hla : (msg.take 20).length = 20 := by simp; omega
  have hlb : ((msg.drop 20).take 23).length = 23 := by simp; omega
  have hlc : (msg.drop 43).length = msg.length - 43 := by simp
  rw [hd2]
  have st1 := recv_start_partial env R tid fcs 2 msg.length (msg.take 20) (Or.inr rfl)
    (by omega) hL2 h32 hact hcb hseg hx
  generalize hs1 : rx_started R tid 2 msg.length (fcs % 256) (msg.take 20) = s1 at st1
  have p_id : s1.id = R.id := by rw [← hs1]; rfl
  have p_flags : s1.flags = R.flags := by rw [← hs1]; rfl
  have p_cb : s1.cb = R.cb := by rw [← hs1]; rfl
  have p_pa : s1.tx.pending_ack = R.tx.pending_ack := by rw [← hs1]; rfl
  have p_rxid : s1.rx.id = tid := by rw [← hs1]; rfl
  have p_seg : s1.rx.seg = 6 := by rw [← hs1]; exact rx_started_seg_2 _ _ _ _ _
  have p_last : s1.rx.last_seg = 2 := by rw [← hs1]; rfl
  have p_len : s1.rx.buf.len = msg.length := by rw [← hs1]; rfl
  have p_fcs : s1.rx.fcs = fcs % 256 := by rw [← hs1]; rfl
  have p_data : s1.rx.buf.data = memcpy R.rx.buf.data 0 (msg.take 20) := by rw [← hs1]; rfl
  have q_seg : (rx_continued s1 1 ((msg.drop 20).take 23)).rx.seg = 4 := by
    simp only [rx_continued, p_seg]; decide
  have st2 := recv_cont_copy env s1 tid 1 ((msg.drop 20).take 23) (Or.inl rfl) htid
    (by rw [p_id]; exact h32) (by rw [p_flags]; exact hact) (by rw [p_cb]; exact hcb) p_rxid
    (by rw [p_seg]; decide) (by rw [p_last]; decide) (by rw [p_seg]; decide)
    (by rw [p_last]; simp)
  rw [if_neg (by rw [q_seg]; decide), p_id] at st2
  generalize hs2 : rx_continued s1 1 ((msg.drop 20).take 23) = s2 at st2 q_seg
  have r_id : s2.id = R.id := by rw [← hs2]; exact p_id
  have r_flags : s2.flags = R.flags := by rw [← hs2]; exact p_flags
  have r_cb : s2.cb = R.cb := by rw [← hs2]; exact p_cb
  have r_pa : s2.tx.pending_ack = R.tx.pending_ack := by rw [← hs2]; exact p_pa
  have r_rxid : s2.rx.id = tid := by rw [← hs2]; exact p_rxid
  have r_last : s2.rx.last_seg = 2 := by rw [← hs2]; exact p_last
  have r_len : s2.rx.buf.len = msg.length := by rw [← hs2]; exact p_len
  have r_fcs : s2.rx.fcs = fcs % 256 := by rw [← hs2]; exact p_fcs
  have r_data : s2.rx.buf.data
      = memcpy (memcpy R.rx.buf.data 0 (msg.take 20)) (XACT_SEG_DATA 1) ((msg.drop 20).take 23) := by
    rw [← hs2]; simp only [rx_continued, p_data]
  have t_seg : (rx_continued s2 2 (msg.drop 43)).rx.seg = 0 := by
    simp only [rx_continued, q_seg]; decide
  have t_exp : expect_len (rx_continued s2 2 (msg.drop 43)) = (msg.drop 43).length := by
    simp only [expect_len, rx_continued, r_len, r_last, hlc]
    omega
  have st3 := recv_cont_copy env s2 tid 2 (msg.drop 43) (Or.inr rfl) htid
    (by rw [r_id]; exact h32) (by rw [r_flags]; exact hact) (by rw [r_cb]; exact hcb) r_rxid
    (by rw [q_seg]; decide) (by rw [r_last]) (by rw [q_seg]; decide) (by rw [t_exp]; simp)
  rw [if_pos t_seg, r_id] at st3
  have hbytes : (rx_continued s2 2 (msg.drop 43)).rx.buf.bytes = msg := by
    simp only [NetBufSimple.bytes, rx_continued, r_len, r_data, xact_seg_data_1, xact_seg_data_2]
    have a1 : (memcpy R.rx.buf.data 0 (msg.take 20)).take 20 = msg.take 20 := by
      have := memcpy_take R.rx.buf.data 0 (msg.take 20) [] (by simp) (by rw [hla]; omega)
      simpa [hla] using this
    have a2 := memcpy_take (memcpy R.rx.buf.data 0 (msg.take 20)) 20 ((msg.drop 20).take 23)
      (msg.take 20) a1 (by rw [memcpy_length, hlb]; omega)
    rw [hlb] at a2
    have a3 := memcpy_take _ 43 (msg.drop 43) _ a2
      (by rw [memcpy_length, memcpy_length, hlc]; omega)
    rw [hlc, show 43 + (msg.length - 43) = msg.length by omega] at a3
    rw [a3]
    have b1 : (msg.drop 20).take 23 ++ msg.drop 43 = msg.drop 20 := by
      have := List.take_append_drop 23 (msg.drop 20)
      rwa [List.drop_drop] at this
    rw [List.append_assoc, b1, List.take_append_drop]
  obtain ⟨cb, hcbk⟩ := prov_msg_recv_delivers env 1 (rx_continued s2 2 (msg.drop 43)) (by omega)
    (by rw [hbytes]; simpa [rx_continued, r_fcs] using hfcs)
    (by simpa [rx_continued, r_flags] using hinv)
    (by simpa [rx_continued, ack_pending_for, r_flags, r_pa, r_rxid] using hpend)
  refine ⟨cb, [Effect.memcpy 0 (msg.take 20).length,
    Effect.memcpy (XACT_SEG_DATA 1) ((msg.drop 20).take 23).length,
    Effect.memcpy (XACT_SEG_DATA 2) (msg.drop 43).length], ?_, ?_⟩
  · simp only [run, step, st1, st2, st3, hcbk, hbytes]
    simp [rx_continued, r_id, r_rxid, Nat.mod_eq_of_lt htid]
  · intro e he
    simp only [List.mem_cons, List.mem_singleton, List.not_mem_nil, or_false] at he
    rcases he with he | he | he
    · exact ⟨_, _, he⟩
    · exact ⟨_, _, he⟩
    · exact ⟨_, _, he⟩

/-- The round trip for every length that `last_seg` gets right: for a
payload of 1 to 65 bytes other than 43, the frames `prov_send_adv` hands to the
transport, fed in order to `bt_mesh_pb_adv_recv` on a peer with an active link
of the same id, `rx.seg = 0`, `rx.id` the predecessor of the sender's
transaction id, not invalid and with no ack for that id pending, make the peer
send exactly one Transaction Ack for the id and deliver exactly the payload
(the FCS check accepting what the FCS computation produced). -/
theorem round_trip_except_43 (env : Env) (T R : PbLink) (msg : List Nat)
    (hL1 : 1 ≤ msg.length) (hL2 : msg.length ≤ 65) (h43 : msg.length ≠ 43)
    (hfcs : ∀ d, env.bt_mesh_fcs_check d (env.bt_mesh_fcs_calc d % 256) = true)
    (hT : T.tx.buf.contiguous) (h32 : T.id < 2 ^ 32)
    (hid : R.id = T.id) (hact : R.flags.ADV_LINK_ACTIVE = true) (hcb : R.cb ≠ none)
    (hseg : R.rx.seg = 0) (hx : next_transaction_id R.rx.id = next_transaction_id T.tx.id)
    (hinv : R.flags.ADV_LINK_INVALID = false)
    (hpend : ¬ ack_pending_for (next_transaction_id T.tx.id) R)
    (hdata : R.rx.buf.data.length = 65) :
    delivers (send_then_receive env T R msg).2 T.id (next_transaction_id T.tx.id) msg := by
  unfold send_then_receive
  rw [prov_send_adv_sent env 0 T msg none 0 (by omega) hT]
  simp only [start_buf, last_seg_small msg.length (by omega)]
  rw [← hid] at h32 ⊢
  rcases Nat.lt_or_ge 20 msg.length with c1 | c1
  · rcases Nat.lt_or_ge 43 msg.length with c2 | c2
    · have hq : 1 + (msg.length - 20) / 23 = 2 := by omega
      have c0 : ¬ msg.length ≤ 20 := by omega
      simp only [c0, c1, c2, if_true, if_false, hq, List.map, List.cons_append, List.nil_append]
      exact round_trip_three_frames env R _ _ msg c2 hL2 (hfcs msg) h32 hact hcb hseg hx.symm
        hinv hpend hdata
    · have hq : 1 + (msg.length - 20) / 23 = 1 := by omega
      have c0 : ¬ msg.length ≤ 20 := by omega
      have c2' : ¬ 43 < msg.length := by omega
      simp only [c0, c1, c2', if_true, if_false, hq, List.map, List.cons_append, List.nil_append,
        List.append_nil]
      exact round_trip_two_frames env R _ _ msg c1 (by omega) (hfcs msg) h32 hact hcb hseg
        hx.symm hinv hpend hdata
  · have c1' : ¬ 20 < msg.length := by omega
    have c2' : ¬ 43 < msg.length := by omega
    have ht : msg.take 20 = msg := List.take_of_length_le c1
    simp only [c1, c1', c2', if_true, if_false, List.map, List.append_nil, ht]
    have h := round_trip_one_frame env R _ _ msg hL1 c1 (hfcs msg) h32 hact hcb hseg hx.symm
      hinv hpend hdata
    simpa [run, step] using h

/-! ## Busy link -/

/-- C12, as amended: if the link is already active, `prov_link_open` and
`prov_link_accept` each leave the link state exactly as it was and make no
call; each returns `-EBUSY` when `bt_mesh_adv_enable()` succeeds, and the error
of `bt_mesh_adv_enable()` when it fails. -/
theorem link_busy (nbufs : Nat) (now adv_err : Int) (rand : Nat) (st : PbLink) (uuid : List Nat)
    (cb : Option Nat) (cb_data : Nat) (hact : st.flags.ADV_LINK_ACTIVE = true) :
    (prov_link_open nbufs now adv_err rand st uuid cb cb_data).2 = (st, []) ∧
    (prov_link_accept adv_err st cb cb_data).2 = (st, []) ∧
    (adv_err = 0 →
      (prov_link_open nbufs now adv_err rand st uuid cb cb_data).1 = -EBUSY ∧
      (prov_link_accept adv_err st cb cb_data).1 = -EBUSY) ∧
    (adv_err ≠ 0 →
      (prov_link_open nbufs now adv_err rand st uuid cb cb_data).1 = adv_err ∧
      (prov_link_accept adv_err st cb cb_data).1 = adv_err) := by
  by_cases h : adv_err = 0
  · simp [prov_link_open, prov_link_accept, h, hact]
  · simp [prov_link_open, prov_link_accept, h, hact]

theorem link_busy_witness :
    sample_link.flags.ADV_LINK_ACTIVE = true ∧
    (prov_link_open 1 0 0 0x11223344 sample_link (List.replicate 16 0xbb) (some 3) 0).1 = -EBUSY ∧
    (prov_link_open 1 0 0 0x11223344 sample_link (List.replicate 16 0xbb) (some 3) 0).2
      = (sample_link, []) :=
  have h := link_busy 1 0 0 0x11223344 sample_link (List.replicate 16 0xbb) (some 3) 0 (by decide)
  ⟨by decide, (h.2.2.1 rfl).1, h.1⟩

/-- C12, counterexample: the link is active and `bt_mesh_adv_enable()` fails
with `-5`: `prov_link_open` and `prov_link_accept` return `-5`, not `-EBUSY`
(lines 837 to 841 and 864 to 868). -/
theorem link_busy_adv_enable_fails :
    sample_link.flags.ADV_LINK_ACTIVE = true ∧
    (prov_link_open 1 0 (-5) 0x11223344 sample_link (List.replicate 16 0xbb) (some 3) 0).1 = -5 ∧
    (prov_link_accept (-5) sample_link (some 3) 0).1 = -5 ∧
    (prov_link_open 1 0 (-5) 0x11223344 sample_link (List.replicate 16 0xbb) (some 3) 0).1
      ≠ -EBUSY := by
  decide

/-! ## Closing the link -/

theorem prov_link_close_sends (nbufs : Nat) (st : PbLink) (status : Nat)
    (hcl : st.flags.ADV_LINK_CLOSING = false) (hn : 0 < nbufs) :
    prov_link_close nbufs st status =
      ({ prov_clear_tx { st with flags.ADV_LINK_CLOSING := true } with prot_timer := true },
        [Effect.adv_send (close_frame st.id status) SendCb.buf_sent_cb]) := by
  have hn0 : ¬ nbufs = 0 := by omega
  simp [prov_link_close, hcl, ctl_buf_create, hn0, bearer_ctl_send_unacked, close_frame,
    net_buf_add_mem, net_buf_add_u8, net_buf_add_be32, adv_buf_create, GPC_CTL]

theorem buf_sent_closing (st : PbLink) (hcl : st.flags.ADV_LINK_CLOSING = true) :
    buf_sent st = (reset_adv_link { st with flags.ADV_LINK_CLOSING := false },
      [Effect.link_closed PROV_BEARER_LINK_STATUS_SUCCESS]) := by
  simp [buf_sent, hcl, close_link]

theorem reset_adv_link_flags (st : PbLink) : (reset_adv_link st).flags = Flags.clear := by
  unfold reset_adv_link
  simp only
  split <;> rfl

theorem reset_adv_link_id (st : PbLink) : (reset_adv_link st).id = 0 := by
  unfold reset_adv_link
  simp only
  split <;> rfl

/-! ## Transaction timeout -/

/-- C11, as amended: when the retransmission timer fires on an active link
more than the transaction timeout (30 s) after `tx.start`, the link not being
closing already and a buffer being available, the completion callback of the
send is not invoked; the link is closed instead: `ADV_LINK_CLOSING` is set, one
Close frame carrying `PROV_BEARER_LINK_STATUS_FAIL` is handed to the transport,
and no slot of `tx.buf` remains occupied; the completion callback is not
invoked when the transport confirms the Close frame either. -/
theorem prov_retransmit_timeout (nbufs : Nat) (now : Int) (st : PbLink)
    (hact : st.flags.ADV_LINK_ACTIVE = true) (hcl : st.flags.ADV_LINK_CLOSING = false)
    (hto : now - st.tx.start > TRANSACTION_TIMEOUT) (hn : 0 < nbufs)
    (hc : st.tx.buf.contiguous) :
    (prov_retransmit nbufs now st).2
      = [Effect.adv_send ⟨RETRANSMITS_LINK_CLOSE,
          be32 st.id ++ [0x00, GPC_CTL LINK_CLOSE, PROV_BEARER_LINK_STATUS_FAIL], false⟩
          SendCb.buf_sent_cb] ∧
    (∀ e ∈ (prov_retransmit nbufs now st).2, is_send_complete e = false) ∧
    (prov_retransmit nbufs now st).1.flags.ADV_LINK_CLOSING = true ∧
    (prov_retransmit nbufs now st).1.tx.buf = TxBuf.empty ∧
    (∀ e ∈ (buf_sent (prov_retransmit nbufs now st).1).2, is_send_complete e = false) := by
  have e : prov_retransmit nbufs now st
      = prov_link_close nbufs st PROV_BEARER_LINK_STATUS_FAIL := by
    simp only [prov_retransmit, hact, not_true_eq_false, if_false, hto, if_true]
  rw [e, prov_link_close_sends nbufs st _ hcl hn]
  refine ⟨rfl, ?_, rfl, ?_, ?_⟩
  · simp [is_send_complete]
  · show (prov_clear_tx _).tx.buf = TxBuf.empty
    rw [prov_clear_tx_buf]
    exact free_segments_loop_contiguous _ hc
  · rw [buf_sent_closing _ rfl]
    simp [is_send_complete]

theorem prov_retransmit_timeout_witness :
    sample_sending.flags.ADV_LINK_ACTIVE = true ∧
    sample_sending.flags.ADV_LINK_CLOSING = false ∧
    30001 - sample_sending.tx.start > TRANSACTION_TIMEOUT ∧ 0 < 1 ∧
    sample_sending.tx.buf.contiguous ∧
    (prov_retransmit 1 30001 sample_sending).1.tx.buf = TxBuf.empty :=
  ⟨by decide, by decide, by decide, by decide, by decide,
    (prov_retransmit_timeout 1 30001 sample_sending (by decide) (by decide) (by decide)
      (by decide) (by decide)).2.2.2.1⟩

/-- C11, counterexample: the message `[1, 2, 3]` was sent at time 0 with
completion callback 7 and is unacknowledged; the retransmission timer fires at
30001 ms and the transport then confirms what was sent: a Close frame with
status `FAIL` goes out and `link_closed` is invoked, but the completion
callback of the send is never invoked (lines 600 to 604). -/
theorem transaction_timeout_no_completion :
    sample_sending.tx.cb = some 7 ∧ sample_sending.tx.buf.b0 ≠ none ∧
    (run sample_env sample_sending [Event.prov_retransmit 1 30001, Event.buf_sent]).2
      = [Effect.adv_send ⟨2, [0x01, 0x02, 0x03, 0x04, 0x00, 0x0b, 0x02], false⟩
          SendCb.buf_sent_cb,
         Effect.link_closed 0] ∧
    ((run sample_env sample_sending [Event.prov_retransmit 1 30001, Event.buf_sent]).2.countP
      is_send_complete) = 0 := by
  decide

/-! ## Protocol timeout -/

/-- C18, evaluated: the protocol timer fires on the active, not closing link
`sample_link` with a buffer available, then the transport confirms the Close
frame.  The Close frame carries `PROV_BEARER_LINK_STATUS_TIMEOUT` (byte
`0x01`) and the link is reset, but `buf_sent` invokes `link_closed` with
`PROV_BEARER_LINK_STATUS_SUCCESS` (0), whatever the reason of the close. -/
theorem protocol_timeout_reports_success :
    (protocol_timeout 1 sample_link).2
      = [Effect.adv_send ⟨2, [0x01, 0x02, 0x03, 0x04, 0x00, 0x0b, 0x01], false⟩
          SendCb.buf_sent_cb] ∧
    (run sample_env sample_link [Event.protocol_timeout 1, Event.buf_sent]).2
      = [Effect.adv_send ⟨2, [0x01, 0x02, 0x03, 0x04, 0x00, 0x0b, 0x01], false⟩
          SendCb.buf_sent_cb,
         Effect.link_closed PROV_BEARER_LINK_STATUS_SUCCESS] ∧
    (run sample_env sample_link [Event.protocol_timeout 1, Event.buf_sent]).1.flags
      = Flags.clear ∧
    (run sample_env sample_link [Event.protocol_timeout 1, Event.buf_sent]).1.id = 0 ∧
    (∀ st : PbLink, st.flags.ADV_LINK_CLOSING = true →
      (buf_sent st).2 = [Effect.link_closed PROV_BEARER_LINK_STATUS_SUCCESS]) ∧
    (∀ (st : PbLink) (reason : Nat),
      (link_close st [reason]).2 = [Effect.link_closed (reason % 256)]) := by
  refine ⟨by decide, by decide, by decide, by decide, ?_, ?_⟩
  · intro st h
    rw [buf_sent_closing st h]
  · intro st reason
    simp [link_close, close_link, net_buf_simple_pull_u8]

/-! ## Link reset -/

/-- C17, evaluated: `reset_adv_link` always leaves link id 0, every flag
clear, `pending_ack = XACT_ID_NVAL` and reassembly buffer length 0, and it
empties `tx.buf` (in device role when the occupied slots form an initial
segment of the array); in provisioner role it also clears `rx.seg`, but in
device role it leaves `rx.seg` as it was.  On the device link `sample_link`, a
Start frame announcing three segments followed by a Link Close frame leaves the
reset link with `rx.seg = 6`. -/
theorem reset_keeps_rx_seg_on_device :
    (∀ st : PbLink,
      (reset_adv_link st).id = 0 ∧ (reset_adv_link st).flags = Flags.clear ∧
      (reset_adv_link st).tx.pending_ack = XACT_ID_NVAL ∧
      (reset_adv_link st).rx.buf.len = 0 ∧
      (st.flags.ADV_PROVISIONER = true →
        (reset_adv_link st).rx.seg = 0 ∧ (reset_adv_link st).tx.buf = TxBuf.empty) ∧
      (st.flags.ADV_PROVISIONER = false →
        (reset_adv_link st).rx.seg = st.rx.seg ∧
        (st.tx.buf.contiguous → (reset_adv_link st).tx.buf = TxBuf.empty))) ∧
    sample_link.flags.ADV_PROVISIONER = false ∧
    (run sample_env sample_link [Event.recv 1 sample_start_of_three]).1.rx.seg = 6 ∧
    (run sample_env sample_link
      [Event.recv 1 sample_start_of_three, Event.recv 1 sample_close_frame]).2
      = [Effect.memcpy 0 20, Effect.link_closed 0] ∧
    (run sample_env sample_link
      [Event.recv 1 sample_start_of_three, Event.recv 1 sample_close_frame]).1.flags
      = Flags.clear ∧
    (run sample_env sample_link
      [Event.recv 1 sample_start_of_three, Event.recv 1 sample_close_frame]).1.rx.seg = 6 := by
  refine ⟨fun st => ?_, by decide, by decide, by decide, by decide, by decide⟩
  refine ⟨reset_adv_link_id st, reset_adv_link_flags st, ?_, ?_, ?_, ?_⟩
  · rfl
  · rfl
  · intro hp
    simp [reset_adv_link, hp]
  · intro hp
    refine ⟨by simp [reset_adv_link, hp], fun hc => ?_⟩
    have h := free_segments_loop_contiguous _ hc
    simp [reset_adv_link, hp, prov_clear_tx, free_segments, h]

/-! ## Link establishment on the device -/

/-- What `bt_mesh_pb_adv_recv` does with a frame of at least six bytes when the
link is idle or the frame carries the id of the active link. -/
theorem recv_frame (env : Env) (nbufs : Nat) (st : PbLink) (lid x y : Nat) (rest : List Nat)
    (hcb : st.cb ≠ none) (h32 : lid < 2 ^ 32)
    (hid : st.flags.ADV_LINK_ACTIVE = true → st.id = lid) :
    bt_mesh_pb_adv_recv env nbufs st (be32 lid ++ x :: y :: rest)
      = gen_prov_recv env nbufs st ⟨lid, x % 256, y % 256⟩ rest := by
  unfold bt_mesh_pb_adv_recv
  have hlen : ¬ (be32 lid ++ x :: y :: rest).length < 6 := by
    simp [be32]
  rw [if_neg hcb, if_neg hlen]
  simp only [pull_be32_be32 _ _ h32, pull_u8_cons]
  have hn : ¬ (st.flags.ADV_LINK_ACTIVE = true ∧ st.id ≠ lid) := fun h => h.2 (hid h.1)
  rw [if_neg hn]

theorem gen_prov_recv_open (env : Env) (nbufs : Nat) (st : PbLink) (lid xid : Nat)
    (buf : List Nat) :
    gen_prov_recv env nbufs st ⟨lid, xid, 0x03⟩ buf = link_open env nbufs st ⟨lid, xid, 0x03⟩ buf := by
  have h1 : GPCF 0x03 = 3 := by decide
  have h2 : BEARER_CTL 0x03 = 0 := by decide
  simp [gen_prov_recv, gen_prov_func, gen_prov_ctl, h1, h2, gen_prov_min_len,
    gen_prov_require_link]

theorem link_open_idle (env : Env) (nbufs : Nat) (st : PbLink) (rx : ProvRx) (buf : List Nat)
    (hact : st.flags.ADV_LINK_ACTIVE = false) (hlen : 16 ≤ buf.length)
    (hu : buf.take 16 = env.uuid.take 16) (hn : 0 < nbufs) :
    link_open env nbufs st rx buf =
      ({ prov_clear_tx { st with id := rx.link_id, flags.ADV_LINK_ACTIVE := true,
                                 rx.buf := net_buf_simple_reset st.rx.buf }
          with prot_timer := true },
        [Effect.adv_send (link_ack_frame rx.link_id) SendCb.buf_sent_cb, Effect.link_opened]) := by
  have hn0 : ¬ nbufs = 0 := by omega
  have hl : ¬ buf.length < 16 := by omega
  simp [link_open, hact, hl, hu, ctl_buf_create, hn0, bearer_ctl_send_unacked, link_ack_frame,
    net_buf_add_mem, net_buf_add_u8, net_buf_add_be32, adv_buf_create, GPC_CTL]

theorem link_open_idle_no_buf (env : Env) (st : PbLink) (rx : ProvRx) (buf : List Nat)
    (hact : st.flags.ADV_LINK_ACTIVE = false) (hlen : 16 ≤ buf.length)
    (hu : buf.take 16 = env.uuid.take 16) :
    (link_open env 0 st rx buf).2 = [] ∧
    (link_open env 0 st rx buf).1.flags = Flags.clear := by
  have hl : ¬ buf.length < 16 := by omega
  simp [link_open, hact, hl, hu, ctl_buf_create, bearer_ctl_send_unacked, reset_adv_link_flags]

theorem link_open_idle_other (env : Env) (nbufs : Nat) (st : PbLink) (rx : ProvRx)
    (buf : List Nat) (hact : st.flags.ADV_LINK_ACTIVE = false)
    (hu : ¬ (16 ≤ buf.length ∧ buf.take 16 = env.uuid.take 16)) :
    link_open env nbufs st rx buf = (st, []) := by
  by_cases hl : buf.length < 16
  · simp [link_open, hl]
  · have hne : buf.take 16 ≠ env.uuid.take 16 := fun h => hu ⟨by omega, h⟩
    simp [link_open, hact, hl, hne]

theorem link_open_active (env : Env) (nbufs : Nat) (st : PbLink) (rx : ProvRx) (buf : List Nat)
    (hact : st.flags.ADV_LINK_ACTIVE = true) (hlen : 16 ≤ buf.length)
    (hid : st.id = rx.link_id) (hn : 0 < nbufs) :
    link_open env nbufs st rx buf =
      ({ prov_clear_tx st with prot_timer := true },
        [Effect.adv_send (link_ack_frame rx.link_id) SendCb.buf_sent_cb]) := by
  have hn0 : ¬ nbufs = 0 := by omega
  have hl : ¬ buf.length < 16 := by omega
  simp [link_open, hact, hl, hid, ctl_buf_create, hn0, bearer_ctl_send_unacked, link_ack_frame,
    net_buf_add_mem, net_buf_add_u8, net_buf_add_be32, adv_buf_create, GPC_CTL]

/-- C20: on an idle link with callbacks registered, a Link Open frame makes
the link active if and only if its payload has at least 16 bytes, the first 16
equal the local device UUID, and a buffer for the Link Ack is available.  In
that case the link id becomes the link id of the frame, one Link Ack is handed
to the transport outside `tx.buf` (nothing is retransmitted) and `link_opened`
is invoked; if the payload is shorter or the UUID differs, the link state is
unchanged and no call is made. -/
theorem link_open_iff_uuid (env : Env) (nbufs : Nat) (st : PbLink) (lid x : Nat)
    (payload : List Nat) (hcb : st.cb ≠ none) (hact : st.flags.ADV_LINK_ACTIVE = false)
    (h32 : lid < 2 ^ 32) (huuid : env.uuid.length = 16) :
    ((bt_mesh_pb_adv_recv env nbufs st
        (be32 lid ++ x :: GPC_CTL LINK_OPEN :: payload)).1.flags.ADV_LINK_ACTIVE = true
      ↔ (16 ≤ payload.length ∧ payload.take 16 = env.uuid ∧ 0 < nbufs)) ∧
    (16 ≤ payload.length ∧ payload.take 16 = env.uuid ∧ 0 < nbufs →
      (bt_mesh_pb_adv_recv env nbufs st (be32 lid ++ x :: GPC_CTL LINK_OPEN :: payload)).1.id
        = lid ∧
      (bt_mesh_pb_adv_recv env nbufs st (be32 lid ++ x :: GPC_CTL LINK_OPEN :: payload)).2
        = [Effect.adv_send ⟨RETRANSMITS_ACK, be32 lid ++ [0x00, GPC_CTL LINK_ACK], false⟩
            SendCb.buf_sent_cb, Effect.link_opened] ∧
      (bt_mesh_pb_adv_recv env nbufs st
        (be32 lid ++ x :: GPC_CTL LINK_OPEN :: payload)).1.tx.retransmit = false) ∧
    (¬ (16 ≤ payload.length ∧ payload.take 16 = env.uuid) →
      bt_mesh_pb_adv_recv env nbufs st (be32 lid ++ x :: GPC_CTL LINK_OPEN :: payload)
        = (st, [])) := by
  have hg : GPC_CTL LINK_OPEN = 0x03 := by decide
  have hu16 : env.uuid.take 16 = env.uuid := by
    rw [List.take_of_length_le (by omega)]
  have hrecv : bt_mesh_pb_adv_recv env nbufs st (be32 lid ++ x :: GPC_CTL LINK_OPEN :: payload)
      = link_open env nbufs st ⟨lid, x % 256, 0x03⟩ payload := by
    rw [hg, recv_frame env nbufs st lid x 0x03 payload hcb h32 (by simp [hact])]
    exact gen_prov_recv_open env nbufs st lid (x % 256) payload
  rw [hrecv]
  by_cases hm : 16 ≤ payload.length ∧ payload.take 16 = env.uuid
  · have hm2 : payload.take 16 = env.uuid.take 16 := by rw [hu16]; exact hm.2
    by_cases hn : 0 < nbufs
    · rw [link_open_idle env nbufs st _ payload hact hm.1 hm2 hn]
      refine ⟨⟨fun _ => ⟨hm.1, hm.2, hn⟩, fun _ => ?_⟩, fun _ => ⟨?_, rfl, ?_⟩,
        fun h => absurd hm h⟩
      · simp
      · simp
      · simp
    · have hn0 : nbufs = 0 := by omega
      subst hn0
      have h0 := link_open_idle_no_buf env st ⟨lid, x % 256, 0x03⟩ payload hact hm.1 hm2
      refine ⟨⟨fun h => ?_, fun h => absurd h.2.2 (by decide)⟩,
        fun h => absurd h.2.2 (by decide), fun h => absurd hm h⟩
      rw [h0.2] at h
      exact absurd h (by decide)
  · rw [link_open_idle_other env nbufs st _ payload hact (by rw [hu16]; exact hm)]
    refine ⟨⟨fun h => ?_, fun h => absurd ⟨h.1, h.2.1⟩ hm⟩,
      fun h => absurd ⟨h.1, h.2.1⟩ hm, fun _ => rfl⟩
    rw [hact] at h
    exact absurd h (by decide)

theorem link_open_iff_uuid_witness :
    sample_accepting.cb ≠ none ∧ sample_accepting.flags.ADV_LINK_ACTIVE = false ∧
    0x0a0b0c0d < 2 ^ 32 ∧ sample_env.uuid.length = 16 ∧
    ((bt_mesh_pb_adv_recv sample_env 1 sample_accepting
        (be32 0x0a0b0c0d ++ 0 :: GPC_CTL LINK_OPEN :: List.replicate 16 0xaa)).1.flags.ADV_LINK_ACTIVE
        = true
      ↔ (16 ≤ (List.replicate 16 0xaa).length ∧
          (List.replicate 16 0xaa).take 16 = sample_env.uuid ∧ 0 < 1)) :=
  ⟨by decide, by decide, by decide, by decide,
    (link_open_iff_uuid sample_env 1 sample_accepting 0x0a0b0c0d 0 (List.replicate 16 0xaa)
      (by decide) (by decide) (by decide) (by decide)).1⟩

/-- C13: on an idle device link with callbacks registered, receiving twice in
a row the same Link Open frame whose UUID is the local device UUID, a buffer
being available each time, hands one Link Ack frame (link id, transaction id
0, `GPC_CTL(LINK_ACK)`) to the transport for each reception, leaves the link
active with the link id of the frame after the first and after the second
reception, and invokes `link_opened` exactly once, at the first. -/
theorem link_open_twice (env : Env) (n1 n2 : Nat) (st : PbLink) (lid x : Nat)
    (payload : List Nat) (hcb : st.cb ≠ none) (hact : st.flags.ADV_LINK_ACTIVE = false)
    (h32 : lid < 2 ^ 32) (hlen : 16 ≤ payload.length) (hu : payload.take 16 = env.uuid.take 16)
    (hn1 : 0 < n1) (hn2 : 0 < n2) :
    (run env st [Event.recv n1 (be32 lid ++ x :: GPC_CTL LINK_OPEN :: payload)]).2
      = [Effect.adv_send ⟨RETRANSMITS_ACK, be32 lid ++ [0x00, GPC_CTL LINK_ACK], false⟩
          SendCb.buf_sent_cb, Effect.link_opened] ∧
    (run env st [Event.recv n1 (be32 lid ++ x :: GPC_CTL LINK_OPEN :: payload)]).1.flags.ADV_LINK_ACTIVE
      = true ∧
    (run env st [Event.recv n1 (be32 lid ++ x :: GPC_CTL LINK_OPEN :: payload)]).1.id = lid ∧
    (run env st [Event.recv n1 (be32 lid ++ x :: GPC_CTL LINK_OPEN :: payload),
        Event.recv n2 (be32 lid ++ x :: GPC_CTL LINK_OPEN :: payload)]).2
      = [Effect.adv_send ⟨RETRANSMITS_ACK, be32 lid ++ [0x00, GPC_CTL LINK_ACK], false⟩
          SendCb.buf_sent_cb, Effect.link_opened,
         Effect.adv_send ⟨RETRANSMITS_ACK, be32 lid ++ [0x00, GPC_CTL LINK_ACK], false⟩
          SendCb.buf_sent_cb] ∧
    (run env st [Event.recv n1 (be32 lid ++ x :: GPC_CTL LINK_OPEN :: payload),
        Event.recv n2 (be32 lid ++ x :: GPC_CTL LINK_OPEN :: payload)]).1.flags.ADV_LINK_ACTIVE
      = true ∧
    (run env st [Event.recv n1 (be32 lid ++ x :: GPC_CTL LINK_OPEN :: payload),
        Event.recv n2 (be32 lid ++ x :: GPC_CTL LINK_OPEN :: payload)]).1.id = lid ∧
    ((run env st [Event.recv n1 (be32 lid ++ x :: GPC_CTL LINK_OPEN :: payload),
        Event.recv n2 (be32 lid ++ x :: GPC_CTL LINK_OPEN :: payload)]).2.countP
      is_link_opened) = 1 := by
  have hg : GPC_CTL LINK_OPEN = 0x03 := by decide
  have h1 : bt_mesh_pb_adv_recv env n1 st (be32 lid ++ x :: GPC_CTL LINK_OPEN :: payload)
      = ({ prov_clear_tx { st with id := lid, flags.ADV_LINK_ACTIVE := true,
                                   rx.buf := net_buf_simple_reset st.rx.buf }
            with prot_timer := true },
          [Effect.adv_send (link_ack_frame lid) SendCb.buf_sent_cb, Effect.link_opened]) := by
    rw [hg, recv_frame env n1 st lid x 0x03 payload hcb h32 (by simp [hact])]
    rw [show (0x03 : Nat) % 256 = 0x03 by decide, gen_prov_recv_open]
    exact link_open_idle env n1 st _ payload hact hlen hu hn1
  have h2 : ∀ s : PbLink, s.cb ≠ none → s.flags.ADV_LINK_ACTIVE = true → s.id = lid →
      bt_mesh_pb_adv_recv env n2 s (be32 lid ++ x :: GPC_CTL LINK_OPEN :: payload)
        = ({ prov_clear_tx s with prot_timer := true },
            [Effect.adv_send (link_ack_frame lid) SendCb.buf_sent_cb]) := by
    intro s hs ha hi
    rw [hg, recv_frame env n2 s lid x 0x03 payload hs h32 (fun _ => hi)]
    rw [show (0x03 : Nat) % 256 = 0x03 by decide, gen_prov_recv_open]
    exact link_open_active env n2 s _ payload ha hlen hi hn2
  simp only [run, step, h1, List.append_nil]
  rw [h2 _ (by simpa using hcb) (by simp) (by simp)]
  simp [link_ack_frame, is_link_opened, List.countP_cons]

theorem link_open_twice_witness :
    sample_accepting.cb ≠ none ∧ sample_accepting.flags.ADV_LINK_ACTIVE = false ∧
    ((run sample_env sample_accepting
        [Event.recv 1 (be32 0x0a0b0c0d ++ 0 :: GPC_CTL LINK_OPEN :: List.replicate 16 0xaa),
         Event.recv 1 (be32 0x0a0b0c0d ++ 0 :: GPC_CTL LINK_OPEN :: List.replicate 16 0xaa)]).2.countP
      is_link_opened) = 1 :=
  ⟨by decide, by decide,
    (link_open_twice sample_env 1 1 sample_accepting 0x0a0b0c0d 0 (List.replicate 16 0xaa)
      (by decide) (by decide) (by decide) (by decide) (by decide) (by decide)
      (by decide)).2.2.2.2.2.2⟩

/-! ## Link Ack on the provisioner -/

theorem free_segments_loop_b0 (b : TxBuf) : (free_segments_loop 3 0 b).b0 = none := by
  obtain ⟨b0, b1, b2⟩ := b
  cases b0 <;> cases b1 <;> cases b2 <;>
    simp [free_segments_loop, TxBuf.get, TxBuf.set]

theorem gen_prov_recv_link_ack (env : Env) (nbufs : Nat) (st : PbLink) (lid xid : Nat)
    (buf : List Nat) (hact : st.flags.ADV_LINK_ACTIVE = true) :
    gen_prov_recv env nbufs st ⟨lid, xid, 0x07⟩ buf = link_ack st := by
  have h1 : GPCF 0x07 = 3 := by decide
  have h2 : BEARER_CTL 0x07 = 1 := by decide
  simp [gen_prov_recv, gen_prov_func, gen_prov_ctl, h1, h2, gen_prov_min_len,
    gen_prov_require_link, hact]

theorem recv_link_ack (env : Env) (nbufs : Nat) (st : PbLink) (x : Nat) (rest : List Nat)
    (hcb : st.cb ≠ none) (hact : st.flags.ADV_LINK_ACTIVE = true) (h32 : st.id < 2 ^ 32) :
    bt_mesh_pb_adv_recv env nbufs st (be32 st.id ++ x :: GPC_CTL LINK_ACK :: rest)
      = link_ack st := by
  have hg : GPC_CTL LINK_ACK = 0x07 := by decide
  rw [hg, recv_frame env nbufs st st.id x 0x07 rest hcb h32 (fun _ => rfl)]
  rw [show (0x07 : Nat) % 256 = 0x07 by decide]
  exact gen_prov_recv_link_ack env nbufs st st.id (x % 256) rest hact

/-- C14: on an active provisioner link that has not yet seen a Link Ack, the
first Link Ack frame for the link id sets `ADV_LINK_ACK_RECVD` and changes no
other flag, releases the pending Link Open frame (slot 0 of `tx.buf` is empty
and the retransmission timer is cancelled; every slot is empty when the
occupied slots formed an initial segment of the array) and invokes
`link_opened` once; every later Link Ack frame leaves the state unchanged and
makes no call; on a device-role link a Link Ack frame changes nothing. -/
theorem link_ack_first_only (env : Env) (nbufs nbufs2 : Nat) (st : PbLink) (x x2 : Nat)
    (rest rest2 : List Nat) (hcb : st.cb ≠ none) (hact : st.flags.ADV_LINK_ACTIVE = true)
    (h32 : st.id < 2 ^ 32) :
    (st.flags.ADV_PROVISIONER = true → st.flags.ADV_LINK_ACK_RECVD = false →
      (bt_mesh_pb_adv_recv env nbufs st (be32 st.id ++ x :: GPC_CTL LINK_ACK :: rest)).2
        = [Effect.link_opened] ∧
      (bt_mesh_pb_adv_recv env nbufs st (be32 st.id ++ x :: GPC_CTL LINK_ACK :: rest)).1.flags
        = { st.flags with ADV_LINK_ACK_RECVD := true } ∧
      (bt_mesh_pb_adv_recv env nbufs st (be32 st.id ++ x :: GPC_CTL LINK_ACK :: rest)).1.id
        = st.id ∧
      (bt_mesh_pb_adv_recv env nbufs st
        (be32 st.id ++ x :: GPC_CTL LINK_ACK :: rest)).1.tx.buf.b0 = none ∧
      (bt_mesh_pb_adv_recv env nbufs st
        (be32 st.id ++ x :: GPC_CTL LINK_ACK :: rest)).1.tx.retransmit = false ∧
      (st.tx.buf.contiguous →
        (bt_mesh_pb_adv_recv env nbufs st
          (be32 st.id ++ x :: GPC_CTL LINK_ACK :: rest)).1.tx.buf = TxBuf.empty) ∧
      bt_mesh_pb_adv_recv env nbufs2
          (bt_mesh_pb_adv_recv env nbufs st (be32 st.id ++ x :: GPC_CTL LINK_ACK :: rest)).1
          (be32 st.id ++ x2 :: GPC_CTL LINK_ACK :: rest2)
        = ((bt_mesh_pb_adv_recv env nbufs st
            (be32 st.id ++ x :: GPC_CTL LINK_ACK :: rest)).1, [])) ∧
    (st.flags.ADV_PROVISIONER = true → st.flags.ADV_LINK_ACK_RECVD = true →
      bt_mesh_pb_adv_recv env nbufs st (be32 st.id ++ x :: GPC_CTL LINK_ACK :: rest)
        = (st, [])) ∧
    (st.flags.ADV_PROVISIONER = false →
      bt_mesh_pb_adv_recv env nbufs st (be32 st.id ++ x :: GPC_CTL LINK_ACK :: rest)
        = (st, [])) := by
  rw [recv_link_ack env nbufs st x rest hcb hact h32]
  refine ⟨fun hp hr => ?_, fun hp hr => ?_, fun hp => ?_⟩
  · have e : link_ack st
        = (prov_clear_tx { st with flags.ADV_LINK_ACK_RECVD := true }, [Effect.link_opened]) := by
      simp [link_ack, hp, hr]
    rw [e]
    refine ⟨rfl, rfl, rfl, ?_, ?_, fun hc => ?_, ?_⟩
    · show (prov_clear_tx _).tx.buf.b0 = none
      rw [prov_clear_tx_buf]
      exact free_segments_loop_b0 _
    · exact prov_clear_tx_tx_retransmit _
    · show (prov_clear_tx _).tx.buf = TxBuf.empty
      rw [prov_clear_tx_buf]
      exact free_segments_loop_contiguous _ hc
    · have h := recv_link_ack env nbufs2
        (prov_clear_tx { st with flags.ADV_LINK_ACK_RECVD := true }) x2 rest2
        (by simpa using hcb) (by simpa using hact) (by simpa using h32)
      simp only [prov_clear_tx_id] at h
      rw [h]
      simp [link_ack, hp]
  · simp [link_ack, hp, hr]
  · simp [link_ack, hp]

theorem link_ack_first_only_witness :
    sample_opening.cb ≠ none ∧ sample_opening.flags.ADV_LINK_ACTIVE = true ∧
    sample_opening.id < 2 ^ 32 ∧ sample_opening.flags.ADV_PROVISIONER = true ∧
    sample_opening.flags.ADV_LINK_ACK_RECVD = false ∧ sample_opening.tx.buf.b0 ≠ none ∧
    (bt_mesh_pb_adv_recv sample_env 0 sample_opening
      (be32 sample_opening.id ++ 0 :: GPC_CTL LINK_ACK :: [])).2 = [Effect.link_opened] :=
  ⟨by decide, by decide, by decide, by decide, by decide, by decide,
    ((link_ack_first_only sample_env 0 0 sample_opening 0 0 [] [] (by decide) (by decide)
      (by decide)).1 (by decide) (by decide)).1⟩

/-! ## The invalid flag -/

theorem stays_same (st : PbLink) (h : st.flags.ADV_LINK_INVALID = true) :
    stays_invalid (st, []) :=
  ⟨Or.inl h, by simp⟩

theorem stays_of (r : PbLink × List Effect) (h : r.1.flags.ADV_LINK_INVALID = true)
    (he : ∀ e ∈ r.2, is_recv e = false) : stays_invalid r :=
  ⟨Or.inl h, he⟩

theorem stays_reset (s : PbLink) (e : List Effect) (he : ∀ x ∈ e, is_recv x = false) :
    stays_invalid (reset_adv_link s, e) :=
  ⟨Or.inr ⟨s, rfl⟩, he⟩

theorem stays_append (e0 : List Effect) (r : PbLink × List Effect)
    (h0 : ∀ e ∈ e0, is_recv e = false) (h : stays_invalid r) :
    stays_invalid (r.1, e0 ++ r.2) := by
  refine ⟨h.1, fun e he => ?_⟩
  rcases List.mem_append.mp he with h1 | h1
  · exact h0 e h1
  · exact h.2 e h1

theorem prov_failed_stays (st : PbLink) (err : Nat) : stays_invalid (prov_failed st err) :=
  ⟨Or.inl rfl, by simp [prov_failed, is_recv]⟩

theorem gen_prov_ack_send_stays (nbufs : Nat) (st : PbLink) (x : Nat)
    (h : st.flags.ADV_LINK_INVALID = true) : stays_invalid (gen_prov_ack_send nbufs st x) := by
  refine stays_of _ (by rw [gen_prov_ack_send_invalid]; exact h) ?_
  rcases gen_prov_ack_send_effects nbufs st x with h1 | ⟨cb, h1⟩ <;> simp [h1, is_recv]

/-- On an invalidated link a completed reassembly whose FCS is right ends in
the error callback with `PROV_ERR_UNEXP_PDU`, after the Ack if one is sent. -/
theorem prov_msg_recv_unexp (env : Env) (nbufs : Nat) (st : PbLink)
    (h : st.flags.ADV_LINK_INVALID = true)
    (hf : env.bt_mesh_fcs_check st.rx.buf.bytes st.rx.fcs = true) :
    (prov_msg_recv env nbufs st).2
      = (gen_prov_ack_send nbufs { st with prot_timer := true } st.rx.id).2
          ++ [Effect.error PROV_ERR_UNEXP_PDU] := by
  have hi := gen_prov_ack_send_invalid nbufs { st with prot_timer := true } st.rx.id
  have hi2 : (gen_prov_ack_send nbufs { st with prot_timer := true } st.rx.id).1.flags.ADV_LINK_INVALID
      = true := by rw [hi]; exact h
  unfold prov_msg_recv
  simp only
  rw [if_neg (by simpa using hf), if_pos hi2]
  rfl

theorem prov_msg_recv_stays (env : Env) (nbufs : Nat) (st : PbLink)
    (h : st.flags.ADV_LINK_INVALID = true) : stays_invalid (prov_msg_recv env nbufs st) := by
  have hs := gen_prov_ack_send_stays nbufs { st with prot_timer := true } st.rx.id h
  have hi := gen_prov_ack_send_invalid nbufs { st with prot_timer := true } st.rx.id
  unfold prov_msg_recv
  simp only
  split
  · exact stays_same _ h
  · split
    · exact stays_append _ (prov_failed _ _) hs.2 (prov_failed_stays _ _)
    · rename_i hn
      rw [hi] at hn
      exact absurd h hn

theorem reassembly_step_stays (env : Env) (nbufs : Nat) (s : PbLink) (e0 : List Effect)
    (h : s.flags.ADV_LINK_INVALID = true) (h0 : ∀ e ∈ e0, is_recv e = false) :
    stays_invalid (if s.rx.seg = 0 then
        ((prov_msg_recv env nbufs s).1, e0 ++ (prov_msg_recv env nbufs s).2)
      else (s, e0)) := by
  split
  · exact stays_append e0 _ h0 (prov_msg_recv_stays env nbufs s h)
  · exact stays_of _ h h0

theorem gen_prov_cont_body_stays (env : Env) (nbufs : Nat) (st : PbLink) (seg : Nat)
    (buf : List Nat) (h : st.flags.ADV_LINK_INVALID = true) :
    stays_invalid (gen_prov_cont_body env nbufs st seg buf) := by
  unfold gen_prov_cont_body
  simp only
  split
  · exact prov_failed_stays _ _
  · split
    · exact stays_same _ h
    · split
      · exact stays_append _ (prov_failed _ _) (by simp [is_recv]) (prov_failed_stays _ _)
      · split
        · exact stays_append _ _ (by simp [is_recv]) (prov_msg_recv_stays env nbufs _ h)
        · exact stays_of _ h (by simp [is_recv])

theorem gen_prov_cont_stays (env : Env) (nbufs : Nat) (st : PbLink) (rx : ProvRx)
    (buf : List Nat) (h : st.flags.ADV_LINK_INVALID = true) :
    stays_invalid (gen_prov_cont env nbufs st rx buf) := by
  unfold gen_prov_cont
  simp only
  split
  · split
    · exact gen_prov_ack_send_stays nbufs st _ h
    · exact stays_same _ h
  · split
    · exact gen_prov_cont_body_stays env nbufs _ _ _ h
    · split
      · exact stays_same _ h
      · exact gen_prov_cont_body_stays env nbufs _ _ _ h

theorem gen_prov_start_body_stays (env : Env) (nbufs : Nat) (st : PbLink) (rx : ProvRx)
    (buf : List Nat) (h : st.flags.ADV_LINK_INVALID = true) :
    stays_invalid (gen_prov_start_body env nbufs st rx buf) := by
  unfold gen_prov_start_body
  simp only
  split
  · exact prov_failed_stays _ _
  · split
    · exact prov_failed_stays _ _
    · split
      · exact prov_failed_stays _ _
      · split
        · exact prov_failed_stays _ _
        · exact reassembly_step_stays env nbufs _ _ h (by simp [is_recv])

theorem gen_prov_start_stays (env : Env) (nbufs : Nat) (st : PbLink) (rx : ProvRx)
    (buf : List Nat) (h : st.flags.ADV_LINK_INVALID = true) :
    stays_invalid (gen_prov_start env nbufs st rx buf) := by
  unfold gen_prov_start
  split
  · split
    · split
      · exact gen_prov_ack_send_stays nbufs st _ h
      · exact stays_same _ h
    · split
      · exact stays_same _ h
      · exact gen_prov_start_body_stays env nbufs st rx buf h
  · split
    · exact stays_same _ h
    · exact gen_prov_start_body_stays env nbufs st rx buf h

theorem gen_prov_ack_stays (st : PbLink) (rx : ProvRx) (h : st.flags.ADV_LINK_INVALID = true) :
    stays_invalid (gen_prov_ack st rx) := by
  unfold gen_prov_ack
  split
  · exact stays_same _ h
  · split
    · have h2 : (if ¬ st.flags.ADV_LINK_CLOSING = true then prov_clear_tx st
          else st).flags.ADV_LINK_INVALID = true := by
        split
        · exact h
        · exact h
      simp only
      split
      · exact stays_of _ h2 (by simp [is_recv])
      · exact stays_same _ h2
    · exact stays_same _ h

theorem bearer_ctl_send_unacked_stays (st : PbLink) (b : Option AdvBuf)
    (h : st.flags.ADV_LINK_INVALID = true) :
    stays_invalid (bearer_ctl_send_unacked st b).2 := by
  unfold bearer_ctl_send_unacked
  cases b with
  | none => exact stays_same _ h
  | some _ => exact stays_of _ h (by simp [is_recv])

theorem prov_link_close_stays (nbufs : Nat) (st : PbLink) (status : Nat)
    (h : st.flags.ADV_LINK_INVALID = true) :
    stays_invalid (prov_link_close nbufs st status) := by
  unfold prov_link_close
  split
  · exact stays_same _ h
  · exact bearer_ctl_send_unacked_stays _ _ h

theorem link_open_tail_stays (s : PbLink) (b : Option AdvBuf)
    (h : s.flags.ADV_LINK_INVALID = true) :
    stays_invalid (if (bearer_ctl_send_unacked s b).1 ≠ 0 then
        (reset_adv_link (bearer_ctl_send_unacked s b).2.1, (bearer_ctl_send_unacked s b).2.2)
      else ((bearer_ctl_send_unacked s b).2.1,
        (bearer_ctl_send_unacked s b).2.2 ++ [Effect.link_opened])) := by
  have hs := bearer_ctl_send_unacked_stays s b h
  split
  · exact stays_reset _ _ hs.2
  · cases b with
    | none => exact stays_of _ h (by simp [bearer_ctl_send_unacked, is_recv])
    | some _ => exact stays_of _ h (by simp [bearer_ctl_send_unacked, is_recv])

theorem link_open_stays (env : Env) (nbufs : Nat) (st : PbLink) (rx : ProvRx)
    (buf : List Nat) (h : st.flags.ADV_LINK_INVALID = true) :
    stays_invalid (link_open env nbufs st rx buf) := by
  unfold link_open
  split
  · exact stays_same _ h
  · split
    · split
      · exact stays_same _ h
      · exact bearer_ctl_send_unacked_stays _ _ h
    · split
      · exact stays_same _ h
      · exact link_open_tail_stays _ _ h

theorem gen_prov_ctl_stays (env : Env) (nbufs : Nat) (st : PbLink) (rx : ProvRx)
    (buf : List Nat) (h : st.flags.ADV_LINK_INVALID = true) :
    stays_invalid (gen_prov_ctl env nbufs st rx buf) := by
  unfold gen_prov_ctl
  split
  · exact link_open_stays env nbufs st rx buf h
  · split
    · split
      · exact stays_same _ h
      · unfold link_ack
        split
        · split
          · exact stays_same _ h
          · exact stays_of _ h (by simp [is_recv])
        · exact stays_same _ h
    · split
      · split
        · exact stays_same _ h
        · unfold link_close
          split
          · exact stays_same _ h
          · exact stays_reset _ _ (by simp [is_recv])
      · split
        · exact stays_of _ h (by simp [is_recv])
        · exact stays_same _ h

theorem recv_stays (env : Env) (nbufs : Nat) (st : PbLink) (buf : List Nat)
    (h : st.flags.ADV_LINK_INVALID = true) :
    stays_invalid (bt_mesh_pb_adv_recv env nbufs st buf) := by
  unfold bt_mesh_pb_adv_recv
  split
  · exact stays_same _ h
  · split
    · exact stays_same _ h
    · simp only
      split
      · exact stays_same _ h
      · unfold gen_prov_recv
        split
        · exact stays_same _ h
        · split
          · exact stays_same _ h
          · unfold gen_prov_func
            split
            · exact gen_prov_start_stays env nbufs st _ _ h
            · exact gen_prov_ack_stays st _ h
            · exact gen_prov_cont_stays env nbufs st _ _ h
            · exact gen_prov_ctl_stays env nbufs st _ _ h

theorem buf_sent_stays (st : PbLink) (h : st.flags.ADV_LINK_INVALID = true) :
    stays_invalid (buf_sent st) := by
  unfold buf_sent
  split
  · exact stays_reset _ _ (by simp [is_recv])
  · exact stays_same _ h

theorem send_reliable_loop_no_recv (left i : Nat) (b : TxBuf) :
    ∀ e ∈ send_reliable_loop left i b, is_recv e = false := by
  induction left generalizing i with
  | zero => simp [send_reliable_loop]
  | succ n ih =>
    unfold send_reliable_loop
    split
    · simp
    · split
      · exact ih _
      · intro e he
        rcases List.mem_cons.mp he with h1 | h1
        · subst h1; rfl
        · exact ih _ e h1

theorem send_reliable_stays (st : PbLink) (h : st.flags.ADV_LINK_INVALID = true) :
    stays_invalid (send_reliable st) :=
  stays_of _ h (send_reliable_loop_no_recv _ _ _)

theorem prov_send_adv_loop_stays (nbufs left : Nat) (st : PbLink) (msg : List Nat)
    (h : st.flags.ADV_LINK_INVALID = true) :
    stays_invalid (prov_send_adv_loop nbufs left st msg).2 := by
  induction left generalizing st msg with
  | zero =>
    unfold prov_send_adv_loop
    split
    · exact stays_same _ h
    · exact send_reliable_stays st h
  | succ n ih =>
    unfold prov_send_adv_loop
    simp only
    split
    · split
      · exact stays_same _ h
      · split
        · exact stays_same _ h
        · exact ih _ _ h
    · exact send_reliable_stays st h

theorem prov_send_adv_stays (env : Env) (nbufs : Nat) (now : Int) (st : PbLink)
    (msg : List Nat) (cb : Option Nat) (cb_data : Nat) (h : st.flags.ADV_LINK_INVALID = true) :
    stays_invalid (prov_send_adv env nbufs now st msg cb cb_data).2 := by
  unfold prov_send_adv
  simp only
  split
  · exact stays_same _ h
  · exact prov_send_adv_loop_stays nbufs _ _ _ h

theorem bearer_ctl_send_stays (now : Int) (st : PbLink) (b : Option AdvBuf)
    (h : st.flags.ADV_LINK_INVALID = true) :
    stays_invalid (bearer_ctl_send now st b).2 := by
  unfold bearer_ctl_send
  cases b with
  | none => exact stays_same _ h
  | some _ => exact stays_of _ h (send_reliable_loop_no_recv _ _ _)

theorem prov_link_open_stays (nbufs : Nat) (now adv_err : Int) (rand : Nat) (st : PbLink)
    (uuid : List Nat) (cb : Option Nat) (cb_data : Nat)
    (h : st.flags.ADV_LINK_INVALID = true) :
    stays_invalid (prov_link_open nbufs now adv_err rand st uuid cb cb_data).2 := by
  unfold prov_link_open
  split
  · exact stays_same _ h
  · split
    · exact stays_same _ h
    · exact bearer_ctl_send_stays _ _ _ h

theorem prov_link_accept_stays (adv_err : Int) (st : PbLink) (cb : Option Nat) (cb_data : Nat)
    (h : st.flags.ADV_LINK_INVALID = true) :
    stays_invalid (prov_link_accept adv_err st cb cb_data).2 := by
  unfold prov_link_accept
  split
  · exact stays_same _ h
  · split
    · exact stays_same _ h
    · exact stays_of _ h (by simp [is_recv])

theorem step_stays (env : Env) (st : PbLink) (ev : Event)
    (h : st.flags.ADV_LINK_INVALID = true) : stays_invalid (step env st ev) := by
  cases ev with
  | recv nbufs buf => exact recv_stays env nbufs st buf h
  | ack_complete => exact stays_same _ h
  | buf_sent => exact buf_sent_stays st h
  | buf_start err =>
    show stays_invalid (buf_start st err)
    unfold buf_start
    split
    · exact buf_sent_stays st h
    · exact stays_same _ h
  | protocol_timeout nbufs =>
    show stays_invalid (protocol_timeout nbufs st)
    unfold protocol_timeout
    split
    · exact stays_same _ h
    · exact prov_link_close_stays _ _ _ h
  | prov_retransmit nbufs now =>
    show stays_invalid (prov_retransmit nbufs now st)
    unfold prov_retransmit
    split
    · exact stays_same _ h
    · split
      · exact prov_link_close_stays _ _ _ h
      · exact send_reliable_stays st h
  | send nbufs now msg cb cb_data => exact prov_send_adv_stays env nbufs now st msg cb cb_data h
  | link_open nbufs now adv_err rand uuid cb cb_data =>
    exact prov_link_open_stays nbufs now adv_err rand st uuid cb cb_data h
  | link_accept adv_err cb cb_data => exact prov_link_accept_stays adv_err st cb cb_data h
  | link_close nbufs status => exact prov_link_close_stays nbufs st status h
  | clear_tx => exact stays_same _ h
  | reset => exact stays_reset _ _ (by simp)

theorem run_cons_state (env : Env) (st : PbLink) (ev : Event) (evs : List Event) :
    (run env st (ev :: evs)).1 = (run env (step env st ev).1 evs).1 := rfl

theorem run_cons_effects (env : Env) (st : PbLink) (ev : Event) (evs : List Event) :
    (run env st (ev :: evs)).2 = (step env st ev).2 ++ (run env (step env st ev).1 evs).2 := rfl

theorem run_stays (env : Env) (evs : List Event) (st : PbLink)
    (h : st.flags.ADV_LINK_INVALID = true) :
    ((run env st evs).1.flags.ADV_LINK_INVALID = true ∧
      ∀ e ∈ (run env st evs).2, is_recv e = false) ∨
    ∃ k, k < evs.length ∧ ∃ s, (run env st (evs.take (k + 1))).1 = reset_adv_link s := by
  induction evs generalizing st with
  | nil => exact Or.inl ⟨h, by simp [run]⟩
  | cons ev evs ih =>
    obtain ⟨h1, h2⟩ := step_stays env st ev h
    rcases h1 with h1 | ⟨s, h1⟩
    · rcases ih (step env st ev).1 h1 with ⟨h3, h4⟩ | ⟨k, hk, s, h3⟩
      · left
        rw [run_cons_state, run_cons_effects]
        refine ⟨h3, fun e he => ?_⟩
        rcases List.mem_append.mp he with h5 | h5
        · exact h2 e h5
        · exact h4 e h5
      · right
        refine ⟨k + 1, by simp only [List.length_cons]; omega, s, ?_⟩
        rw [List.take_succ_cons, run_cons_state]
        exact h3
    · right
      refine ⟨0, by simp, s, ?_⟩
      rw [List.take_succ_cons, run_cons_state]
      simpa [run] using h1

/-- C15: once `ADV_LINK_INVALID` is set, every event (inbound frame, send,
transport callback, timer, open, accept, close request) leaves it set unless
the event ends in `reset_adv_link`, which clears every flag, and no event
invokes the `recv` callback; the same holds along every sequence of events up
to the first reset.  While the flag is set, a completed reassembly whose FCS is
right ends in the error callback with `PROV_ERR_UNEXP_PDU`, after the Ack if
one is sent, and the flag stays set. -/
theorem invalid_flag_sticky (env : Env) (st : PbLink) (nbufs : Nat)
    (h : st.flags.ADV_LINK_INVALID = true) :
    (∀ ev : Event,
      ((step env st ev).1.flags.ADV_LINK_INVALID = true ∨
        ∃ s, (step env st ev).1 = reset_adv_link s) ∧
      ∀ e ∈ (step env st ev).2, is_recv e = false) ∧
    (∀ evs : List Event,
      ((run env st evs).1.flags.ADV_LINK_INVALID = true ∧
        ∀ e ∈ (run env st evs).2, is_recv e = false) ∨
      ∃ k, k < evs.length ∧ ∃ s, (run env st (evs.take (k + 1))).1 = reset_adv_link s) ∧
    (∀ s : PbLink, (reset_adv_link s).flags = Flags.clear) ∧
    (env.bt_mesh_fcs_check st.rx.buf.bytes st.rx.fcs = true →
      (prov_msg_recv env nbufs st).2
        = (gen_prov_ack_send nbufs { st with prot_timer := true } st.rx.id).2
            ++ [Effect.error PROV_ERR_UNEXP_PDU] ∧
      (prov_msg_recv env nbufs st).1.flags.ADV_LINK_INVALID = true) :=
  ⟨fun ev => step_stays env st ev h, fun evs => run_stays env evs st h,
    reset_adv_link_flags,
    fun hf => ⟨prov_msg_recv_unexp env nbufs st h hf, by rw [prov_msg_recv_invalid]; exact h⟩⟩

set_option maxRecDepth 100000 in
theorem invalid_flag_sticky_witness :
    sample_invalid.flags.ADV_LINK_INVALID = true ∧
    (step sample_env sample_invalid (Event.recv 1 sample_start_frame)).2
      = [Effect.memcpy 0 1,
         Effect.adv_send ⟨2, [0x01, 0x02, 0x03, 0x04, 0x00, 0x01], false⟩ SendCb.ack_complete,
         Effect.error PROV_ERR_UNEXP_PDU] ∧
    (((step sample_env sample_invalid (Event.recv 1 sample_start_frame)).1.flags.ADV_LINK_INVALID
        = true ∨
        ∃ s, (step sample_env sample_invalid (Event.recv 1 sample_start_frame)).1
          = reset_adv_link s) ∧
      ∀ e ∈ (step sample_env sample_invalid (Event.recv 1 sample_start_frame)).2,
        is_recv e = false) :=
  ⟨by decide, by decide,
    (invalid_flag_sticky sample_env sample_invalid 1 (by decide)).1
      (Event.recv 1 sample_start_frame)⟩

/-! ## Order independence of reassembly -/

theorem gen_prov_ack_send_core (nbufs : Nat) (st : PbLink) (x : Nat) :
    same_core (gen_prov_ack_send nbufs st x).1 st := by
  unfold gen_prov_ack_send
  simp only
  split
  · exact ⟨rfl, rfl, rfl, rfl⟩
  · split
    · exact ⟨rfl, rfl, rfl, rfl⟩
    · split <;> exact ⟨rfl, rfl, rfl, rfl⟩

theorem same_core_trans (a b c : PbLink) (h1 : same_core a b) (h2 : same_core b c) :
    same_core a c :=
  ⟨h1.1.trans h2.1, h1.2.1.trans h2.2.1, h1.2.2.1.trans h2.2.2.1, h1.2.2.2.trans h2.2.2.2⟩

theorem prov_msg_recv_core (env : Env) (nbufs : Nat) (st : PbLink) :
    same_core (prov_msg_recv env nbufs st).1 st := by
  have h := gen_prov_ack_send_core nbufs { st with prot_timer := true } st.rx.id
  unfold prov_msg_recv
  simp only
  split
  · exact ⟨rfl, rfl, rfl, rfl⟩
  · split
    · exact same_core_trans _ _ _ ⟨rfl, rfl, rfl, rfl⟩ h
    · exact h

theorem reasm_inv_core (lid t n : Nat) (msg : List Nat) (r0 r1 r2 : Bool) (a b : PbLink)
    (h : same_core a b) (hb : reasm_inv lid t n msg r0 r1 r2 b) :
    reasm_inv lid t n msg r0 r1 r2 a := by
  obtain ⟨h1, h2, h3, h4⟩ := h
  unfold reasm_inv at hb ⊢
  rw [h1, h2, h3, h4]
  exact hb

/-- The last step of `gen_prov_start` and `gen_prov_cont`: processing the
message when no segment is missing changes nothing reassembly reads. -/
theorem reassembly_step_core (env : Env) (nbufs : Nat) (s : PbLink) (e0 : Effect) :
    same_core (if s.rx.seg = 0 then
        ((prov_msg_recv env nbufs s).1, e0 :: (prov_msg_recv env nbufs s).2)
      else (s, [e0])).1 s := by
  split
  · exact prov_msg_recv_core env nbufs s
  · exact ⟨rfl, rfl, rfl, rfl⟩

/-- A Start frame that passes the checks of `gen_prov_start` (lengths, and the
last segment index against the segments already recorded), whatever the mask
was. -/
theorem gen_prov_start_body_any (env : Env) (nbufs : Nat) (st : PbLink) (lid xid gpc : Nat)
    (len f : Nat) (d0 : List Nat)
    (h1 : 1 ≤ len) (h2 : len ≤ 65) (h3 : ¬ (START_LAST_SEG gpc > 0 ∧ len ≤ 20))
    (h4 : ¬ (find_msb_set ((st.rx.seg ^^^ 0xff) &&& SEG_NVAL) ≠ 0 ∧ st.rx.seg &&& BIT 0 ≠ 0 ∧
      find_msb_set ((st.rx.seg ^^^ 0xff) &&& SEG_NVAL) - 1 > START_LAST_SEG gpc)) :
    gen_prov_start_body env nbufs st ⟨lid, xid, gpc⟩ (be16 len ++ f :: d0) =
      if (rx_start st xid (START_LAST_SEG gpc) len (f % 256) d0).rx.seg = 0 then
        ((prov_msg_recv env nbufs (rx_start st xid (START_LAST_SEG gpc) len (f % 256) d0)).1,
          Effect.memcpy 0 d0.length ::
            (prov_msg_recv env nbufs (rx_start st xid (START_LAST_SEG gpc) len (f % 256) d0)).2)
      else (rx_start st xid (START_LAST_SEG gpc) len (f % 256) d0,
          [Effect.memcpy 0 d0.length]) := by
  unfold gen_prov_start_body
  simp only [pull_be16_be16 len _ (by omega : len < 2 ^ 16), pull_u8_cons]
  have c1 : ¬ len < 1 := by omega
  have c2 : ¬ len > RX_BUF_SIZE := by simp; omega
  simp only [c1, c2, h3, if_false, prov_clear_tx_rx]
  rw [if_neg h4]
  rfl

theorem memcpy_getD (d : List Nat) (off : Nat) (src : List Nat) (i : Nat) (hi : i < d.length) :
    (memcpy d off src).getD i 0 =
      if off ≤ i ∧ i < off + src.length then src.getD (i - off) 0 else d.getD i 0 := by
  rw [List.getD_eq_getElem _ _ (by rw [memcpy_length]; exact hi), memcpy_getElem]

theorem getD_take_drop (msg : List Nat) (a l j : Nat) (hj : j < l) :
    ((msg.drop a).take l).getD j 0 = msg.getD (a + j) 0 := by
  simp [List.getD_eq_getElem?_getD, List.getElem?_take, hj, List.getElem?_drop]

theorem getD_take (msg : List Nat) (l j : Nat) (hj : j < l) :
    (msg.take l).getD j 0 = msg.getD j 0 := by
  simp [List.getD_eq_getElem?_getD, List.getElem?_take, hj]

/-- The mask after a Continuation that was still missing. -/
theorem seg_mask_cont1 (n : Nat) (r0 r2 : Bool) (hn : n ≤ 2) (h1 : 1 ≤ n)
    (h2 : r2 = true → 2 ≤ n) (hs : (r0 || r2) = true) :
    clear_bit (seg_mask n r0 false r2) 1 % 256 = seg_mask n r0 true r2 ∧
    seg_mask n r0 false r2 &&& BIT 1 ≠ 0 ∧ seg_mask n r0 false r2 ≠ 0 := by
  interval_cases n <;> cases r0 <;> cases r2 <;> simp at h2 hs <;> decide

theorem seg_mask_cont2 (r0 r1 : Bool) (hs : (r0 || r1) = true) :
    clear_bit (seg_mask 2 r0 r1 false) 2 % 256 = seg_mask 2 r0 r1 true ∧
    seg_mask 2 r0 r1 false &&& BIT 2 ≠ 0 ∧ seg_mask 2 r0 r1 false ≠ 0 := by
  cases r0 <;> cases r1 <;> simp at hs <;> decide

/-- The mask of a Continuation already taken in: its bit is clear, or the
whole mask is 0. -/
theorem seg_mask_dup1 (n : Nat) (r0 r2 : Bool) (hn : n ≤ 2) :
    seg_mask n r0 true r2 &&& BIT 1 = 0 := by
  interval_cases n <;> cases r0 <;> cases r2 <;> decide

theorem seg_mask_dup2 (n : Nat) (r0 r1 : Bool) (hn : n ≤ 2) :
    seg_mask n r0 r1 true &&& BIT 2 = 0 := by
  interval_cases n <;> cases r0 <;> cases r1 <;> decide

theorem seg_mask_dup0 (n : Nat) (r1 r2 : Bool) (hn : n ≤ 2) :
    seg_mask n true r1 r2 &&& BIT 0 = 0 := by
  interval_cases n <;> cases r1 <;> cases r2 <;> decide

set_option maxRecDepth 100000 in
/-- The mask after the Start frame, and the check of its last segment index
against the Continuations recorded before it. -/
theorem seg_mask_start (n : Nat) (r1 r2 : Bool) (hn : n ≤ 2) (h1 : r1 = true → 1 ≤ n)
    (h2 : r2 = true → 2 ≤ n) :
    clear_bit (((if seg_mask n false r1 r2 ≠ 0 then seg_mask n false r1 r2 else SEG_NVAL)
      &&& ((1 <<< (n + 1)) - 1)) % 256) 0 % 256 = seg_mask n true r1 r2 ∧
    ¬ (find_msb_set ((seg_mask n false r1 r2 ^^^ 0xff) &&& SEG_NVAL) ≠ 0 ∧
      seg_mask n false r1 r2 &&& BIT 0 ≠ 0 ∧
      find_msb_set ((seg_mask n false r1 r2 ^^^ 0xff) &&& SEG_NVAL) - 1 > n) ∧
    ((r1 || r2) = true → seg_mask n false r1 r2 ≠ 0 ∧ seg_mask n false r1 r2 &&& BIT 0 ≠ 0) := by
  interval_cases n <;> cases r1 <;> cases r2 <;> simp at h1 h2 <;> decide

theorem seg_mask_fresh (n : Nat) :
    clear_bit SEG_NVAL 1 % 256 = seg_mask n false true false ∧
    clear_bit SEG_NVAL 2 % 256 = seg_mask n false false true ∧
    SEG_NVAL &&& BIT 1 ≠ 0 ∧ SEG_NVAL &&& BIT 2 ≠ 0 := by
  have e1 : seg_mask n false true false = 0xfd := by simp [seg_mask]
  have e2 : seg_mask n false false true = 0xfb := by simp [seg_mask]
  rw [e1, e2]
  exact ⟨by decide, by decide, by decide, by decide⟩

/-- The mask is 0 with a segment taken in exactly when the Start and every
Continuation up to `n` have been. -/
theorem seg_mask_zero (n : Nat) (r0 r1 r2 : Bool) (hn : n ≤ 2) (h1 : r1 = true → 1 ≤ n)
    (h2 : r2 = true → 2 ≤ n) (hs : (r0 || r1 || r2) = true) :
    seg_mask n r0 r1 r2 = 0 ↔ (r0 = true ∧ (1 ≤ n → r1 = true) ∧ (2 ≤ n → r2 = true)) := by
  interval_cases n <;> cases r0 <;> cases r1 <;> cases r2 <;> simp at h1 h2 hs <;> decide

theorem gpc_start_small (n : Nat) (hn : n ≤ 2) :
    GPCF (GPC_START n % 256) = 0 ∧ START_LAST_SEG (GPC_START n % 256) = n := by
  interval_cases n <;> decide

theorem gpc_cont_small (k : Nat) (hk : k ≤ 2) :
    GPCF (GPC_CONT k % 256) = 2 ∧ CONT_SEG_INDEX (GPC_CONT k % 256) = k := by
  interval_cases k <;> decide

/-- A Start frame for the transaction already complete, or whose Start has been
taken in already, changes nothing reassembly reads. -/
theorem gen_prov_recv_start_dup (env : Env) (nbufs : Nat) (st : PbLink) (lid xid gpc : Nat)
    (buf : List Nat) (hg : GPCF gpc = 0) (hlen : 3 ≤ buf.length)
    (hact : st.flags.ADV_LINK_ACTIVE = true) (hx : xid = st.rx.id)
    (hs : st.rx.seg = 0 ∨ st.rx.seg &&& BIT 0 = 0) :
    same_core (gen_prov_recv env nbufs st ⟨lid, xid, gpc⟩ buf).1 st := by
  have hl : ¬ buf.length < 3 := by omega
  have h1 : gen_prov_recv env nbufs st ⟨lid, xid, gpc⟩ buf
      = gen_prov_start env nbufs st ⟨lid, xid, gpc⟩ buf := by
    simp [gen_prov_recv, gen_prov_func, hg, gen_prov_min_len, gen_prov_require_link, hact, hl]
  rw [h1]
  unfold gen_prov_start
  rw [if_pos hx]
  split
  · split
    · exact gen_prov_ack_send_core nbufs st _
    · exact ⟨rfl, rfl, rfl, rfl⟩
  · rename_i h0
    rcases hs with hs | hs
    · exact absurd hs h0
    · rw [if_pos hs]
      exact ⟨rfl, rfl, rfl, rfl⟩

/-- A Start frame for the transaction in progress whose Start is still
missing. -/
theorem gen_prov_recv_start_lost (env : Env) (nbufs : Nat) (st : PbLink) (lid xid gpc : Nat)
    (buf : List Nat) (hg : GPCF gpc = 0) (hlen : 3 ≤ buf.length)
    (hact : st.flags.ADV_LINK_ACTIVE = true) (hx : xid = st.rx.id)
    (hs : st.rx.seg ≠ 0) (hb : st.rx.seg &&& BIT 0 ≠ 0) :
    gen_prov_recv env nbufs st ⟨lid, xid, gpc⟩ buf
      = gen_prov_start_body env nbufs st ⟨lid, xid, gpc⟩ buf := by
  have hl : ¬ buf.length < 3 := by omega
  have h1 : gen_prov_recv env nbufs st ⟨lid, xid, gpc⟩ buf
      = gen_prov_start env nbufs st ⟨lid, xid, gpc⟩ buf := by
    simp [gen_prov_recv, gen_prov_func, hg, gen_prov_min_len, gen_prov_require_link, hact, hl]
  rw [h1]
  unfold gen_prov_start
  rw [if_pos hx, if_neg hs, if_neg hb]

/-- A Continuation frame for the transaction already complete changes nothing
reassembly reads. -/
theorem gen_prov_recv_cont_done (env : Env) (nbufs : Nat) (st : PbLink) (lid xid gpc : Nat)
    (buf : List Nat) (hg : GPCF gpc = 2) (hact : st.flags.ADV_LINK_ACTIVE = true)
    (hx : st.rx.id = xid) (hs : st.rx.seg = 0) :
    same_core (gen_prov_recv env nbufs st ⟨lid, xid, gpc⟩ buf).1 st := by
  have h1 : gen_prov_recv env nbufs st ⟨lid, xid, gpc⟩ buf
      = gen_prov_cont env nbufs st ⟨lid, xid, gpc⟩ buf := by
    simp [gen_prov_recv, gen_prov_func, hg, gen_prov_min_len, gen_prov_require_link, hact]
  rw [h1]
  unfold gen_prov_cont
  simp only
  rw [if_pos ⟨hs, hx⟩]
  split
  · exact gen_prov_ack_send_core nbufs st _
  · exact ⟨rfl, rfl, rfl, rfl⟩

/-- A Continuation frame that opens the next transaction: the Start was lost. -/
theorem gen_prov_recv_cont_fresh (env : Env) (nbufs : Nat) (st : PbLink) (lid xid gpc : Nat)
    (buf : List Nat) (hg : GPCF gpc = 2) (hact : st.flags.ADV_LINK_ACTIVE = true)
    (hx : next_transaction_id st.rx.id = xid) (hs : st.rx.seg = 0) :
    gen_prov_recv env nbufs st ⟨lid, xid, gpc⟩ buf
      = gen_prov_cont_body env nbufs (rx_lost_start st xid) (CONT_SEG_INDEX gpc) buf := by
  have hne : ¬ st.rx.id = xid := by
    rw [← hx]; exact fun h => next_transaction_id_ne _ h.symm
  have h1 : gen_prov_recv env nbufs st ⟨lid, xid, gpc⟩ buf
      = gen_prov_cont env nbufs st ⟨lid, xid, gpc⟩ buf := by
    simp [gen_prov_recv, gen_prov_func, hg, gen_prov_min_len, gen_prov_require_link, hact]
  rw [h1]
  unfold gen_prov_cont
  simp only
  rw [if_neg (fun h => hne h.2), if_pos ⟨hs, hx⟩]
  rfl

/-- A Continuation frame already taken in is ignored. -/
theorem gen_prov_cont_body_dup (env : Env) (nbufs : Nat) (st : PbLink) (seg : Nat)
    (buf : List Nat) (h1 : seg ≤ st.rx.last_seg) (h2 : st.rx.seg &&& BIT seg = 0) :
    gen_prov_cont_body env nbufs st seg buf = (st, []) := by
  unfold gen_prov_cont_body
  have c1 : ¬ seg > st.rx.last_seg := by omega
  rw [if_neg c1, if_pos h2]

theorem cont_copy_core (env : Env) (nbufs : Nat) (st : PbLink) (seg : Nat) (buf : List Nat)
    (h1 : seg ≤ st.rx.last_seg) (h2 : st.rx.seg &&& BIT seg ≠ 0)
    (h3 : ¬ (seg = st.rx.last_seg ∧ (rx_continued st seg buf).rx.seg &&& BIT 0 = 0 ∧
      expect_len (rx_continued st seg buf) ≠ buf.length)) :
    same_core (gen_prov_cont_body env nbufs st seg buf).1 (rx_continued st seg buf) := by
  rw [gen_prov_cont_body_copy env nbufs st seg buf h1 h2 h3]
  exact reassembly_step_core env nbufs _ _

theorem start_copy_core (env : Env) (nbufs : Nat) (st : PbLink) (lid xid gpc : Nat)
    (len f : Nat) (d0 : List Nat)
    (h1 : 1 ≤ len) (h2 : len ≤ 65) (h3 : ¬ (START_LAST_SEG gpc > 0 ∧ len ≤ 20))
    (h4 : ¬ (find_msb_set ((st.rx.seg ^^^ 0xff) &&& SEG_NVAL) ≠ 0 ∧ st.rx.seg &&& BIT 0 ≠ 0 ∧
      find_msb_set ((st.rx.seg ^^^ 0xff) &&& SEG_NVAL) - 1 > START_LAST_SEG gpc)) :
    same_core (gen_prov_start_body env nbufs st ⟨lid, xid, gpc⟩ (be16 len ++ f :: d0)).1
      (rx_start st xid (START_LAST_SEG gpc) len (f % 256) d0) := by
  rw [gen_prov_start_body_any env nbufs st lid xid gpc len f d0 h1 h2 h3 h4]
  exact reassembly_step_core env nbufs _ _

/-- The receive transaction after the Start frame has been copied in. -/
theorem reasm_inv_start (lid t n fcs : Nat) (msg : List Nat) (r1 r2 : Bool) (s : PbLink)
    (hwf : well_formed n msg.length) (h : reasm_inv lid t n msg false r1 r2 s) :
    reasm_inv lid t n msg true r1 r2 (rx_start s t n msg.length fcs (msg.take 20)) := by
  obtain ⟨hid, hcb, hact, hlen, h1, h2, hseg, _, _, _, hd⟩ := h
  simp only [RX_BUF_SIZE] at hlen
  unfold reasm_inv
  refine ⟨hid, hcb, hact, ?_, h1, h2, ?_, ?_, ?_, ?_, ?_⟩
  · show (memcpy s.rx.buf.data 0 (msg.take 20)).length = RX_BUF_SIZE
    rw [memcpy_length]; exact hlen
  · show clear_bit (((if s.rx.seg ≠ 0 then s.rx.seg else SEG_NVAL)
        &&& ((1 <<< (n + 1)) - 1)) % 256) 0 % 256 = seg_mask n true r1 r2
    rw [hseg]
    exact (seg_mask_start n r1 r2 hwf.1 h1 h2).1
  · simp only [Bool.true_or, if_true]
    rfl
  · intro _
    exact ⟨rfl, rfl⟩
  · intro hf
    exact absurd hf (by decide)
  · intro i hi hc
    show (memcpy s.rx.buf.data 0 (msg.take 20)).getD i 0 = msg.getD i 0
    have hL := hwf.2.2.1
    have e : (memcpy s.rx.buf.data 0 (msg.take 20)).getD i 0 = _ :=
      memcpy_getD s.rx.buf.data 0 (msg.take 20) i (by omega)
    rw [e]
    by_cases h20 : i < 20
    · rw [if_pos ⟨by omega, by rw [List.length_take]; omega⟩]
      exact getD_take msg 20 _ (by omega)
    · rw [if_neg (by rw [List.length_take]; omega)]
      apply hd i hi
      rcases hc with hc | hc | hc
      · exact absurd hc.1 h20
      · exact Or.inr (Or.inl hc)
      · exact Or.inr (Or.inr hc)

/-- The receive transaction after Continuation 1 has been copied in. -/
theorem reasm_inv_cont1 (lid t n : Nat) (msg : List Nat) (r0 r2 : Bool) (s : PbLink)
    (hwf : well_formed n msg.length)
    (hid : s.id = lid) (hcb : s.cb ≠ none) (hact : s.flags.ADV_LINK_ACTIVE = true)
    (hlen : s.rx.buf.data.length = 65) (h1n : 1 ≤ n) (h2 : r2 = true → 2 ≤ n)
    (hseg : clear_bit s.rx.seg 1 % 256 = seg_mask n r0 true r2) (hx : s.rx.id = t)
    (hl0 : r0 = true → s.rx.last_seg = n ∧ s.rx.buf.len = msg.length)
    (hl1 : r0 = false → s.rx.last_seg = SEG_NVAL)
    (hd : ∀ i, i < msg.length → ((i < 20 ∧ r0 = true) ∨ (43 ≤ i ∧ r2 = true)) →
      s.rx.buf.data.getD i 0 = msg.getD i 0) :
    reasm_inv lid t n msg r0 true r2 (rx_continued s 1 ((msg.drop 20).take 23)) := by
  unfold reasm_inv
  refine ⟨hid, hcb, hact, ?_, fun _ => h1n, h2, hseg, ?_, hl0, fun h => Or.inl (hl1 h), ?_⟩
  · show (memcpy s.rx.buf.data (XACT_SEG_DATA 1) _).length = RX_BUF_SIZE
    rw [memcpy_length]; exact hlen
  · simp only [Bool.or_true, Bool.true_or, if_true]
    exact hx
  · intro i hi hc
    show (memcpy s.rx.buf.data (XACT_SEG_DATA 1) ((msg.drop 20).take 23)).getD i 0
      = msg.getD i 0
    have hL := hwf.2.2.1
    rw [xact_seg_data_1, memcpy_getD _ _ _ _ (by omega)]
    by_cases hr : 20 ≤ i ∧ i < 43
    · rw [if_pos ⟨hr.1, by rw [List.length_take, List.length_drop]; omega⟩]
      rw [getD_take_drop msg 20 23 (i - 20) (by omega)]
      congr 1
      omega
    · rw [if_neg (by rw [List.length_take, List.length_drop]; omega)]
      apply hd i hi
      rcases hc with hc | hc | hc
      · exact Or.inl hc
      · exact absurd ⟨hc.1, hc.2.1⟩ hr
      · exact Or.inr hc

/-- The receive transaction after Continuation 2 has been copied in. -/
theorem reasm_inv_cont2 (lid t : Nat) (msg : List Nat) (r0 r1 : Bool) (s : PbLink)
    (hwf : well_formed 2 msg.length)
    (hid : s.id = lid) (hcb : s.cb ≠ none) (hact : s.flags.ADV_LINK_ACTIVE = true)
    (hlen : s.rx.buf.data.length = 65)
    (hseg : clear_bit s.rx.seg 2 % 256 = seg_mask 2 r0 r1 true) (hx : s.rx.id = t)
    (hl0 : r0 = true → s.rx.last_seg = 2 ∧ s.rx.buf.len = msg.length)
    (hl1 : r0 = false → s.rx.last_seg = SEG_NVAL)
    (hd : ∀ i, i < msg.length → ((i < 20 ∧ r0 = true) ∨ (20 ≤ i ∧ i < 43 ∧ r1 = true)) →
      s.rx.buf.data.getD i 0 = msg.getD i 0) :
    reasm_inv lid t 2 msg r0 r1 true (rx_continued s 2 ((msg.drop 43).take 23)) := by
  unfold reasm_inv
  refine ⟨hid, hcb, hact, ?_, fun _ => by omega, fun _ => Nat.le_refl 2, hseg, ?_, hl0,
    fun h => Or.inl (hl1 h), ?_⟩
  · show (memcpy s.rx.buf.data (XACT_SEG_DATA 2) _).length = RX_BUF_SIZE
    rw [memcpy_length]; exact hlen
  · simp only [Bool.or_true, if_true]
    exact hx
  · intro i hi hc
    show (memcpy s.rx.buf.data (XACT_SEG_DATA 2) ((msg.drop 43).take 23)).getD i 0
      = msg.getD i 0
    have hL := hwf.2.2.1
    rw [xact_seg_data_2, memcpy_getD _ _ _ _ (by omega)]
    by_cases hr : 43 ≤ i
    · rw [if_pos ⟨hr, by rw [List.length_take, List.length_drop]; omega⟩]
      rw [getD_take_drop msg 43 23 (i - 43) (by omega)]
      congr 1
      omega
    · rw [if_neg (by rw [List.length_take, List.length_drop]; omega)]
      apply hd i hi
      rcases hc with hc | hc | hc
      · exact Or.inl hc
      · exact Or.inr hc
      · exact absurd hc.1 hr

/-- Taking in the Start frame of the set. -/
theorem recv_step0 (env : Env) (nbufs lid t n fcs : Nat) (msg : List Nat) (r0 r1 r2 : Bool)
    (s : PbLink) (hwf : well_formed n msg.length) (h32 : lid < 2 ^ 32) (ht : t < 256)
    (h : reasm_inv lid t n msg r0 r1 r2 s) :
    reasm_inv lid t n msg true r1 r2
      (bt_mesh_pb_adv_recv env nbufs s (seg_frame lid t n fcs msg 0)).1 := by
  have hinv := h
  obtain ⟨hid, hcb, hact, hlen, h1, h2, hseg, hx, hl0, hl1, hd⟩ := h
  obtain ⟨hn, hL1, hL2, hw0, hw1⟩ := hwf
  obtain ⟨hg, hls⟩ := gpc_start_small n hn
  have hb3 : 3 ≤ (be16 msg.length ++ fcs :: msg.take 20).length := by simp [be16]
  show reasm_inv lid t n msg true r1 r2 (bt_mesh_pb_adv_recv env nbufs s
    (be32 lid ++ t :: GPC_START n :: (be16 msg.length ++ fcs :: msg.take 20))).1
  rw [recv_frame env nbufs s lid t (GPC_START n) _ hcb h32 (fun _ => hid), Nat.mod_eq_of_lt ht]
  cases r0 with
  | true =>
    simp only [Bool.true_or, if_true] at hx
    exact reasm_inv_core _ _ _ _ _ _ _ _ _
      (gen_prov_recv_start_dup env nbufs s lid t _ _ hg hb3 hact hx.symm
        (Or.inr (by rw [hseg]; exact seg_mask_dup0 n r1 r2 hn))) hinv
  | false =>
    have hstart := seg_mask_start n r1 r2 hn h1 h2
    have hbody : gen_prov_recv env nbufs s ⟨lid, t, GPC_START n % 256⟩
        (be16 msg.length ++ fcs :: msg.take 20)
        = gen_prov_start_body env nbufs s ⟨lid, t, GPC_START n % 256⟩
            (be16 msg.length ++ fcs :: msg.take 20) := by
      by_cases hsome : (r1 || r2) = true
      · simp only [Bool.false_or, hsome, if_true] at hx
        have hm := hstart.2.2 hsome
        rw [← hseg] at hm
        exact gen_prov_recv_start_lost env nbufs s lid t _ _ hg hb3 hact hx.symm hm.1 hm.2
      · simp only [Bool.false_or, hsome, if_false] at hx
        exact gen_prov_recv_start env nbufs s lid t _ _ hg hb3 hact hx.symm
    rw [hbody]
    have hc := start_copy_core env nbufs s lid t (GPC_START n % 256) msg.length fcs (msg.take 20)
      hL1 hL2 (by rw [hls]; omega) (by rw [hls, hseg]; exact hstart.2.1)
    rw [hls] at hc
    exact reasm_inv_core _ _ _ _ _ _ _ _ _ hc
      (reasm_inv_start lid t n (fcs % 256) msg r1 r2 s ⟨hn, hL1, hL2, hw0, hw1⟩ hinv)

/-- Taking in Continuation 1 of the set. -/
theorem recv_step1 (env : Env) (nbufs lid t n fcs : Nat) (msg : List Nat) (r0 r1 r2 : Bool)
    (s : PbLink) (hwf : well_formed n msg.length) (h32 : lid < 2 ^ 32) (ht : t < 256)
    (h1n : 1 ≤ n) (h : reasm_inv lid t n msg r0 r1 r2 s) :
    reasm_inv lid t n msg r0 true r2
      (bt_mesh_pb_adv_recv env nbufs s (seg_frame lid t n fcs msg 1)).1 := by
  have hinv := h
  obtain ⟨hid, hcb, hact, hlen, h1, h2, hseg, hx, hl0, hl1, hd⟩ := h
  have hwf2 := hwf
  obtain ⟨hn, hL1, hL2, hw0, hw1⟩ := hwf
  obtain ⟨hg, hci⟩ := gpc_cont_small 1 (by omega)
  simp only [RX_BUF_SIZE] at hlen
  show reasm_inv lid t n msg r0 true r2 (bt_mesh_pb_adv_recv env nbufs s
    (be32 lid ++ t :: GPC_CONT 1 :: (msg.drop 20).take 23)).1
  rw [recv_frame env nbufs s lid t (GPC_CONT 1) _ hcb h32 (fun _ => hid), Nat.mod_eq_of_lt ht]
  by_cases hsome : (r0 || r1 || r2) = true
  · rw [if_pos hsome] at hx
    cases r1 with
    | true =>
      by_cases hz : s.rx.seg = 0
      · exact reasm_inv_core _ _ _ _ _ _ _ _ _
          (gen_prov_recv_cont_done env nbufs s lid t _ _ hg hact hx hz) hinv
      · rw [gen_prov_recv_cont env nbufs s lid t _ _ hg hact hx.symm hz, hci]
        have hls : 1 ≤ s.rx.last_seg := by
          cases r0 with
          | true => rw [(hl0 rfl).1]; exact h1n
          | false =>
            rcases hl1 rfl with hl | hl
            · rw [hl]; decide
            · simp at hl
        rw [gen_prov_cont_body_dup env nbufs s 1 _ hls
          (by rw [hseg]; exact seg_mask_dup1 n r0 r2 hn)]
        exact hinv
    | false =>
      have hs2 : (r0 || r2) = true := by simpa using hsome
      obtain ⟨m1, m2, m3⟩ := seg_mask_cont1 n r0 r2 hn h1n h2 hs2
      rw [← hseg] at m1 m2 m3
      rw [gen_prov_recv_cont env nbufs s lid t _ _ hg hact hx.symm m3, hci]
      have hl1b : r0 = false → s.rx.last_seg = SEG_NVAL := by
        intro hr
        rcases hl1 hr with hl | hl
        · exact hl
        · rw [hr] at hs2
          simp only [Bool.false_or] at hs2 hl
          rw [hs2] at hl
          exact absurd hl (by decide)
      have hls : 1 ≤ s.rx.last_seg := by
        cases r0 with
        | true => rw [(hl0 rfl).1]; exact h1n
        | false => rw [hl1b rfl]; decide
      have h3 : ¬ (1 = s.rx.last_seg ∧
          (rx_continued s 1 ((msg.drop 20).take 23)).rx.seg &&& BIT 0 = 0 ∧
          expect_len (rx_continued s 1 ((msg.drop 20).take 23))
            ≠ ((msg.drop 20).take 23).length) := by
        intro hh
        cases r0 with
        | true =>
          obtain ⟨e1, e2⟩ := hl0 rfl
          have en : n = 1 := by rw [← e1]; exact hh.1.symm
          have el : expect_len (rx_continued s 1 ((msg.drop 20).take 23))
              = ((msg.drop 20).take 23).length := by
            simp only [expect_len, rx_continued, e1, e2, en, List.length_take, List.length_drop]
            have := hw1 h1n
            omega
          exact hh.2.2 el
        | false =>
          rw [hl1b rfl] at hh
          exact absurd hh.1 (by decide)
      exact reasm_inv_core _ _ _ _ _ _ _ _ _
        (cont_copy_core env nbufs s 1 _ hls m2 h3)
        (reasm_inv_cont1 lid t n msg r0 r2 s hwf2 hid hcb hact hlen h1n h2 m1 hx hl0 hl1b
          (fun i hi hc => hd i hi (by
            rcases hc with hc | hc
            · exact Or.inl hc
            · exact Or.inr (Or.inr hc))))
  · have hnone : r0 = false ∧ r1 = false ∧ r2 = false := by
      cases r0 <;> cases r1 <;> cases r2 <;> first | exact ⟨rfl, rfl, rfl⟩ | simp at hsome
    obtain ⟨rfl, rfl, rfl⟩ := hnone
    rw [if_neg hsome] at hx
    have hz : s.rx.seg = 0 := by rw [hseg]; simp [seg_mask]
    rw [gen_prov_recv_cont_fresh env nbufs s lid t _ _ hg hact hx hz, hci]
    have hf := seg_mask_fresh n
    exact reasm_inv_core _ _ _ _ _ _ _ _ _
      (cont_copy_core env nbufs (rx_lost_start s t) 1 _
        (show 1 ≤ SEG_NVAL by decide) hf.2.2.1
        (fun hh => absurd hh.1 (show ¬ (1 = SEG_NVAL) by decide)))
      (reasm_inv_cont1 lid t n msg false false (rx_lost_start s t) hwf2 hid hcb hact hlen h1n h2
        hf.1 rfl (fun hr => absurd hr (by decide)) (fun _ => rfl)
        (fun i hi hc => by
          rcases hc with hc | hc
          · exact absurd hc.2 (by decide)
          · exact absurd hc.2 (by decide)))

/-- Taking in Continuation 2 of the set. -/
theorem recv_step2 (env : Env) (nbufs lid t fcs : Nat) (msg : List Nat) (r0 r1 r2 : Bool)
    (s : PbLink) (hwf : well_formed 2 msg.length) (h32 : lid < 2 ^ 32) (ht : t < 256)
    (h : reasm_inv lid t 2 msg r0 r1 r2 s) :
    reasm_inv lid t 2 msg r0 r1 true
      (bt_mesh_pb_adv_recv env nbufs s (seg_frame lid t 2 fcs msg 2)).1 := by
  have hinv := h
  obtain ⟨hid, hcb, hact, hlen, h1, h2, hseg, hx, hl0, hl1, hd⟩ := h
  have hwf2 := hwf
  obtain ⟨hn, hL1, hL2, hw0, hw1⟩ := hwf
  obtain ⟨hg, hci⟩ := gpc_cont_small 2 (by omega)
  simp only [RX_BUF_SIZE] at hlen
  show reasm_inv lid t 2 msg r0 r1 true (bt_mesh_pb_adv_recv env nbufs s
    (be32 lid ++ t :: GPC_CONT 2 :: (msg.drop 43).take 23)).1
  rw [recv_frame env nbufs s lid t (GPC_CONT 2) _ hcb h32 (fun _ => hid), Nat.mod_eq_of_lt ht]
  by_cases hsome : (r0 || r1 || r2) = true
  · rw [if_pos hsome] at hx
    cases r2 with
    | true =>
      by_cases hz : s.rx.seg = 0
      · exact reasm_inv_core _ _ _ _ _ _ _ _ _
          (gen_prov_recv_cont_done env nbufs s lid t _ _ hg hact hx hz) hinv
      · rw [gen_prov_recv_cont env nbufs s lid t _ _ hg hact hx.symm hz, hci]
        have hls : 2 ≤ s.rx.last_seg := by
          cases r0 with
          | true => rw [(hl0 rfl).1]
          | false =>
            rcases hl1 rfl with hl | hl
            · rw [hl]; decide
            · simp at hl
        rw [gen_prov_cont_body_dup env nbufs s 2 _ hls
          (by rw [hseg]; exact seg_mask_dup2 2 r0 r1 hn)]
        exact hinv
    | false =>
      have hs2 : (r0 || r1) = true := by simpa using hsome
      obtain ⟨m1, m2, m3⟩ := seg_mask_cont2 r0 r1 hs2
      rw [← hseg] at m1 m2 m3
      rw [gen_prov_recv_cont env nbufs s lid t _ _ hg hact hx.symm m3, hci]
      have hl1b : r0 = false → s.rx.last_seg = SEG_NVAL := by
        intro hr
        rcases hl1 hr with hl | hl
        · exact hl
        · rw [hr] at hs2
          simp only [Bool.false_or] at hs2
          simp only [Bool.or_false] at hl
          rw [hs2] at hl
          exact absurd hl (by decide)
      have hls : 2 ≤ s.rx.last_seg := by
        cases r0 with
        | true => rw [(hl0 rfl).1]
        | false => rw [hl1b rfl]; decide
      have h3 : ¬ (2 = s.rx.last_seg ∧
          (rx_continued s 2 ((msg.drop 43).take 23)).rx.seg &&& BIT 0 = 0 ∧
          expect_len (rx_continued s 2 ((msg.drop 43).take 23))
            ≠ ((msg.drop 43).take 23).length) := by
        intro hh
        cases r0 with
        | true =>
          obtain ⟨e1, e2⟩ := hl0 rfl
          have el : expect_len (rx_continued s 2 ((msg.drop 43).take 23))
              = ((msg.drop 43).take 23).length := by
            simp only [expect_len, rx_continued, e1, e2, List.length_take, List.length_drop]
            have := hw1 (by omega)
            omega
          exact hh.2.2 el
        | false =>
          rw [hl1b rfl] at hh
          exact absurd hh.1 (by decide)
      exact reasm_inv_core _ _ _ _ _ _ _ _ _
        (cont_copy_core env nbufs s 2 _ hls m2 h3)
        (reasm_inv_cont2 lid t msg r0 r1 s hwf2 hid hcb hact hlen m1 hx hl0 hl1b
          (fun i hi hc => hd i hi (by
            rcases hc with hc | hc
            · exact Or.inl hc
            · exact Or.inr (Or.inl hc))))
  · have hnone : r0 = false ∧ r1 = false ∧ r2 = false := by
      cases r0 <;> cases r1 <;> cases r2 <;> first | exact ⟨rfl, rfl, rfl⟩ | simp at hsome
    obtain ⟨rfl, rfl, rfl⟩ := hnone
    rw [if_neg hsome] at hx
    have hz : s.rx.seg = 0 := by rw [hseg]; simp [seg_mask]
    rw [gen_prov_recv_cont_fresh env nbufs s lid t _ _ hg hact hx hz, hci]
    have hf := seg_mask_fresh 2
    exact reasm_inv_core _ _ _ _ _ _ _ _ _
      (cont_copy_core env nbufs (rx_lost_start s t) 2 _
        (show 2 ≤ SEG_NVAL by decide) hf.2.2.2
        (fun hh => absurd hh.1 (show ¬ (2 = SEG_NVAL) by decide)))
      (reasm_inv_cont2 lid t msg false false (rx_lost_start s t) hwf2 hid hcb hact hlen
        hf.2.1 rfl (fun hr => absurd hr (by decide)) (fun _ => rfl)
        (fun i hi hc => by
          rcases hc with hc | hc
          · exact absurd hc.2 (by decide)
          · exact absurd hc.2.2 (by decide)))

/-- Taking in any segment `k ≤ n` of the set. -/
theorem recv_step (env : Env) (nbufs lid t n fcs : Nat) (msg : List Nat) (r0 r1 r2 : Bool)
    (s : PbLink) (k : Nat) (hwf : well_formed n msg.length) (h32 : lid < 2 ^ 32) (ht : t < 256)
    (hk : k ≤ n) (h : reasm_inv lid t n msg r0 r1 r2 s) :
    reasm_inv lid t n msg (r0 || k == 0) (r1 || k == 1) (r2 || k == 2)
      (bt_mesh_pb_adv_recv env nbufs s (seg_frame lid t n fcs msg k)).1 := by
  have hn := hwf.1
  have hk2 : k = 0 ∨ k = 1 ∨ k = 2 := by omega
  rcases hk2 with rfl | rfl | rfl
  · have e := recv_step0 env nbufs lid t n fcs msg r0 r1 r2 s hwf h32 ht h
    simpa using e
  · have e := recv_step1 env nbufs lid t n fcs msg r0 r1 r2 s hwf h32 ht hk h
    simpa using e
  · have hn2 : n = 2 := by omega
    subst hn2
    have e := recv_step2 env nbufs lid t fcs msg r0 r1 r2 s hwf h32 ht h
    simpa using e

/-- A whole delivery: the segments taken in are those flagged before and those
that occur in the delivery. -/
theorem run_reasm_inv (env : Env) (lid t n fcs : Nat) (msg : List Nat)
    (hwf : well_formed n msg.length) (h32 : lid < 2 ^ 32) (ht : t < 256)
    (seq : List (Nat × Nat)) (hseq : ∀ p ∈ seq, p.2 ≤ n) (r0 r1 r2 : Bool) (s : PbLink)
    (h : reasm_inv lid t n msg r0 r1 r2 s) :
    reasm_inv lid t n msg (r0 || seen seq 0) (r1 || seen seq 1) (r2 || seen seq 2)
      (run env s (seg_events lid t n fcs msg seq)).1 := by
  induction seq generalizing r0 r1 r2 s with
  | nil => simpa [seen, seg_events, run] using h
  | cons p seq ih =>
    have h1 := recv_step env p.1 lid t n fcs msg r0 r1 r2 s p.2 hwf h32 ht
      (hseq p (List.mem_cons_self _ _)) h
    have h2 := ih (fun q hq => hseq q (List.mem_cons_of_mem _ hq)) _ _ _ _ h1
    have e : (run env s (seg_events lid t n fcs msg (p :: seq))).1
        = (run env (bt_mesh_pb_adv_recv env p.1 s (seg_frame lid t n fcs msg p.2)).1
            (seg_events lid t n fcs msg seq)).1 := rfl
    rw [e]
    simpa [seen, List.any_cons, Bool.or_assoc] using h2

theorem all_seen_iff (n : Nat) (seq : List (Nat × Nat)) (hn : n ≤ 2) :
    (∀ k, k ≤ n → seen seq k = true) ↔
      (seen seq 0 = true ∧ (1 ≤ n → seen seq 1 = true) ∧ (2 ≤ n → seen seq 2 = true)) := by
  constructor
  · intro h
    exact ⟨h 0 (Nat.zero_le _), fun h1 => h 1 h1, fun h2 => h 2 h2⟩
  · intro ⟨a, b, c⟩ k hk
    have hk2 : k = 0 ∨ k = 1 ∨ k = 2 := by omega
    rcases hk2 with rfl | rfl | rfl
    · exact a
    · exact b hk
    · exact c hk

theorem some_seen (n : Nat) (seq : List (Nat × Nat)) (hn : n ≤ 2) (hseq : ∀ p ∈ seq, p.2 ≤ n)
    (hne : seq ≠ []) : (seen seq 0 || seen seq 1 || seen seq 2) = true := by
  cases seq with
  | nil => exact absurd rfl hne
  | cons p rest =>
    have hp := hseq p (List.mem_cons_self _ _)
    have hk2 : p.2 = 0 ∨ p.2 = 1 ∨ p.2 = 2 := by omega
    rcases hk2 with h | h | h <;> simp [seen, List.any_cons, h]

/-- What a delivery of segments of the set leaves, from a link on which the
transaction is the next one and no segment is missing. -/
theorem reassembly_result (env : Env) (st : PbLink) (t n fcs : Nat) (msg : List Nat)
    (seq : List (Nat × Nat)) (hcb : st.cb ≠ none) (hact : st.flags.ADV_LINK_ACTIVE = true)
    (h32 : st.id < 2 ^ 32) (hseg : st.rx.seg = 0) (ht : next_transaction_id st.rx.id = t)
    (hdata : st.rx.buf.data.length = RX_BUF_SIZE) (hwf : well_formed n msg.length)
    (hseq : ∀ p ∈ seq, p.2 ≤ n) :
    (((run env st (seg_events st.id t n fcs msg seq)).1.rx.seg = 0 ∧
        (run env st (seg_events st.id t n fcs msg seq)).1.rx.id = t)
      ↔ ∀ k, k ≤ n → seen seq k = true) ∧
    (seq ≠ [] → ((run env st (seg_events st.id t n fcs msg seq)).1.rx.seg = 0
      ↔ ∀ k, k ≤ n → seen seq k = true)) ∧
    ((∀ k, k ≤ n → seen seq k = true) →
      (run env st (seg_events st.id t n fcs msg seq)).1.rx.buf.bytes = msg) := by
  have ht256 : t < 256 := by rw [← ht]; exact next_transaction_id_lt _
  have h0 : reasm_inv st.id t n msg false false false st := by
    refine ⟨rfl, hcb, hact, hdata, fun h => absurd h (by decide), fun h => absurd h (by decide),
      ?_, ?_, fun h => absurd h (by decide), fun _ => Or.inr rfl, ?_⟩
    · rw [hseg]; simp [seg_mask]
    · simpa using ht
    · intro i _ hc
      rcases hc with hc | hc | hc
      · exact absurd hc.2 (by decide)
      · exact absurd hc.2.2 (by decide)
      · exact absurd hc.2 (by decide)
  have hfin := run_reasm_inv env st.id t n fcs msg hwf h32 ht256 seq hseq false false false st h0
  simp only [Bool.false_or] at hfin
  obtain ⟨_, _, _, hlen, h1, h2, hs, hx, hl0, _, hd⟩ := hfin
  obtain ⟨hn, hL1, hL2, hw0, hw1⟩ := hwf
  simp only [RX_BUF_SIZE] at hlen
  rw [all_seen_iff n seq hn]
  have key : (seen seq 0 || seen seq 1 || seen seq 2) = true →
      ((run env st (seg_events st.id t n fcs msg seq)).1.rx.seg = 0 ↔
        (seen seq 0 = true ∧ (1 ≤ n → seen seq 1 = true) ∧ (2 ≤ n → seen seq 2 = true))) := by
    intro hsome
    rw [hs]
    exact seg_mask_zero n _ _ _ hn h1 h2 hsome
  refine ⟨?_, fun hne => key (some_seen n seq hn hseq hne), ?_⟩
  · by_cases hsome : (seen seq 0 || seen seq 1 || seen seq 2) = true
    · rw [if_pos hsome] at hx
      rw [← key hsome]
      exact ⟨fun h => h.1, fun h => ⟨h, hx⟩⟩
    · rw [if_neg hsome] at hx
      have hne : (run env st (seg_events st.id t n fcs msg seq)).1.rx.id ≠ t := by
        intro h
        have hq := next_transaction_id_ne
          (run env st (seg_events st.id t n fcs msg seq)).1.rx.id
        rw [hx] at hq
        exact hq h.symm
      have h00 : seen seq 0 = false := by
        cases h : seen seq 0
        · rfl
        · rw [h] at hsome; simp at hsome
      constructor
      · intro h; exact absurd h.2 hne
      · intro h; rw [h00] at h; exact absurd h.1 (by decide)
  · intro ⟨a0, a1, a2⟩
    obtain ⟨_, e2⟩ := hl0 a0
    unfold NetBufSimple.bytes
    rw [e2]
    apply List.ext_getElem
    · rw [List.length_take]; omega
    · intro i hi1 hi2
      rw [List.getElem_take]
      have hc : (i < 20 ∧ seen seq 0 = true) ∨ (20 ≤ i ∧ i < 43 ∧ seen seq 1 = true) ∨
          (43 ≤ i ∧ seen seq 2 = true) := by
        by_cases c1 : i < 20
        · exact Or.inl ⟨c1, a0⟩
        · have hn1 : 1 ≤ n := by
            rcases Nat.eq_zero_or_pos n with hz | hz
            · have := hw0 hz; omega
            · exact hz
          by_cases c2 : i < 43
          · exact Or.inr (Or.inl ⟨by omega, c2, a1 hn1⟩)
          · have hn2 : 2 ≤ n := by
              have := hw1 hn1
              rcases Nat.lt_or_ge n 2 with hlt | hge
              · have e1 : n = 1 := by omega
                subst e1
                omega
              · exact hge
            exact Or.inr (Or.inr ⟨by omega, a2 hn2⟩)
      have := hd i hi2 hc
      rw [List.getD_eq_getElem _ _ (by omega), List.getD_eq_getElem _ _ hi2] at this
      exact this

/-- C16: take the segment set of a message `msg` of length `L` for transaction
`t`: a Start frame announcing last segment `n ≤ 2`, the length `L` (from 1 to
65 and fitting `n`) and carrying the first `min(L, 20)` bytes, and the
Continuation frames `1..n` each carrying the next 23 bytes, the last one what
is left.  From an active link with `rx.seg = 0` and
`next_transaction_id(rx.id) = t`, for every delivery of these frames, in any
order, with any repetitions and whatever buffers are available, the transaction
`t` is complete (`rx.seg = 0` with `rx.id = t`; for a delivery of at least one
frame just `rx.seg = 0`) exactly when every segment `0..n` occurs in the
delivery, and the reassembly buffer then holds `msg`: the same bytes for any
two complete deliveries. -/
theorem reassembly_order_independent (env : Env) (st : PbLink) (t n fcs : Nat) (msg : List Nat)
    (seq seq2 : List (Nat × Nat)) (hcb : st.cb ≠ none)
    (hact : st.flags.ADV_LINK_ACTIVE = true) (h32 : st.id < 2 ^ 32) (hseg : st.rx.seg = 0)
    (ht : next_transaction_id st.rx.id = t) (hdata : st.rx.buf.data.length = RX_BUF_SIZE)
    (hwf : well_formed n msg.length) (hseq : ∀ p ∈ seq, p.2 ≤ n)
    (hseq2 : ∀ p ∈ seq2, p.2 ≤ n) :
    (((run env st (seg_events st.id t n fcs msg seq)).1.rx.seg = 0 ∧
        (run env st (seg_events st.id t n fcs msg seq)).1.rx.id = t)
      ↔ ∀ k, k ≤ n → seen seq k = true) ∧
    (seq ≠ [] → ((run env st (seg_events st.id t n fcs msg seq)).1.rx.seg = 0
      ↔ ∀ k, k ≤ n → seen seq k = true)) ∧
    ((∀ k, k ≤ n → seen seq k = true) →
      (run env st (seg_events st.id t n fcs msg seq)).1.rx.buf.bytes = msg) ∧
    ((∀ k, k ≤ n → seen seq k = true) → (∀ k, k ≤ n → seen seq2 k = true) →
      (run env st (seg_events st.id t n fcs msg seq)).1.rx.buf.bytes
        = (run env st (seg_events st.id t n fcs msg seq2)).1.rx.buf.bytes) := by
  have r1 := reassembly_result env st t n fcs msg seq hcb hact h32 hseg ht hdata hwf hseq
  have r2 := reassembly_result env st t n fcs msg seq2 hcb hact h32 hseg ht hdata hwf hseq2
  exact ⟨r1.1, r1.2.1, r1.2.2, fun a b => (r1.2.2 a).trans (r2.2.2 b).symm⟩

set_option maxRecDepth 100000 in
theorem reassembly_order_independent_witness :
    sample_link.cb ≠ none ∧ sample_link.flags.ADV_LINK_ACTIVE = true ∧
    sample_link.rx.seg = 0 ∧ next_transaction_id sample_link.rx.id = 0 ∧
    well_formed 2 (List.range 50).length ∧
    (run sample_env sample_link (seg_events sample_link.id 0 2 0x77 (List.range 50)
      [(1, 2), (0, 0), (1, 2), (1, 1), (1, 0)])).1.rx.buf.bytes = List.range 50 :=
  ⟨by decide, by decide, by decide, by decide, by decide,
    (reassembly_order_independent sample_env sample_link 0 2 0x77 (List.range 50)
      [(1, 2), (0, 0), (1, 2), (1, 1), (1, 0)] [(1, 0), (1, 1), (1, 2)]
      (by decide) (by decide) (by decide) (by decide) (by decide) (by decide) (by decide)
      (by decide) (by decide)).2.2.1
      (by intro k hk; interval_cases k <;> decide)⟩

/-! ## Continuation frames that are not copied -/

/-- C22: for a Continuation frame of the transaction being reassembled
(`xact_id = rx.id`, `rx.seg ≠ 0`) whose segment index is greater than
`rx.last_seg`, `gen_prov_cont` sets `ADV_LINK_INVALID`, invokes the error
callback with `PROV_ERR_NVAL_FMT` and makes no other call, and leaves the
receive transaction (reassembly buffer, missing-segment mask) and everything
else as it was. -/
theorem gen_prov_cont_index_beyond (env : Env) (nbufs : Nat) (st : PbLink) (rx : ProvRx)
    (buf : List Nat) (hid : rx.xact_id = st.rx.id) (hseg : st.rx.seg ≠ 0)
    (hidx : CONT_SEG_INDEX rx.gpc > st.rx.last_seg) :
    gen_prov_cont env nbufs st rx buf
      = ({ st with flags.ADV_LINK_INVALID := true }, [Effect.error PROV_ERR_NVAL_FMT]) ∧
    (gen_prov_cont env nbufs st rx buf).1.flags.ADV_LINK_INVALID = true ∧
    (gen_prov_cont env nbufs st rx buf).1.rx = st.rx ∧
    (gen_prov_cont env nbufs st rx buf).1.rx.buf = st.rx.buf ∧
    (gen_prov_cont env nbufs st rx buf).1.rx.seg = st.rx.seg := by
  have e : gen_prov_cont env nbufs st rx buf
      = ({ st with flags.ADV_LINK_INVALID := true }, [Effect.error PROV_ERR_NVAL_FMT]) := by
    unfold gen_prov_cont
    simp only
    rw [if_neg (fun h => hseg h.1), if_neg (fun h => hseg h.1), if_neg (fun h => h hid)]
    unfold gen_prov_cont_body
    rw [if_pos hidx]
    rfl
  rw [e]
  exact ⟨rfl, rfl, rfl, rfl, rfl⟩

theorem gen_prov_cont_index_beyond_witness :
    (⟨0x01020304, 0x00, GPC_CONT 3⟩ : ProvRx).xact_id = sample_mid.rx.id ∧
    sample_mid.rx.seg ≠ 0 ∧
    CONT_SEG_INDEX (⟨0x01020304, 0x00, GPC_CONT 3⟩ : ProvRx).gpc > sample_mid.rx.last_seg ∧
    (gen_prov_cont sample_env 1 sample_mid ⟨0x01020304, 0x00, GPC_CONT 3⟩ [1, 2, 3]).2
      = [Effect.error PROV_ERR_NVAL_FMT] :=
  ⟨by decide, by decide, by decide,
    congrArg Prod.snd (gen_prov_cont_index_beyond sample_env 1 sample_mid
      ⟨0x01020304, 0x00, GPC_CONT 3⟩ [1, 2, 3] (by decide) (by decide) (by decide)).1⟩

/-- C23: for a Continuation frame of the transaction being reassembled
(`xact_id = rx.id`, `rx.seg ≠ 0`) whose index is at most `rx.last_seg` and
whose bit is already clear in the missing-segment mask, `gen_prov_cont` leaves
the whole link state as it was, hands nothing to the transport and invokes no
callback. -/
theorem gen_prov_cont_duplicate (env : Env) (nbufs : Nat) (st : PbLink) (rx : ProvRx)
    (buf : List Nat) (hid : rx.xact_id = st.rx.id) (hseg : st.rx.seg ≠ 0)
    (hidx : CONT_SEG_INDEX rx.gpc ≤ st.rx.last_seg)
    (hbit : st.rx.seg &&& BIT (CONT_SEG_INDEX rx.gpc) = 0) :
    gen_prov_cont env nbufs st rx buf = (st, []) := by
  unfold gen_prov_cont
  simp only
  rw [if_neg (fun h => hseg h.1), if_neg (fun h => hseg h.1), if_neg (fun h => h hid)]
  exact gen_prov_cont_body_dup env nbufs st _ buf hidx hbit

theorem gen_prov_cont_duplicate_witness :
    (⟨0x01020304, 0x00, GPC_CONT 1⟩ : ProvRx).xact_id
      = (gen_prov_cont sample_env 1 sample_mid ⟨0x01020304, 0x00, GPC_CONT 1⟩
          (List.range 23)).1.rx.id ∧
    (gen_prov_cont sample_env 1 sample_mid ⟨0x01020304, 0x00, GPC_CONT 1⟩
      (List.range 23)).1.rx.seg = 4 ∧
    gen_prov_cont sample_env 1
        (gen_prov_cont sample_env 1 sample_mid ⟨0x01020304, 0x00, GPC_CONT 1⟩ (List.range 23)).1
        ⟨0x01020304, 0x00, GPC_CONT 1⟩ (List.range 7)
      = ((gen_prov_cont sample_env 1 sample_mid ⟨0x01020304, 0x00, GPC_CONT 1⟩
          (List.range 23)).1, []) :=
  ⟨by decide, by decide,
    gen_prov_cont_duplicate sample_env 1
      (gen_prov_cont sample_env 1 sample_mid ⟨0x01020304, 0x00, GPC_CONT 1⟩ (List.range 23)).1
      ⟨0x01020304, 0x00, GPC_CONT 1⟩ (List.range 7) (by decide) (by decide) (by decide)
      (by decide)⟩

/-! ## The slots of `tx.buf` -/

theorem send_reliable_loop_pending (b : TxBuf) (h : b.contiguous) :
    send_reliable_loop 3 0 b
      = (b.pending.filter fun x => !x.busy).map fun x => Effect.adv_send x SendCb.null := by
  obtain ⟨b0, b1, b2⟩ := b
  obtain ⟨h1, h2⟩ := h
  cases b0 <;> cases b1 <;> cases b2 <;>
    simp_all [send_reliable_loop, TxBuf.get, TxBuf.pending] <;>
    split_ifs <;> simp_all [List.filter_cons]

theorem reachable_run (env : Env) (evs : List Event) (st : PbLink) (h : Reachable env st) :
    Reachable env (run env st evs).1 := by
  induction evs generalizing st with
  | nil => exact h
  | cons ev evs ih => exact ih _ (Reachable.step st ev h)

/-- C30: in every reachable link state the occupied slots of `tx.buf` form an
initial segment of the three-slot array; `free_segments`, which stops at the
first empty slot, therefore leaves all three slots empty, and `send_reliable`,
which stops at the first empty slot, hands every occupied slot that is not busy
to the transport, in order. -/
theorem tx_buf_initial_segment (env : Env) (st : PbLink) (h : Reachable env st) :
    ((st.tx.buf.b0 = none → st.tx.buf.b1 = none) ∧ (st.tx.buf.b1 = none → st.tx.buf.b2 = none)) ∧
    (free_segments st).tx.buf = TxBuf.empty ∧
    (send_reliable st).2
      = (st.tx.buf.pending.filter fun x => !x.busy).map fun x =>
          Effect.adv_send x SendCb.null := by
  have hc := reachable_contiguous env st h
  exact ⟨hc, by rw [free_segments_buf]; exact free_segments_loop_contiguous _ hc,
    send_reliable_loop_pending _ hc⟩

set_option maxRecDepth 100000 in
theorem tx_buf_initial_segment_witness :
    Reachable sample_env sample_reached ∧ sample_reached.tx.buf.pending.length = 3 ∧
    (free_segments sample_reached).tx.buf = TxBuf.empty :=
  ⟨reachable_run sample_env sample_reached_events pb_link_init Reachable.init, by decide,
    (tx_buf_initial_segment sample_env sample_reached
      (reachable_run sample_env sample_reached_events pb_link_init Reachable.init)).2.1⟩

/-! ## A Start frame that abandons an incomplete transaction -/

/-- The mask `gen_prov_start` leaves for a valid Start frame of the next
transaction that arrives while segments are still missing and the Start of the
abandoned transaction had been taken in: the old mask cut to the bits
`1..last_seg`, not the full set. -/
theorem gen_prov_start_keeps_mask (env : Env) (nbufs : Nat) (st : PbLink) (lid xid gpc : Nat)
    (len f : Nat) (d0 : List Nat) (hx : xid = next_transaction_id st.rx.id)
    (hseg : st.rx.seg ≠ 0) (hb0 : st.rx.seg &&& BIT 0 = 0)
    (h1 : 1 ≤ len) (h2 : len ≤ 65) (h3 : ¬ (START_LAST_SEG gpc > 0 ∧ len ≤ 20)) :
    (gen_prov_start env nbufs st ⟨lid, xid, gpc⟩ (be16 len ++ f :: d0)).1.rx.seg
      = clear_bit ((st.rx.seg &&& ((1 <<< (START_LAST_SEG gpc + 1)) - 1)) % 256) 0 % 256 := by
  have hne : ¬ xid = st.rx.id := by rw [hx]; exact next_transaction_id_ne _
  have e : gen_prov_start env nbufs st ⟨lid, xid, gpc⟩ (be16 len ++ f :: d0)
      = gen_prov_start_body env nbufs st ⟨lid, xid, gpc⟩ (be16 len ++ f :: d0) := by
    unfold gen_prov_start
    rw [if_neg hne, if_neg (by simp only [hx]; simp)]
  rw [e]
  have hc := start_copy_core env nbufs st lid xid gpc len f d0 h1 h2 h3
    (fun h => h.2.1 hb0)
  rw [hc.2.2.2]
  simp only [rx_start, hseg, ne_eq, not_false_eq_true, if_true]

set_option maxRecDepth 100000 in
/-- C21, evaluated: on the link of `sample_link` the Start of the
three-segment transaction `0x00` and its Continuation 1 are taken in
(`rx.seg = 4`), then the valid Start frame of transaction `0x01` arrives,
announcing last segment 2.  The mask after `gen_prov_start` is 4, not 6: bit 1
stays clear because Continuation 1 of the abandoned transaction had been
received.  Continuation 2 of transaction `0x01` then completes the reassembly
although its Continuation 1 never arrived, and bytes 20 to 42 of the delivered
message are those of the abandoned transaction.  In general the new mask is the
old one cut to the bits `1..last_seg`. -/
theorem start_carries_over_old_segments :
    (run sample_env sample_link
      [Event.recv 1 sample_start_of_three, Event.recv 1 sample_cont1]).1.rx.seg = 4 ∧
    (run sample_env sample_link
      [Event.recv 1 sample_start_of_three, Event.recv 1 sample_cont1,
       Event.recv 1 sample_next_start]).1.rx.seg = 4 ∧
    (run sample_env sample_link
      [Event.recv 1 sample_start_of_three, Event.recv 1 sample_cont1,
       Event.recv 1 sample_next_start]).1.rx.id = 0x01 ∧
    (run sample_env sample_link
      [Event.recv 1 sample_start_of_three, Event.recv 1 sample_next_start]).1.rx.seg = 6 ∧
    (run sample_env sample_link
      [Event.recv 1 sample_start_of_three, Event.recv 1 sample_cont1,
       Event.recv 1 sample_next_start, Event.recv 1 sample_next_cont2]).2
      = [Effect.memcpy 0 20, Effect.memcpy 20 23, Effect.memcpy 0 20, Effect.memcpy 43 7,
         Effect.adv_send ⟨2, [0x01, 0x02, 0x03, 0x04, 0x01, 0x01], false⟩ SendCb.ack_complete,
         Effect.recv (List.replicate 20 1 ++ (List.range 23).map (· + 20)
           ++ List.replicate 7 2)] ∧
    (∀ (env : Env) (nbufs : Nat) (st : PbLink) (lid xid gpc len f : Nat) (d0 : List Nat),
      xid = next_transaction_id st.rx.id → st.rx.seg ≠ 0 → st.rx.seg &&& BIT 0 = 0 →
      1 ≤ len → len ≤ 65 → ¬ (START_LAST_SEG gpc > 0 ∧ len ≤ 20) →
      (gen_prov_start env nbufs st ⟨lid, xid, gpc⟩ (be16 len ++ f :: d0)).1.rx.seg
        = clear_bit ((st.rx.seg &&& ((1 <<< (START_LAST_SEG gpc + 1)) - 1)) % 256) 0 % 256) :=
  ⟨by decide, by decide, by decide, by decide, by decide,
    fun env nbufs st lid xid gpc len f d0 hx hseg hb0 h1 h2 h3 =>
      gen_prov_start_keeps_mask env nbufs st lid xid gpc len f d0 hx hseg hb0 h1 h2 h3⟩

/-! ## The length check and the order of arrival -/

set_option maxRecDepth 100000 in
/-- C24, evaluated: a Start frame declares the length 30 with last segment 1,
and Continuation 1 carries 23 bytes, so the declared length differs from
`20 + 23 * 0 + 23 = 43`.  When the Start arrives first, Continuation 1 clears
the last missing segment and the error callback is invoked with
`PROV_ERR_NVAL_FMT`.  When Continuation 1 arrives first, the Start clears the
last missing segment: no error is reported, the link is not marked invalid,
and the message is acknowledged and delivered. -/
theorem length_check_skipped_when_start_last :
    (run sample_env sample_link
      [Event.recv 1 sample_short_start, Event.recv 1 sample_long_cont1]).2
      = [Effect.memcpy 0 20, Effect.memcpy 20 23, Effect.error PROV_ERR_NVAL_FMT] ∧
    (run sample_env sample_link
      [Event.recv 1 sample_short_start, Event.recv 1 sample_long_cont1]).1.flags.ADV_LINK_INVALID
      = true ∧
    (run sample_env sample_link
      [Event.recv 1 sample_long_cont1, Event.recv 1 sample_short_start]).2
      = [Effect.memcpy 20 23, Effect.memcpy 0 20,
         Effect.adv_send ⟨2, [0x01, 0x02, 0x03, 0x04, 0x00, 0x01], false⟩ SendCb.ack_complete,
         Effect.recv (List.replicate 20 1 ++ List.replicate 10 3)] ∧
    (run sample_env sample_link
      [Event.recv 1 sample_long_cont1, Event.recv 1 sample_short_start]).1.flags.ADV_LINK_INVALID
      = false ∧
    (run sample_env sample_link
      [Event.recv 1 sample_long_cont1, Event.recv 1 sample_short_start]).1.rx.buf.len = 30 := by
  refine ⟨by decide, by decide, by decide, by decide, by decide⟩

/-! ## Copies outside the reassembly buffer -/

set_option maxRecDepth 100000 in
/-- C27, evaluated: on the active link of `sample_link`, with every frame
carrying at most 23 bytes after its 6-byte header, a Continuation frame with
index 0 that opens a transaction is copied to offset `-3`, one with index 3 to
offset 66, and after a Start frame announcing last segment 3 and the length 65
Continuation 3 is copied to offset 66 as well: 23 bytes each, outside the 65
bytes of `rx_buf`. -/
theorem reassembly_copy_out_of_bounds :
    sample_cont0.length - 6 ≤ 23 ∧ sample_cont3.length - 6 ≤ 23 ∧
    sample_start_of_four.length - 6 ≤ 23 ∧
    (run sample_env sample_link [Event.recv 1 sample_cont0]).2 = [Effect.memcpy (-3) 23] ∧
    (run sample_env sample_link [Event.recv 1 sample_cont3]).2 = [Effect.memcpy 66 23] ∧
    (run sample_env sample_link
      [Event.recv 1 sample_start_of_four, Event.recv 1 sample_cont3]).2
      = [Effect.memcpy 0 20, Effect.memcpy 66 23, Effect.error PROV_ERR_NVAL_FMT] ∧
    XACT_SEG_DATA 0 = -3 ∧ XACT_SEG_DATA 3 + 23 > RX_BUF_SIZE := by
  refine ⟨by decide, by decide, by decide, by decide, by decide, by decide, by decide, by decide⟩

/-! ## A close that finds no buffer -/

/-- C26, evaluated: `prov_link_close` on the active link of `sample_link`
with no buffer available sends nothing and leaves the link active with
`ADV_LINK_CLOSING` set; in that state a protocol timeout and another
`prov_link_close`, each with a buffer available, send nothing, and the link
stays active.  This holds for every active link that was not closing. -/
theorem failed_close_blocks_timeout :
    prov_link_close 0 sample_link PROV_BEARER_LINK_STATUS_FAIL
      = ({ sample_link with flags.ADV_LINK_CLOSING := true }, []) ∧
    (run sample_env sample_link
      [Event.link_close 0 PROV_BEARER_LINK_STATUS_FAIL, Event.protocol_timeout 1,
       Event.link_close 1 PROV_BEARER_LINK_STATUS_FAIL]).2 = [] ∧
    (run sample_env sample_link
      [Event.link_close 0 PROV_BEARER_LINK_STATUS_FAIL, Event.protocol_timeout 1,
       Event.link_close 1 PROV_BEARER_LINK_STATUS_FAIL]).1.flags.ADV_LINK_ACTIVE = true ∧
    (∀ (st : PbLink) (status status2 nbufs : Nat),
      st.flags.ADV_LINK_ACTIVE = true → st.flags.ADV_LINK_CLOSING = false →
      prov_link_close 0 st status = ({ st with flags.ADV_LINK_CLOSING := true }, []) ∧
      (protocol_timeout nbufs (prov_link_close 0 st status).1).2 = [] ∧
      (protocol_timeout nbufs (prov_link_close 0 st status).1).1.flags
        = (prov_link_close 0 st status).1.flags ∧
      prov_link_close nbufs (prov_link_close 0 st status).1 status2
        = ((prov_link_close 0 st status).1, [])) := by
  refine ⟨by decide, by decide, by decide, ?_⟩
  intro st status status2 nbufs hact hcl
  have e : prov_link_close 0 st status = ({ st with flags.ADV_LINK_CLOSING := true }, []) := by
    simp [prov_link_close, hcl, ctl_buf_create, bearer_ctl_send_unacked]
  rw [e]
  refine ⟨rfl, ?_, ?_, ?_⟩
  · simp [protocol_timeout, hact, prov_link_close]
  · simp [protocol_timeout, hact, prov_link_close]
  · simp [prov_link_close]

/-! ## Acks for transactions that were not accepted -/

set_option maxRecDepth 100000 in
/-- C28, evaluated: on the device link reached from the initial object by
accept and Link Open, a one-segment Start frame of transaction `0x00` whose FCS
is wrong is taken in and not acknowledged; when the same frame arrives again, a
Transaction Ack for `0x00` is sent.  Likewise a Start frame that declares the
length 0 is rejected with `PROV_ERR_NVAL_FMT`, and when it arrives again a
Transaction Ack for `0x00` is sent. -/
theorem ack_after_rejected_transaction :
    Reachable sample_env (run sample_env pb_link_init sample_opened_events).1 ∧
    sample_env.bt_mesh_fcs_check [5] 6 = false ∧
    (run sample_env (run sample_env pb_link_init sample_opened_events).1
      [Event.recv 1 sample_bad_fcs_start]).2 = [Effect.memcpy 0 1] ∧
    (run sample_env (run sample_env pb_link_init sample_opened_events).1
      [Event.recv 1 sample_bad_fcs_start, Event.recv 1 sample_bad_fcs_start]).2
      = [Effect.memcpy 0 1,
         Effect.adv_send ⟨2, [0x01, 0x02, 0x03, 0x04, 0x00, 0x01], false⟩
           SendCb.ack_complete] ∧
    (run sample_env (run sample_env pb_link_init sample_opened_events).1
      [Event.recv 1 sample_zero_len_start, Event.recv 1 sample_zero_len_start]).2
      = [Effect.error PROV_ERR_NVAL_FMT,
         Effect.adv_send ⟨2, [0x01, 0x02, 0x03, 0x04, 0x00, 0x01], false⟩
           SendCb.ack_complete] :=
  ⟨reachable_run sample_env sample_opened_events pb_link_init Reachable.init,
    by decide, by decide, by decide, by decide⟩

/-! ## An open that finds no buffer -/

/-- C29, evaluated: `prov_link_open` on the initial object with no buffer
available returns `-ENOMEM` and leaves `ADV_LINK_ACTIVE` and `ADV_PROVISIONER`
set; a later `prov_link_open` and a later `prov_link_accept`, with the
advertiser enabled and a buffer available, each return `-EBUSY`.  This holds
for every link that was not active. -/
theorem failed_open_leaves_link_active :
    (prov_link_open 0 0 0 0x11223344 pb_link_init (List.replicate 16 0xaa) (some 1) 0).1
      = -ENOMEM ∧
    (prov_link_open 0 0 0 0x11223344 pb_link_init (List.replicate 16 0xaa)
      (some 1) 0).2.1.flags.ADV_LINK_ACTIVE = true ∧
    (prov_link_open 0 0 0 0x11223344 pb_link_init (List.replicate 16 0xaa)
      (some 1) 0).2.1.flags.ADV_PROVISIONER = true ∧
    (prov_link_open 1 0 0 0x55667788
      (prov_link_open 0 0 0 0x11223344 pb_link_init (List.replicate 16 0xaa) (some 1) 0).2.1
      (List.replicate 16 0xaa) (some 1) 0).1 = -EBUSY ∧
    (prov_link_accept 0
      (prov_link_open 0 0 0 0x11223344 pb_link_init (List.replicate 16 0xaa) (some 1) 0).2.1
      (some 1) 0).1 = -EBUSY ∧
    (∀ (st : PbLink) (now : Int) (rand : Nat) (uuid : List Nat) (cb : Option Nat)
        (cb_data : Nat), st.flags.ADV_LINK_ACTIVE = false →
      (prov_link_open 0 now 0 rand st uuid cb cb_data).1 = -ENOMEM ∧
      (prov_link_open 0 now 0 rand st uuid cb cb_data).2.1.flags.ADV_LINK_ACTIVE = true ∧
      (prov_link_open 0 now 0 rand st uuid cb cb_data).2.1.flags.ADV_PROVISIONER = true ∧
      (prov_link_open 0 now 0 rand st uuid cb cb_data).2.2 = []) := by
  refine ⟨by decide, by decide, by decide, by decide, by decide, ?_⟩
  intro st now rand uuid cb cb_data hact
  simp [prov_link_open, hact, ctl_buf_create, bearer_ctl_send]

/-! ## The guards of the dispatcher -/

/-- The function `bt_mesh_pb_adv_recv` in terms of the bytes of the frame. -/
theorem recv_raw (env : Env) (nbufs : Nat) (st : PbLink) (f : List Nat) :
    bt_mesh_pb_adv_recv env nbufs st f =
      if st.cb = none then (st, [])
      else if f.length < 6 then (st, [])
      else if st.flags.ADV_LINK_ACTIVE = true ∧ st.id ≠ (net_buf_simple_pull_be32 f).1 then
        (st, [])
      else gen_prov_recv env nbufs st
        ⟨(net_buf_simple_pull_be32 f).1, frame_xact_id f, frame_gpc f⟩ (f.drop 6) := by
  have hd : (net_buf_simple_pull_u8
      (net_buf_simple_pull_u8 (net_buf_simple_pull_be32 f).2).2).2 = f.drop 6 := by
    simp [net_buf_simple_pull_u8, net_buf_simple_pull_be32]
  unfold bt_mesh_pb_adv_recv
  simp only [pull_xact_id, pull_gpc, hd]

theorem gpcf_le (g : Nat) : GPCF g ≤ 3 := Nat.and_le_right

/-- A frame that needs an active link, on a link that is not active. -/
theorem gen_prov_recv_requires_link (env : Env) (nbufs : Nat) (st : PbLink) (rx : ProvRx)
    (buf : List Nat) (hact : st.flags.ADV_LINK_ACTIVE = false) (hg : GPCF rx.gpc ≠ 3) :
    gen_prov_recv env nbufs st rx buf = (st, []) := by
  have h3 := gpcf_le rx.gpc
  have hc : GPCF rx.gpc = 0 ∨ GPCF rx.gpc = 1 ∨ GPCF rx.gpc = 2 := by omega
  unfold gen_prov_recv
  rcases hc with h | h | h <;> simp [h, gen_prov_require_link, hact]

/-- A bearer-control frame on a link that is not active. -/
theorem gen_prov_recv_ctl_idle (env : Env) (nbufs : Nat) (st : PbLink) (rx : ProvRx)
    (buf : List Nat) (hact : st.flags.ADV_LINK_ACTIVE = false) (hg : GPCF rx.gpc = 3)
    (hop : BEARER_CTL rx.gpc ≠ LINK_OPEN) :
    gen_prov_recv env nbufs st rx buf =
      (st, if BEARER_CTL rx.gpc = LINK_ACK ∨ BEARER_CTL rx.gpc = LINK_CLOSE then []
        else if env.CONFIG_BT_TESTING = true then [Effect.test_invalid_bearer (BEARER_CTL rx.gpc)]
        else []) := by
  have hop0 : ¬ BEARER_CTL rx.gpc = 0 := hop
  unfold gen_prov_recv gen_prov_func gen_prov_ctl
  simp only [hg, gen_prov_min_len, gen_prov_require_link]
  by_cases h1 : BEARER_CTL rx.gpc = 1
  · simp [hop0, h1, hact]
  · by_cases h2 : BEARER_CTL rx.gpc = 2
    · simp [hop0, h1, h2, hact]
    · by_cases ht : env.CONFIG_BT_TESTING = true
      · simp [hop0, h1, h2, hact, ht]
      · simp [hop0, h1, h2, hact, ht]

/-- Case analysis on the guards of `bt_mesh_pb_adv_recv`: a property of the
unchanged state with no call, and of what `gen_prov_recv` returns for a frame
that passes the guards, holds of what `bt_mesh_pb_adv_recv` returns. -/
theorem recv_raw_cases (env : Env) (nbufs : Nat) (st : PbLink) (f : List Nat)
    (P : PbLink × List Effect → Prop) (h0 : P (st, []))
    (h1 : st.cb ≠ none → 6 ≤ f.length →
      ¬ (st.flags.ADV_LINK_ACTIVE = true ∧ st.id ≠ (net_buf_simple_pull_be32 f).1) →
      P (gen_prov_recv env nbufs st
        ⟨(net_buf_simple_pull_be32 f).1, frame_xact_id f, frame_gpc f⟩ (f.drop 6))) :
    P (bt_mesh_pb_adv_recv env nbufs st f) := by
  rw [recv_raw]
  by_cases c1 : st.cb = none
  · rw [if_pos c1]; exact h0
  · rw [if_neg c1]
    by_cases c2 : f.length < 6
    · rw [if_pos c2]; exact h0
    · rw [if_neg c2]
      by_cases c3 : st.flags.ADV_LINK_ACTIVE = true ∧ st.id ≠ (net_buf_simple_pull_be32 f).1
      · rw [if_pos c3]; exact h0
      · rw [if_neg c3]; exact h1 c1 (by omega) c3

/-- C25, as amended: `bt_mesh_pb_adv_recv` leaves the link state unchanged,
hands nothing to the transport and invokes no callback for every frame received
before callbacks are registered, for every frame shorter than 6 bytes, for
every Start frame with fewer than 3 bytes after the 6-byte header, and, while
the link is not active, for every Start, Ack and Continuation frame and every
Link Ack and Link Close frame; for a bearer-control frame with an unknown
opcode on a link that is not active it leaves the link state unchanged and
hands nothing to the transport, and it calls
`bt_test_mesh_prov_invalid_bearer` with the opcode when built with
`CONFIG_BT_TESTING`, and nothing otherwise.  Only a Link Open frame can change
the state while the link is not active. -/
theorem recv_guards (env : Env) (nbufs : Nat) (st : PbLink) (f : List Nat) :
    (st.cb = none → bt_mesh_pb_adv_recv env nbufs st f = (st, [])) ∧
    (f.length < 6 → bt_mesh_pb_adv_recv env nbufs st f = (st, [])) ∧
    (GPCF (frame_gpc f) = 0 → f.length < 9 → bt_mesh_pb_adv_recv env nbufs st f = (st, [])) ∧
    (st.flags.ADV_LINK_ACTIVE = false → GPCF (frame_gpc f) ≠ 3 →
      bt_mesh_pb_adv_recv env nbufs st f = (st, [])) ∧
    (st.flags.ADV_LINK_ACTIVE = false → GPCF (frame_gpc f) = 3 →
      (BEARER_CTL (frame_gpc f) = LINK_ACK ∨ BEARER_CTL (frame_gpc f) = LINK_CLOSE) →
      bt_mesh_pb_adv_recv env nbufs st f = (st, [])) ∧
    (st.flags.ADV_LINK_ACTIVE = false → GPCF (frame_gpc f) = 3 →
      BEARER_CTL (frame_gpc f) ≠ LINK_OPEN → BEARER_CTL (frame_gpc f) ≠ LINK_ACK →
      BEARER_CTL (frame_gpc f) ≠ LINK_CLOSE →
      (bt_mesh_pb_adv_recv env nbufs st f).1 = st ∧
      (env.CONFIG_BT_TESTING = false → (bt_mesh_pb_adv_recv env nbufs st f).2 = []) ∧
      (env.CONFIG_BT_TESTING = true → st.cb ≠ none → 6 ≤ f.length →
        (bt_mesh_pb_adv_recv env nbufs st f).2
          = [Effect.test_invalid_bearer (BEARER_CTL (frame_gpc f))])) ∧
    (st.flags.ADV_LINK_ACTIVE = false → (bt_mesh_pb_adv_recv env nbufs st f).1 ≠ st →
      GPCF (frame_gpc f) = 3 ∧ BEARER_CTL (frame_gpc f) = LINK_OPEN) := by
  refine ⟨?_, ?_, ?_, ?_, ?_, ?_, ?_⟩
  · intro h
    rw [recv_raw, if_pos h]
  · intro h
    exact recv_raw_cases env nbufs st f (fun r => r = (st, [])) rfl
      (fun _ hl _ => absurd h (by omega))
  · intro hg hl
    refine recv_raw_cases env nbufs st f (fun r => r = (st, [])) rfl (fun _ _ _ => ?_)
    unfold gen_prov_recv
    rw [if_pos (by simp only [hg, gen_prov_min_len, List.length_drop]; omega)]
  · intro hact hg
    exact recv_raw_cases env nbufs st f (fun r => r = (st, [])) rfl
      (fun _ _ _ => gen_prov_recv_requires_link env nbufs st _ _ hact hg)
  · intro hact hg hop
    refine recv_raw_cases env nbufs st f (fun r => r = (st, [])) rfl (fun _ _ _ => ?_)
    rw [gen_prov_recv_ctl_idle env nbufs st _ _ hact hg (by
      rcases hop with h | h <;> rw [h] <;> decide)]
    rw [if_pos hop]
  · intro hact hg h0 h1 h2
    have hn : ¬ (BEARER_CTL (frame_gpc f) = LINK_ACK ∨ BEARER_CTL (frame_gpc f) = LINK_CLOSE) :=
      fun h => h.elim h1 h2
    have e := gen_prov_recv_ctl_idle env nbufs st
      ⟨(net_buf_simple_pull_be32 f).1, frame_xact_id f, frame_gpc f⟩ (f.drop 6) hact hg h0
    rw [if_neg hn] at e
    refine ⟨?_, ?_, ?_⟩
    · exact recv_raw_cases env nbufs st f (fun r => r.1 = st) rfl
        (fun _ _ _ => by rw [e])
    · intro ht
      exact recv_raw_cases env nbufs st f (fun r => r.2 = []) rfl
        (fun _ _ _ => by rw [e, if_neg (by rw [ht]; decide)])
    · intro ht hcb hl
      have hidle : ¬ (st.flags.ADV_LINK_ACTIVE = true ∧
          st.id ≠ (net_buf_simple_pull_be32 f).1) := by
        intro hh
        rw [hact] at hh
        exact absurd hh.1 (by decide)
      rw [recv_raw, if_neg hcb, if_neg (by omega), if_neg hidle, e, if_pos ht]
  · intro hact hne
    by_cases hg : GPCF (frame_gpc f) = 3
    · refine ⟨hg, ?_⟩
      by_contra h0
      apply hne
      have e := gen_prov_recv_ctl_idle env nbufs st
        ⟨(net_buf_simple_pull_be32 f).1, frame_xact_id f, frame_gpc f⟩ (f.drop 6) hact hg h0
      exact recv_raw_cases env nbufs st f (fun r => r.1 = st) rfl
        (fun _ _ _ => by rw [e])
    · exfalso
      apply hne
      exact recv_raw_cases env nbufs st f (fun r => r.1 = st) rfl
        (fun _ _ _ => by rw [gen_prov_recv_requires_link env nbufs st _ _ hact hg])

theorem recv_guards_witness :
    sample_accepting.flags.ADV_LINK_ACTIVE = false ∧ GPCF (frame_gpc sample_start_frame) ≠ 3 ∧
    bt_mesh_pb_adv_recv sample_env 1 sample_accepting sample_start_frame
      = (sample_accepting, []) :=
  ⟨by decide, by decide,
    (recv_guards sample_env 1 sample_accepting sample_start_frame).2.2.2.1 (by decide)
      (by decide)⟩

/-- C25, counterexample: built with `CONFIG_BT_TESTING`, a bearer-control
frame with the unassigned opcode 3 received on the idle link after
`prov_link_accept` leaves the state unchanged but makes a call:
`bt_test_mesh_prov_invalid_bearer(3)` (lines 529 to 531). -/
theorem unknown_opcode_test_hook :
    sample_accepting.flags.ADV_LINK_ACTIVE = false ∧
    GPCF (frame_gpc sample_unknown_ctl) = 3 ∧ BEARER_CTL (frame_gpc sample_unknown_ctl) = 3 ∧
    bt_mesh_pb_adv_recv sample_env_testing 1 sample_accepting sample_unknown_ctl
      = (sample_accepting, [Effect.test_invalid_bearer 3]) ∧
    (bt_mesh_pb_adv_recv sample_env_testing 1 sample_accepting sample_unknown_ctl).2 ≠ [] := by
  decide

/-! ## What resets a closing link -/

end PbAdv
